import Mathlib

/-!
# Hardware-driven kernel dispatch: a verification development

Shallow embedding of `src/c/src/runtime/runtime_dispatch.c`, of the probes and
reports of `src/c/src/hardware/hardware_detection.c`, of `suggest_matrix_blocking`
(`src/c/test/hardware/test_hardware_detection.c`), of the integer arrays of
`src/c/src/array/basic/basic_array.c` and `src/c/src/array/dynamic/dynamic_array.c` and
of the generic array of `src/c/src/array/array.c`, followed by the theorems that settle
the specification's claims about them.

Conventions of the embedding.

* C `int` values are `Int`; every loop counter below stays inside `[0, n]`
  for `0 ≤ n ≤ INT_MAX`, so no wrap-around is reachable and none is modelled.
* A `float*` is a map from element offsets to values (`Buf α`).  The float
  type is a parameter `α` and float addition a parameter `fadd`: the scalar
  `+` and every lane of `_mm_add_ps`, `_mm256_add_ps`, `_mm512_add_ps` are the
  same IEEE single-precision addition.
* The aligned load/store intrinsics are modelled by the values they move.
* Preprocessor target macros are a record of booleans (`BuildFlags`).
* CPUID and XGETBV results are inputs of the probe; registers are `Nat` bit
  patterns.  What the operating system, `popen`, `malloc` and `clock` answer is an
  input of the function that asks.
* Undefined behaviour (an access outside an array, signed overflow in the block-size
  computation) makes an operation return `none`.
-/

namespace DSA

/-! ## Data model (`hardware_detection.h`) -/

/-- The struct `CPUFeatures`. -/
structure CPUFeatures where
  mmx : Bool
  sse : Bool
  sse2 : Bool
  sse3 : Bool
  ssse3 : Bool
  sse4_1 : Bool
  sse4_2 : Bool
  avx : Bool
  avx2 : Bool
  avx512f : Bool
  fma : Bool
  neon : Bool
  sve : Bool
  deriving DecidableEq, Repr

/-- The struct `CacheInfo`. -/
structure CacheInfo where
  l1_data_cache_size_kb : Int
  l1_instruction_cache_size_kb : Int
  l2_cache_size_kb : Int
  l3_cache_size_kb : Int
  cache_line_size_bytes : Int
  deriving DecidableEq, Repr

/-- The struct `CPUCores`. -/
structure CPUCores where
  physical_cores : Int
  logical_cores : Int
  deriving DecidableEq, Repr

/-- The struct `MemoryInfo`. -/
structure MemoryInfo where
  total_ram_mb : Int
  deriving DecidableEq, Repr

/-- The struct `GPUInfo`. -/
structure GPUInfo where
  has_cuda_gpu : Bool
  gpu_name : String
  compute_capability_major : Int
  compute_capability_minor : Int
  deriving DecidableEq, Repr

/-- The struct `HardwareProfile`. -/
structure HardwareProfile where
  cpu_features : CPUFeatures
  cache_info : CacheInfo
  cpu_cores : CPUCores
  memory_info : MemoryInfo
  gpu_info : GPUInfo
  deriving DecidableEq, Repr

/-- The value `memset(cpu_features, 0, sizeof(CPUFeatures))` leaves: every flag false. -/
def CPUFeatures.zero : CPUFeatures :=
  { mmx := false, sse := false, sse2 := false, sse3 := false, ssse3 := false,
    sse4_1 := false, sse4_2 := false, avx := false, avx2 := false, avx512f := false,
    fma := false, neon := false, sve := false }

/-- The value of `HardwareProfile hw = {0}`. -/
def HardwareProfile.zero : HardwareProfile :=
  { cpu_features := CPUFeatures.zero,
    cache_info := ⟨0, 0, 0, 0, 0⟩,
    cpu_cores := ⟨0, 0⟩,
    memory_info := ⟨0⟩,
    gpu_info := ⟨false, "", 0, 0⟩ }

/-! ## Runtime dispatch (`runtime_dispatch.c`) -/

/-- A value of the function-pointer type `ArrayAddFn`: the address of one of the
five kernels `array_add_scalar`, `array_add_sse2`, `array_add_avx`,
`array_add_avx2`, `array_add_avx512`. -/
inductive ArrayAddFn where
  | scalar
  | sse2
  | avx
  | avx2
  | avx512
  deriving DecidableEq, Repr

/-- Capability tier of a kernel: scalar < SSE2 < AVX < AVX2 < AVX-512. -/
def ArrayAddFn.tier : ArrayAddFn → Nat
  | .scalar => 0
  | .sse2 => 1
  | .avx => 2
  | .avx2 => 3
  | .avx512 => 4

/-- The process-wide dispatch state: the static `array_add_fn` and what the
dispatcher has printed to standard output so far. -/
structure DispatchState where
  array_add_fn : ArrayAddFn
  stdout : List String
  deriving DecidableEq, Repr

/-- The state at program start: `static ArrayAddFn array_add_fn = array_add_scalar;`
and nothing printed. -/
def DispatchState.initial : DispatchState :=
  { array_add_fn := .scalar, stdout := [] }

/-- The function `init_runtime_dispatch`: the `if / else if` chain over the
profile's feature flags. -/
def init_runtime_dispatch (hw : HardwareProfile) (s : DispatchState) : DispatchState :=
  let out := s.stdout ++ ["Initializing runtime dispatch for optimal performance...\n"]
  if hw.cpu_features.avx512f then
    { array_add_fn := .avx512,
      stdout := out ++ ["- Using AVX-512 instructions for array operations\n"] }
  else if hw.cpu_features.avx2 then
    { array_add_fn := .avx2,
      stdout := out ++ ["- Using AVX2 instructions for array operations\n"] }
  else if hw.cpu_features.avx then
    { array_add_fn := .avx,
      stdout := out ++ ["- Using AVX instructions for array operations\n"] }
  else if hw.cpu_features.sse2 then
    { array_add_fn := .sse2,
      stdout := out ++ ["- Using SSE2 instructions for array operations\n"] }
  else
    { array_add_fn := .scalar,
      stdout := out ++ ["- Using scalar operations (no SIMD)\n"] }

/-- The function `get_array_add_function`: returns the static `array_add_fn`;
the second component is the dispatch state after the call. -/
def get_array_add_function (s : DispatchState) : ArrayAddFn × DispatchState :=
  (s.array_add_fn, s)

/-! ### The kernels -/

/-- A `float*` argument: the value stored at each element offset. -/
abbrev Buf (α : Type) := Int → α

/-- The target macros `__SSE2__`, `__AVX__`, `__AVX2__`, `__AVX512F__` the file
is compiled with. -/
structure BuildFlags where
  sse2 : Bool
  avx : Bool
  avx2 : Bool
  avx512f : Bool
  deriving DecidableEq, Repr

/-- The vector register types `__m128`, `__m256`, `__m512`. -/
inductive VecReg where
  | m128
  | m256
  | m512
  deriving DecidableEq, Repr

/-- Number of 32-bit float lanes of a register type. -/
def VecReg.lanes : VecReg → Nat
  | .m128 => 4
  | .m256 => 8
  | .m512 => 16

/-- The loads `_mm_load_ps(&p[i])`, `_mm256_load_ps`, `_mm512_load_ps`: the
lanes `p[i], p[i+1], ...` in memory order. -/
def mm_load_ps {α : Type} (w : VecReg) (p : Buf α) (i : Int) : List α :=
  (List.range w.lanes).map fun (k : Nat) => p (i + (k : Int))

/-- The lane-wise additions `_mm_add_ps`, `_mm256_add_ps`, `_mm512_add_ps`. -/
def mm_add_ps {α : Type} (fadd : α → α → α) (va vb : List α) : List α :=
  List.zipWith fadd va vb

/-- The stores `_mm_store_ps(&p[i], v)`, `_mm256_store_ps`, `_mm512_store_ps`:
lane `k` of `v` goes to `p[i + k]`, everything else is untouched. -/
def mm_store_ps {α : Type} (p : Buf α) (i : Int) (v : List α) : Buf α :=
  fun j => if i ≤ j then (v[(j - i).toNat]?).getD (p j) else p j

/-- The loop `for (; i < n; i++) c[i] = a[i] + b[i];` started at counter `i`
with output buffer `c`; returns the final counter and buffer. -/
def scalar_loop {α : Type} (fadd : α → α → α) (a b : Buf α) (n : Int)
    (i : Int) (c : Buf α) : Int × Buf α :=
  if i < n then
    scalar_loop fadd a b n (i + 1) (Function.update c i (fadd (a i) (b i)))
  else (i, c)
termination_by (n - i).toNat
decreasing_by omega

/-- The loop `for (; i <= n - W; i += W) { load; load; add; store; }` for the
register type `w` with `W = w.lanes`, started at counter `i`. -/
def simd_loop {α : Type} (fadd : α → α → α) (w : VecReg) (a b : Buf α) (n : Int)
    (i : Int) (c : Buf α) : Int × Buf α :=
  if i ≤ n - (w.lanes : Int) then
    simd_loop fadd w a b n (i + (w.lanes : Int))
      (mm_store_ps c i (mm_add_ps fadd (mm_load_ps w a i) (mm_load_ps w b i)))
  else (i, c)
termination_by (n - i).toNat
decreasing_by cases w <;> simp only [VecReg.lanes] at * <;> omega

/-- The kernel `array_add_scalar`. -/
def array_add_scalar {α : Type} (fadd : α → α → α) (a b c : Buf α) (n : Int) : Buf α :=
  (scalar_loop fadd a b n 0 c).2

/-- The kernel `array_add_sse2`: blocks of 4 then the scalar tail when `__SSE2__`
is defined, otherwise a call of `array_add_scalar`. -/
def array_add_sse2 {α : Type} (flags : BuildFlags) (fadd : α → α → α)
    (a b c : Buf α) (n : Int) : Buf α :=
  if flags.sse2 then
    let r := simd_loop fadd .m128 a b n 0 c
    (scalar_loop fadd a b n r.1 r.2).2
  else array_add_scalar fadd a b c n

/-- The kernel `array_add_avx`: blocks of 8 then the scalar tail when `__AVX__`
is defined, otherwise a call of `array_add_sse2`. -/
def array_add_avx {α : Type} (flags : BuildFlags) (fadd : α → α → α)
    (a b c : Buf α) (n : Int) : Buf α :=
  if flags.avx then
    let r := simd_loop fadd .m256 a b n 0 c
    (scalar_loop fadd a b n r.1 r.2).2
  else array_add_sse2 flags fadd a b c n

/-- The kernel `array_add_avx2`: both preprocessor branches call `array_add_avx`. -/
def array_add_avx2 {α : Type} (flags : BuildFlags) (fadd : α → α → α)
    (a b c : Buf α) (n : Int) : Buf α :=
  if flags.avx2 then array_add_avx flags fadd a b c n
  else array_add_avx flags fadd a b c n

/-- The kernel `array_add_avx512`: blocks of 16 then the scalar tail when
`__AVX512F__` is defined, otherwise a call of `array_add_avx2`. -/
def array_add_avx512 {α : Type} (flags : BuildFlags) (fadd : α → α → α)
    (a b c : Buf α) (n : Int) : Buf α :=
  if flags.avx512f then
    let r := simd_loop fadd .m512 a b n 0 c
    (scalar_loop fadd a b n r.1 r.2).2
  else array_add_avx2 flags fadd a b c n

/-- Calling through a function pointer: `fn(a, b, c, n)`. -/
def ArrayAddFn.call {α : Type} (fn : ArrayAddFn) (flags : BuildFlags) (fadd : α → α → α)
    (a b c : Buf α) (n : Int) : Buf α :=
  match fn with
  | .scalar => array_add_scalar fadd a b c n
  | .sse2 => array_add_sse2 flags fadd a b c n
  | .avx => array_add_avx flags fadd a b c n
  | .avx2 => array_add_avx2 flags fadd a b c n
  | .avx512 => array_add_avx512 flags fadd a b c n

/-- The buffer the kernels are specified to produce: `fadd (a j) (b j)` at every
offset `lo ≤ j < hi`, the old content of `c` elsewhere. -/
def add_range {α : Type} (fadd : α → α → α) (a b c : Buf α) (lo hi : Int) : Buf α :=
  fun j => if lo ≤ j ∧ j < hi then fadd (a j) (b j) else c j

/-! ### Selection as the specification words it -/

/-- The ordered kernel catalog of the specification, most capable tier first:
each descriptor pairs the feature flag it requires with its kernel. -/
def kernel_catalog : List ((CPUFeatures → Bool) × ArrayAddFn) :=
  [ (fun f => f.avx512f, .avx512),
    (fun f => f.avx2, .avx2),
    (fun f => f.avx, .avx),
    (fun f => f.sse2, .sse2) ]

/-- Strict best-first scan: the kernel of the first descriptor of the catalog
whose flag the profile has, the scalar kernel when there is none. -/
def select_best_first (profile : HardwareProfile) : ArrayAddFn :=
  match kernel_catalog.find? (fun d => d.1 profile.cpu_features) with
  | some d => d.2
  | none => .scalar

/-! ## Hardware detection (`hardware_detection.c`) -/

/-- The four registers a CPUID query writes: `cpu_info[0]` = EAX, `cpu_info[1]` = EBX,
`cpu_info[2]` = ECX, `cpu_info[3]` = EDX, as 32-bit patterns. -/
structure CpuidRegs where
  eax : Nat
  ebx : Nat
  ecx : Nat
  edx : Nat
  deriving DecidableEq, Repr

/-- The function `detect_cpu_features`, x86 branch.  `cpuid leaf subleaf` is what the
CPUID instruction returns (`__cpuid(cpu_info, f)` queries subleaf 0) and `xgetbv0` what
`XGETBV` with `ECX = 0` returns; the latter is read only inside `if (cpu_features->avx)`. -/
def detect_cpu_features (cpuid : Nat → Nat → CpuidRegs) (xgetbv0 : Nat) : CPUFeatures :=
  let f := CPUFeatures.zero
  let cpu_info := cpuid 1 0
  let f := { f with mmx := (cpu_info.edx &&& (1 <<< 23)) != 0 }
  let f := { f with sse := (cpu_info.edx &&& (1 <<< 25)) != 0 }
  let f := { f with sse2 := (cpu_info.edx &&& (1 <<< 26)) != 0 }
  let f := { f with sse3 := (cpu_info.ecx &&& (1 <<< 0)) != 0 }
  let f := { f with ssse3 := (cpu_info.ecx &&& (1 <<< 9)) != 0 }
  let f := { f with sse4_1 := (cpu_info.ecx &&& (1 <<< 19)) != 0 }
  let f := { f with sse4_2 := (cpu_info.ecx &&& (1 <<< 20)) != 0 }
  let f := { f with fma := (cpu_info.ecx &&& (1 <<< 12)) != 0 }
  let cpu_info := cpuid 7 0
  let f := { f with avx2 := (cpu_info.ebx &&& (1 <<< 5)) != 0 }
  let f := { f with avx512f := (cpu_info.ebx &&& (1 <<< 16)) != 0 }
  let cpu_info := cpuid 1 0
  let osxsave := (cpu_info.ecx &&& (1 <<< 27)) != 0
  let f := { f with avx := osxsave && ((cpu_info.ecx &&& (1 <<< 28)) != 0) }
  if f.avx then
    let xcr0 := xgetbv0
    let f := { f with avx := (xcr0 &&& 6) == 6 }
    if f.avx512f then
      { f with avx512f := (xcr0 &&& 0xE0) == 0xE0 }
    else f
  else f

/-- The function `detect_cpu_cores`: `raw` holds the two counts as the platform
branch (Windows, macOS or Linux enumeration) left them in `*cpu_cores`; the body
is the sanity step that follows the `#endif`. -/
def detect_cpu_cores (raw : CPUCores) : CPUCores :=
  let cpu_cores := raw
  let cpu_cores :=
    if cpu_cores.physical_cores < 1 then { cpu_cores with physical_cores := 1 } else cpu_cores
  let cpu_cores :=
    if cpu_cores.logical_cores < 1 then { cpu_cores with logical_cores := 1 } else cpu_cores
  if cpu_cores.logical_cores < cpu_cores.physical_cores then
    { cpu_cores with logical_cores := cpu_cores.physical_cores }
  else cpu_cores

/-- The function `detect_memory_info`: `query` is the outcome of the platform RAM
query, `none` when the call fails (the field then keeps its initial 0) and `some v`
when it succeeds with `v` the megabyte count converted to `long`. -/
def detect_memory_info (query : Option Int) : MemoryInfo :=
  let memory_info : MemoryInfo := { total_ram_mb := 0 }
  let memory_info : MemoryInfo :=
    match query with
    | some v => { memory_info with total_ram_mb := v }
    | none => memory_info
  if memory_info.total_ram_mb ≤ 0 then
    { memory_info with total_ram_mb := 1024 }
  else memory_info

/-- The value `detect_cache_sizes` starts from: every field at the sentinel -1. -/
def CacheInfo.unknown : CacheInfo :=
  { l1_data_cache_size_kb := -1,
    l1_instruction_cache_size_kb := -1,
    l2_cache_size_kb := -1,
    l3_cache_size_kb := -1,
    cache_line_size_bytes := -1 }

/-- The block `// Fallback values for common architectures if detection failed` that ends
`detect_cache_sizes`. -/
def detect_cache_sizes.fallback (cache_info : CacheInfo) : CacheInfo :=
  let cache_info :=
    if cache_info.cache_line_size_bytes < 0 then
      { cache_info with cache_line_size_bytes := 64 }
    else cache_info
  let cache_info :=
    if cache_info.l1_data_cache_size_kb < 0 then
      { cache_info with l1_data_cache_size_kb := 32 }
    else cache_info
  let cache_info :=
    if cache_info.l1_instruction_cache_size_kb < 0 then
      { cache_info with l1_instruction_cache_size_kb := 32 }
    else cache_info
  if cache_info.l2_cache_size_kb < 0 then
    { cache_info with l2_cache_size_kb := 256 }
  else cache_info

/-- The function `detect_cache_sizes`: every field starts at the sentinel -1, the
platform branch (CPUID leaf 4 on Windows, `sysctlbyname` on macOS, the sysfs cache
directories on Linux) rewrites the fields it resolves, given here as the map `platform`
on the struct, and the common fallback block after the `#endif` follows. -/
def detect_cache_sizes (platform : CacheInfo → CacheInfo) : CacheInfo :=
  detect_cache_sizes.fallback (platform CacheInfo.unknown)

/-- The first line `nvidia-smi` printed, as the parsing code sees it: the first
`strtok(buffer, ",")` token if there is one, and the values `sscanf(token, "%d.%d", ...)`
assigned from the third token, in order (none when the third token is missing or does
not start with a number). -/
structure NvidiaSmiLine where
  name_token : Option String
  sscanf_assigned : List Int
  deriving DecidableEq, Repr

/-- The first line of `lspci | grep -i nvidia`, newline removed, and the result of
`strstr(buffer, "NVIDIA")` on it. -/
structure LspciLine where
  buffer : String
  name_start : Option String
  deriving DecidableEq, Repr

/-- Outcome of the two external GPU queries: for each, `none` when `popen` fails,
`some none` when `fgets` reads no line, `some (some l)` when it reads the line `l`. -/
structure GpuQueries where
  nvidia_smi : Option (Option NvidiaSmiLine)
  lspci_grep : Option (Option LspciLine)
  deriving DecidableEq, Repr

/-- The call `strncpy(gpu_info->gpu_name, src, sizeof(gpu_info->gpu_name) - 1)` into the
zero-filled 256-byte field: the first 255 characters of `src`. -/
def strncpy_gpu_name (src : String) : String := src.take 255

/-- First block of `detect_gpu_info` (systems other than Windows): the `nvidia-smi`
query and the parsing of its first line. -/
def detect_gpu_info.nvidia_smi (q : GpuQueries) (gpu_info : GPUInfo) : GPUInfo :=
  match q.nvidia_smi with
  | some (some line) =>
    let gpu_info := { gpu_info with has_cuda_gpu := true }
    match line.name_token with
    | some token =>
      let gpu_info := { gpu_info with gpu_name := strncpy_gpu_name token }
      match line.sscanf_assigned with
      | [] => gpu_info
      | [major] => { gpu_info with compute_capability_major := major }
      | major :: minor :: _ =>
        { gpu_info with compute_capability_major := major,
                        compute_capability_minor := minor }
    | none => gpu_info
  | _ => gpu_info

/-- Second block of `detect_gpu_info`: `if (!gpu_info->has_cuda_gpu)` the `lspci` query. -/
def detect_gpu_info.lspci (q : GpuQueries) (gpu_info : GPUInfo) : GPUInfo :=
  if gpu_info.has_cuda_gpu = false then
    match q.lspci_grep with
    | some (some line) =>
      let gpu_info := { gpu_info with has_cuda_gpu := true }
      match line.name_start with
      | some name_start => { gpu_info with gpu_name := strncpy_gpu_name name_start }
      | none => { gpu_info with gpu_name := strncpy_gpu_name line.buffer }
    | _ => gpu_info
  else gpu_info

/-- Last block of `detect_gpu_info`: the default compute capability 1.0. -/
def detect_gpu_info.default_capability (gpu_info : GPUInfo) : GPUInfo :=
  if gpu_info.has_cuda_gpu = true ∧ gpu_info.compute_capability_major < 0 then
    { gpu_info with compute_capability_major := 1, compute_capability_minor := 0 }
  else gpu_info

/-- The function `detect_gpu_info`, the branch for systems other than Windows. -/
def detect_gpu_info (q : GpuQueries) : GPUInfo :=
  let gpu_info : GPUInfo :=
    { has_cuda_gpu := false,
      gpu_name := "Unknown",
      compute_capability_major := -1,
      compute_capability_minor := -1 }
  let gpu_info := detect_gpu_info.nvidia_smi q gpu_info
  let gpu_info := detect_gpu_info.lspci q gpu_info
  detect_gpu_info.default_capability gpu_info

/-- A value of type `double` as far as `estimate_memory_bandwidth` produces one: a
finite value, given as the exact rational (rounding of finite results is not
modelled), an infinity, or NaN. -/
inductive CDouble where
  | finite (q : ℚ)
  | pos_inf
  | neg_inf
  | nan
  deriving DecidableEq

/-- IEEE 754 division `x / y` of two finite doubles, `y` being `+0.0` when it is zero:
a non-zero `x` over zero gives the infinity of the sign of `x`, zero over zero NaN. -/
def CDouble.div_finite (x y : ℚ) : CDouble :=
  if y = 0 then
    if 0 < x then .pos_inf else if x < 0 then .neg_inf else .nan
  else .finite (x / y)

/-- The literal `-1.0` that `estimate_memory_bandwidth` returns as its sentinel. -/
def bandwidth_sentinel : CDouble := .finite (-1)

/-- What `estimate_memory_bandwidth` meets outside itself: whether `malloc` returns a
buffer, the two readings of `clock()`, and the constant `CLOCKS_PER_SEC`. -/
structure BandwidthEnv where
  malloc_ok : Bool
  clock_start : Int
  clock_end : Int
  clocks_per_sec : Nat
  deriving DecidableEq, Repr

/-- The library calls `estimate_memory_bandwidth` makes. -/
inductive BandwidthCall where
  | malloc
  | clock
  | free
  deriving DecidableEq, Repr

/-- The function `estimate_memory_bandwidth`: the returned double and the library calls
made, in order.  The fill loop and the ten summing passes change only the buffer and the
volatile `sum`, neither of which reaches the result. -/
def estimate_memory_bandwidth (hw : HardwareProfile) (env : BandwidthEnv) :
    CDouble × List BandwidthCall :=
  let buffer_size : Nat := 1024 * 1024 * 128
  let iterations : Int := 10
  if hw.memory_info.total_ram_mb < 256 then
    (.finite (-1), [])
  else if env.malloc_ok = false then
    (.finite (-1), [.malloc])
  else
    let elapsed_seconds : ℚ :=
      ((env.clock_end - env.clock_start : Int) : ℚ) / (env.clocks_per_sec : ℚ)
    let bytes_processed : ℚ := (buffer_size : ℚ) * (iterations : ℚ)
    let bandwidth_mbps := CDouble.div_finite (bytes_processed / (1024 * 1024)) elapsed_seconds
    (bandwidth_mbps, [.malloc, .clock, .clock, .free])

/-! ### Advice printed from a profile (`print_hardware_profile`, `suggest_matrix_blocking`) -/

/-- Conversion of an integer value to `int` where it is implementation-defined
(reduction modulo 2^32 into the signed range). -/
def wrap_int32 (x : Int) : Int := (x + 2147483648) % 4294967296 - 2147483648

/-- Conversion of an `int` to `size_t` (reduction modulo 2^64). -/
def to_size_t (x : Int) : Nat := (x % 18446744073709551616).toNat

/-- Multiplication of two `int`s: `none` when the product leaves the range of `int`
(signed overflow, undefined behaviour). -/
def int_mul (x y : Int) : Option Int :=
  if -2147483648 ≤ x * y ∧ x * y ≤ 2147483647 then some (x * y) else none

/-- The initialiser `sqrt(cache_size_kb * 1024 / (3 * sizeof(float)))` of an `int`: the
`int` product, converted to `size_t` for the division by 12, converted to `double` for
`sqrt`, truncated back to `int`.  For a product in `[0, INT_MAX]` the quotient is below
2^28, where `(int)sqrt((double)x)` is exactly the integer square root of `x`. -/
def matrix_block_size (cache_size_kb : Int) : Option Int :=
  match int_mul cache_size_kb 1024 with
  | none => none
  | some bytes => some ((Nat.sqrt (to_size_t bytes / (3 * 4)) : Nat) : Int)

/-- One `printf` of `suggest_matrix_blocking`, with the values it formats. -/
inductive MatrixLine where
  /-- The line `=== MATRIX OPERATION RECOMMENDATIONS ===`. -/
  | header
  /-- The line `Cache information not available for optimal blocking.` -/
  | cache_unavailable
  /-- The line `For matrix operations (multiplication, etc.):`. -/
  | blocks_intro
  /-- The line `- L1 optimal block size: %d x %d`. -/
  | l1_block (size : Int)
  /-- The line `- L2 optimal block size: %d x %d`. -/
  | l2_block (size : Int)
  /-- The line `For parallelizing matrix operations:`. -/
  | parallel_intro
  /-- The line `- Use %d threads (physical cores) for best performance`. -/
  | use_threads (n : Int)
  /-- The line `- Limited thread parallelism available (%d cores)`. -/
  | limited_threads (n : Int)
  /-- The line `- For large matrices (>2048x2048), consider using GPU acceleration`. -/
  | gpu_acceleration
  deriving DecidableEq, Repr

/-- The function `suggest_matrix_blocking` (`test_hardware_detection.c`): the lines it
prints, `none` when a block-size initialiser overflows `int`. -/
def suggest_matrix_blocking (hw : HardwareProfile) : Option (List MatrixLine) :=
  if hw.cache_info.l1_data_cache_size_kb ≤ 0 ∨ hw.cache_info.l2_cache_size_kb ≤ 0 then
    some [.header, .cache_unavailable]
  else
    match matrix_block_size hw.cache_info.l1_data_cache_size_kb,
          matrix_block_size hw.cache_info.l2_cache_size_kb with
    | some l1_block_size, some l2_block_size =>
      let cache_line_floats : Int :=
        wrap_int32 ((to_size_t hw.cache_info.cache_line_size_bytes / 4 : Nat) : Int)
      let l1_block_size : Int :=
        if cache_line_floats > 0 then
          (Int.tdiv l1_block_size cache_line_floats) * cache_line_floats
        else l1_block_size
      let l2_block_size : Int :=
        if cache_line_floats > 0 then
          (Int.tdiv l2_block_size cache_line_floats) * cache_line_floats
        else l2_block_size
      some ([.header, .blocks_intro, .l1_block l1_block_size, .l2_block l2_block_size,
              .parallel_intro]
            ++ (if hw.cpu_cores.logical_cores ≥ 4 then
                  [MatrixLine.use_threads hw.cpu_cores.physical_cores]
                else [MatrixLine.limited_threads hw.cpu_cores.logical_cores])
            ++ (if hw.gpu_info.has_cuda_gpu = true
                    ∧ hw.gpu_info.compute_capability_major ≥ 3 then
                  [MatrixLine.gpu_acceleration]
                else []))
    | _, _ => none

/-- One `printf` of the threading recommendation of `print_hardware_profile`, after the
label `Threading:`. -/
inductive ThreadingLine where
  /-- The line `Use %d threads for compute-bound tasks`. -/
  | compute_bound (n : Int)
  /-- The line `Use %d threads for memory-bound tasks`. -/
  | memory_bound (n : Int)
  /-- The line `Use thread pool with %d threads`. -/
  | thread_pool (n : Int)
  /-- The line `Limited benefit, focus on vectorization`. -/
  | limited_benefit
  deriving DecidableEq, Repr

/-- The block `// Threading recommendations` of `print_hardware_profile`. -/
def print_hardware_profile_threading (hw : HardwareProfile) : List ThreadingLine :=
  if hw.cpu_cores.logical_cores ≥ 16 then
    [.compute_bound hw.cpu_cores.logical_cores, .memory_bound hw.cpu_cores.physical_cores]
  else if hw.cpu_cores.logical_cores ≥ 4 then
    [.thread_pool hw.cpu_cores.logical_cores]
  else
    [.limited_benefit]

/-! ## Integer arrays (`basic_array.c`, `dynamic_array.c`)

`size_t` values are `Nat`.  An access outside the storage of an array is undefined
behaviour and makes the operation return `none`; otherwise an operation returns its
`int` result and the array after the call.  The diagnostic `printf` of the failure
branches is left out. -/

/-- The macro `MAX_CAPACITY`. -/
def MAX_CAPACITY : Nat := 100

/-- The struct `StaticIntArray`: the content of the slots `array[0 .. MAX_CAPACITY - 1]`
and the `length`. -/
structure StaticIntArray where
  array : Nat → Int
  length : Nat

/-- The loop `for (int j = a->length; j > i; j++) a->array[j] = a->array[j - 1];` of
`InsertStaticIntArray`, from counter `j`. -/
def InsertStaticIntArray.shift (i : Nat) (j : Nat) (array : Nat → Int) : Option (Nat → Int) :=
  if j > i then
    if j < MAX_CAPACITY then
      InsertStaticIntArray.shift i (j + 1) (Function.update array j (array (j - 1)))
    else none
  else some array
termination_by MAX_CAPACITY - j
decreasing_by omega

/-- The function `InsertStaticIntArray`. -/
def InsertStaticIntArray (a : StaticIntArray) (i : Nat) (v : Int) :
    Option (Int × StaticIntArray) :=
  if i > a.length then some (0, a)
  else if a.length ≥ MAX_CAPACITY then some (0, a)
  else
    let shifted : Option (Nat → Int) :=
      if i < a.length then InsertStaticIntArray.shift i a.length a.array
      else some a.array
    match shifted with
    | none => none
    | some array =>
      if i < MAX_CAPACITY then
        some (1, { array := Function.update array i v, length := a.length + 1 })
      else none

/-- The loop `for (size_t j = i; j < a->length - 1; j++) a->array[j] = a->array[j + 1];`
of `DeleteStaticIntArray`, from counter `j`; `length` is at least 1 where it runs. -/
def DeleteStaticIntArray.shift (length : Nat) (j : Nat) (array : Nat → Int) :
    Option (Nat → Int) :=
  if j < length - 1 then
    if j + 1 < MAX_CAPACITY then
      DeleteStaticIntArray.shift length (j + 1) (Function.update array j (array (j + 1)))
    else none
  else some array
termination_by length - 1 - j
decreasing_by omega

/-- The function `DeleteStaticIntArray`. -/
def DeleteStaticIntArray (a : StaticIntArray) (i : Nat) : Option (Int × StaticIntArray) :=
  if i ≥ a.length then some (0, a)
  else
    match DeleteStaticIntArray.shift a.length i a.array with
    | none => none
    | some array => some (1, { array := array, length := a.length - 1 })

/-- The struct `DynamicIntArray`: the content of the heap block `parray` points to
(cells `0 .. capacity - 1`; no block when `capacity = 0`), `length` and `capacity`. -/
structure DynamicIntArray where
  parray : Nat → Int
  length : Nat
  capacity : Nat

/-- The function `AllocateDynamicIntArray`; `realloc_ok` tells whether `realloc`
returns a block.  `realloc` keeps the old cells; the new ones hold whatever `parray`
gives there. -/
def AllocateDynamicIntArray (a : DynamicIntArray) (n : Nat) (realloc_ok : Bool) :
    Int × DynamicIntArray :=
  if n ≤ a.capacity then (1, a)
  else if realloc_ok = false then (0, a)
  else (1, { a with capacity := n })

/-- The loop `for (size_t j = a->length; j > i; j++) a->parray[j] = a->parray[j - 1];`
of `InsertDynamicIntArray`, from counter `j`, in a block of `capacity` cells. -/
def InsertDynamicIntArray.shift (capacity : Nat) (i : Nat) (j : Nat) (parray : Nat → Int) :
    Option (Nat → Int) :=
  if j > i then
    if j < capacity then
      InsertDynamicIntArray.shift capacity i (j + 1)
        (Function.update parray j (parray (j - 1)))
    else none
  else some parray
termination_by capacity - j
decreasing_by omega

/-- The function `InsertDynamicIntArray`. -/
def InsertDynamicIntArray (a : DynamicIntArray) (i : Nat) (v : Int) (realloc_ok : Bool) :
    Option (Int × DynamicIntArray) :=
  if i > a.length then some (0, a)
  else
    let grown : Int × DynamicIntArray :=
      if a.length ≥ a.capacity then AllocateDynamicIntArray a (a.capacity + 1) realloc_ok
      else (1, a)
    if grown.1 = 0 then some (0, grown.2)
    else
      let a := grown.2
      let shifted : Option (Nat → Int) :=
        if i < a.length then InsertDynamicIntArray.shift a.capacity i a.length a.parray
        else some a.parray
      match shifted with
      | none => none
      | some parray =>
        if i < a.capacity then
          some (1, { a with parray := Function.update parray i v, length := a.length + 1 })
        else none

/-- The function `GetDynamicIntArray`; `v` is the content of `*v` before the call, the
second component of the result its content after. -/
def GetDynamicIntArray (a : DynamicIntArray) (i : Nat) (v : Int) : Option (Int × Int) :=
  if i ≥ a.length then some (0, v)
  else if i < a.capacity then some (1, a.parray i)
  else none

/-- Reduction of a sum or product of `size_t` values modulo 2^64. -/
def size_t_wrap (n : Nat) : Nat := n % 18446744073709551616

/-- The function `NewStaticIntArray`: the length is 0, the slots hold whatever was in
the local variable (`garbage`). -/
def NewStaticIntArray (garbage : Nat → Int) : StaticIntArray :=
  { array := garbage, length := 0 }

/-- The function `ClearStaticIntArray`. -/
def ClearStaticIntArray (a : StaticIntArray) : StaticIntArray :=
  { a with length := 0 }

/-- The function `GetStaticIntArray`; `v` is the content of `*v` before the call, the
second component of the result its content after. -/
def GetStaticIntArray (a : StaticIntArray) (i : Nat) (v : Int) : Option (Int × Int) :=
  if i ≥ a.length then some (0, v)
  else if i < MAX_CAPACITY then some (1, a.array i)
  else none

/-- The loop `for (size_t i = 0; i < b->length; i++) a->array[a->length + i] = b->array[i];`
of `FlattenStaticIntArray`, from counter `i`. -/
def FlattenStaticIntArray.copy (a_length b_length : Nat) (b_array : Nat → Int)
    (i : Nat) (a_array : Nat → Int) : Option (Nat → Int) :=
  if i < b_length then
    if a_length + i < MAX_CAPACITY ∧ i < MAX_CAPACITY then
      FlattenStaticIntArray.copy a_length b_length b_array (i + 1)
        (Function.update a_array (a_length + i) (b_array i))
    else none
  else some a_array
termination_by b_length - i
decreasing_by omega

/-- The function `FlattenStaticIntArray` on two distinct arrays: the `int` result, the
array `a` and the array `b` after the call. -/
def FlattenStaticIntArray (a b : StaticIntArray) :
    Option (Int × StaticIntArray × StaticIntArray) :=
  if size_t_wrap (a.length + b.length) > MAX_CAPACITY then some (0, a, b)
  else
    match FlattenStaticIntArray.copy a.length b.length b.array 0 a.array with
    | none => none
    | some array =>
      some (1, { array := array, length := size_t_wrap (a.length + b.length) }, b)

/-- The function `FreeDynamicIntArray`: the block is released, `parray` is `NULL`. -/
def FreeDynamicIntArray (a : DynamicIntArray) : DynamicIntArray :=
  { a with length := 0, capacity := 0 }

/-- The function `DeallocateDynamicIntArray`. -/
def DeallocateDynamicIntArray (a : DynamicIntArray) (realloc_ok : Bool) :
    Int × DynamicIntArray :=
  let a := if a.length = 0 then FreeDynamicIntArray a else a
  let allocated := AllocateDynamicIntArray a a.length realloc_ok
  (1, allocated.2)

/-! ## The generic array (`array.h`, `array.c`)

An element is a `Value`; the data block of an array is the map from cell index to the
value stored there together with the size of the block in bytes.  Sizes of types are
those of the LP64 x86-64 targets the repository is built for.  A function that returns
an `Array*` returns `some a` for a pointer to `a` and `none` for `NULL`; a further outer
`none` stands for undefined behaviour (a write or read outside a block, a conversion
whose result does not fit).  The `fprintf(stderr, ...)` calls are left out.

A finite `double` or `float` is the rational it denotes; `+`, `-`, `*`, `/` and the
conversions to floating types round the exact result to the nearest representable value,
ties to even (IEEE 754 binary64 and binary32, each operation rounded on its own).  An
operation whose rounded result is not finite gives `none`: infinities and NaN are outside
the model, and so is the sign of zero. -/

/-- Rounding of a rational to the nearest integer, ties to the even one. -/
def round_half_even (x : ℚ) : Int :=
  if x - (⌊x⌋ : ℚ) < 1 / 2 then ⌊x⌋
  else if 1 / 2 < x - (⌊x⌋ : ℚ) then ⌊x⌋ + 1
  else if ⌊x⌋ % 2 = 0 then ⌊x⌋ else ⌊x⌋ + 1

/-- Rounding to the nearest binary floating-point number with a significand of `p`
bits and least exponent `emin` of the unit in the last place, ties to even: with
`2^e ≤ |x| < 2^(e+1)` the unit in the last place is `2^(e + 1 - p)`, and `2^emin` in
the subnormal range. -/
def round_binary (p : Nat) (emin : Int) (x : ℚ) : ℚ :=
  if x = 0 then 0
  else
    (round_half_even (x / (2 : ℚ) ^ (max (Int.log 2 |x| + 1 - (p : Int)) emin)) : ℚ)
      * (2 : ℚ) ^ (max (Int.log 2 |x| + 1 - (p : Int)) emin)

/-- Rounding to `double` (binary64: 53-bit significand, least subnormal `2^-1074`). -/
def round_double (x : ℚ) : ℚ := round_binary 53 (-1074) x

/-- Rounding to `float` (binary32: 24-bit significand, least subnormal `2^-149`). -/
def round_float (x : ℚ) : ℚ := round_binary 24 (-149) x

/-- The `double` an exact result `x` rounds to, `none` when it is not finite. -/
def double_result (x : ℚ) : Option ℚ :=
  if |round_double x| < (2 : ℚ) ^ 1024 then some (round_double x) else none

/-- The `float` an exact result `x` rounds to, `none` when it is not finite. -/
def float_result (x : ℚ) : Option ℚ :=
  if |round_float x| < (2 : ℚ) ^ 128 then some (round_float x) else none

/-- The conversion `(double)n` of a `size_t`. -/
def size_t_to_double (n : Nat) : ℚ := round_double (n : ℚ)

/-- Truncation toward zero, the integer part a conversion to an integer type keeps. -/
def trunc_toward_zero (x : ℚ) : Int := if 0 ≤ x then ⌊x⌋ else ⌈x⌉

/-- The conversion `(int)x` of a double: undefined when the integer part does not fit. -/
def double_to_int (x : ℚ) : Option Int :=
  if -2147483648 ≤ trunc_toward_zero x ∧ trunc_toward_zero x ≤ 2147483647 then
    some (trunc_toward_zero x)
  else none

/-- The conversion `(char)x` of a double (`char` is signed, 8 bits): undefined when the
integer part does not fit. -/
def double_to_char (x : ℚ) : Option Int :=
  if -128 ≤ trunc_toward_zero x ∧ trunc_toward_zero x ≤ 127 then
    some (trunc_toward_zero x)
  else none

/-- The conversion `(size_t)x` of a double: undefined when the integer part does not
fit. -/
def double_to_size_t (x : ℚ) : Option Nat :=
  if 0 ≤ trunc_toward_zero x ∧ trunc_toward_zero x < 18446744073709551616 then
    some (trunc_toward_zero x).toNat
  else none

/-- The enum `Type` of `array.h`; `invalid` stands for a value that is none of the
seven enumerators. -/
inductive ElemType where
  | INT
  | FLOAT
  | DOUBLE
  | CHAR
  | STRING
  | BOOL
  | ARRAY
  | invalid
  deriving DecidableEq, Repr

/-- What a cell of a data block, or the object a `void*` points to, holds. -/
inductive Value where
  | int (v : Int)
  | float (x : ℚ)
  | double (x : ℚ)
  | char (v : Int)
  | string (s : String)
  | bool (b : Bool)
  | array (address : Nat)
  | indeterminate
  deriving DecidableEq

/-- The struct `Array`.  `parray` gives the content of the cells of the data block and
`parray_bytes` the size in bytes the block was allocated with. -/
structure Array where
  parray : Nat → Value
  parray_bytes : Nat
  type : ElemType
  sizeof_type : Nat
  shape : List Nat
  num_dimensions : Nat
  count : Nat
  capacity : Nat
  is_dynamic : Bool

/-- The answers of the allocator: whether `malloc` returns a block for the `Array`
struct, for the shape and for the data, and whether the `i`-th `strdup` of a filling
loop succeeds. -/
structure MallocEnv where
  array_ok : Bool
  shape_ok : Bool
  data_ok : Bool
  strdup_ok : Nat → Bool

/-- The function `array_sizeof_type`. -/
def array_sizeof_type (type : ElemType) : Nat :=
  match type with
  | .INT => 4
  | .FLOAT => 4
  | .DOUBLE => 8
  | .CHAR => 1
  | .STRING => 8
  | .BOOL => 1
  | .ARRAY => 8
  | .invalid => 0

/-- The function `array_allocate` on a non-null `array`: the size in bytes of the block
`malloc(array->capacity * array->sizeof_type)` returns, `none` for `NULL`. -/
def array_allocate (env : MallocEnv) (array : Array) : Option Nat :=
  if env.data_ok = false then none
  else some (size_t_wrap (array.capacity * array.sizeof_type))

/-- The function `array_create`. -/
def array_create (env : MallocEnv) (size : Nat) (type : ElemType) (is_dynamic : Bool) :
    Option Array :=
  if env.array_ok = false then none
  else if array_sizeof_type type = 0 then none
  else if env.shape_ok = false then none
  else
    let array : Array :=
      { parray := fun _ => Value.indeterminate,
        parray_bytes := 0,
        type := type,
        sizeof_type := array_sizeof_type type,
        shape := [size],
        num_dimensions := 1,
        count := size,
        capacity :=
          if is_dynamic = true then (if size > 0 then size_t_wrap (size * 2) else 8)
          else size,
        is_dynamic := is_dynamic }
    match array_allocate env array with
    | none => none
    | some bytes => some { array with parray_bytes := bytes }

/-- The function `array_empty`. -/
def array_empty (env : MallocEnv) (size : Nat) (type : ElemType) (is_dynamic : Bool) :
    Option Array :=
  array_create env size type is_dynamic

/-- The filling loops
`for (size_t i = 0; i < size; i++) { ... memcpy((char*)array->parray + i * array->sizeof_type, &value, array->sizeof_type); }`
from counter `i`: `value i` is the value computed in iteration `i` (`none` when its
computation is undefined), `sizeof_type` and `bytes` describe the block. -/
def fill_loop (sizeof_type bytes size : Nat) (value : Nat → Option Value)
    (i : Nat) (parray : Nat → Value) : Option (Nat → Value) :=
  if i < size then
    match value i with
    | none => none
    | some v =>
      if (i + 1) * sizeof_type ≤ bytes then
        fill_loop sizeof_type bytes size value (i + 1) (Function.update parray i v)
      else none
  else some parray
termination_by size - i
decreasing_by omega

/-- The loop of the `STRING` branch of `array_full`: each iteration duplicates
`str_value`.  After a failed `strdup` the code frees the strings built so far and then
calls `array_free`, which for a `STRING` array frees the pointer in every one of the
`count` cells, those freed already and those not yet written: undefined behaviour. -/
def array_full.strings (env : MallocEnv) (sizeof_type bytes size : Nat) (str_value : String)
    (i : Nat) (parray : Nat → Value) : Option (Nat → Value) :=
  if i < size then
    if env.strdup_ok i = false then none
    else if (i + 1) * sizeof_type ≤ bytes then
      array_full.strings env sizeof_type bytes size str_value (i + 1)
        (Function.update parray i (Value.string str_value))
    else none
  else some parray
termination_by size - i
decreasing_by omega

/-- The function `array_full`; `value` is `none` for a null pointer and `some v` for a
pointer to an object whose first `sizeof_type` bytes, read as an element of the type,
are `v` (for `STRING`, a pointer to a `char*` that points to the string). -/
def array_full (env : MallocEnv) (size : Nat) (type : ElemType) (value : Option Value)
    (is_dynamic : Bool) : Option (Option Array) :=
  match value with
  | none => some none
  | some v =>
    match array_create env size type is_dynamic with
    | none => some none
    | some array =>
      if type = ElemType.STRING then
        match v with
        | Value.string str_value =>
          match array_full.strings env array.sizeof_type array.parray_bytes size str_value 0
              array.parray with
          | none => none
          | some parray => some (some { array with parray := parray })
        | _ => none
      else
        match fill_loop array.sizeof_type array.parray_bytes size (fun _ => some v) 0
            array.parray with
        | none => none
        | some parray => some (some { array with parray := parray })

/-- The conversion of a double to the element type in the `switch` of `array_arange` and
`array_linspace`: `(int)x`, `(float)x`, `x`, `(char)x`. -/
def sequence_value (type : ElemType) (x : ℚ) : Option Value :=
  match type with
  | .INT => (double_to_int x).map Value.int
  | .FLOAT => (float_result x).map Value.float
  | .DOUBLE => some (Value.double x)
  | .CHAR => (double_to_char x).map Value.char
  | _ => none

/-- The expression `start + i * step` of the filling loops, in double arithmetic. -/
def sequence_point (start step : ℚ) (i : Nat) : Option ℚ :=
  (double_result (size_t_to_double i * step)).bind fun product =>
    double_result (start + product)

/-- The value stored in iteration `i` of the filling loops of `array_arange` and
`array_linspace`. -/
def sequence_element (type : ElemType) (start step : ℚ) (i : Nat) : Option Value :=
  (sequence_point start step i).bind (sequence_value type)

/-- The line `size_t size = (size_t)ceil(fabs((stop - start) / step));` of
`array_arange`. -/
def array_arange.size (start stop step : ℚ) : Option Nat :=
  ((double_result (stop - start)).bind fun difference =>
    double_result (difference / step)).bind fun quotient =>
      double_to_size_t (⌈|quotient|⌉ : ℚ)

/-- The function `array_arange`.  For the types `BOOL` and `ARRAY` the created array is
freed and `NULL` returned; for `STRING`, `array_free` frees the pointers in the cells of
the block, which were never written: undefined behaviour. -/
def array_arange (env : MallocEnv) (start stop step : ℚ) (type : ElemType)
    (is_dynamic : Bool) : Option (Option Array) :=
  if step = 0 then some none
  else if (step > 0 ∧ start ≥ stop) ∨ (step < 0 ∧ start ≤ stop) then some none
  else
    match array_arange.size start stop step with
    | none => none
    | some size =>
      if size = 0 then some none
      else
        match array_create env size type is_dynamic with
        | none => some none
        | some array =>
          if type = ElemType.INT ∨ type = ElemType.FLOAT ∨ type = ElemType.DOUBLE
              ∨ type = ElemType.CHAR then
            match fill_loop array.sizeof_type array.parray_bytes size
                (sequence_element type start step) 0 array.parray with
            | none => none
            | some parray => some (some { array with parray := parray })
          else if type = ElemType.STRING then none
          else some none

/-- The line `double step = (stop - start) / (num_points - 1);` of `array_linspace`. -/
def array_linspace.step (start stop : ℚ) (num_points : Nat) : Option ℚ :=
  (double_result (stop - start)).bind fun difference =>
    double_result (difference / size_t_to_double (num_points - 1))

/-- The function `array_linspace`.  For the types `BOOL` and `ARRAY` the created array is
freed and `NULL` returned; for `STRING`, `array_free` frees the pointers in the cells of
the block, which were never written: undefined behaviour. -/
def array_linspace (env : MallocEnv) (start stop : ℚ) (num_points : Nat) (type : ElemType)
    (is_dynamic : Bool) : Option (Option Array) :=
  if num_points < 2 then some none
  else
    match array_create env num_points type is_dynamic with
    | none => some none
    | some array =>
      match array_linspace.step start stop num_points with
      | none => none
      | some step =>
        if type = ElemType.INT ∨ type = ElemType.FLOAT ∨ type = ElemType.DOUBLE
            ∨ type = ElemType.CHAR then
          match fill_loop array.sizeof_type array.parray_bytes num_points
              (sequence_element type start step) 0 array.parray with
          | none => none
          | some parray =>
            match sequence_value type stop with
            | none => none
            | some last =>
              if num_points * array.sizeof_type ≤ array.parray_bytes then
                some (some { array with
                  parray := Function.update parray (num_points - 1) last })
              else none
        else if type = ElemType.STRING then none
        else some none

/-- The loop of the `STRING` branch of `array_copy`: each iteration duplicates the
string the source cell points to.  After a failed `strdup` the code frees the strings
built so far and then calls `array_free`, which frees the pointer in every one of the
`count` cells again: undefined behaviour. -/
def array_copy.strings (env : MallocEnv) (source : Array) (sizeof_type bytes : Nat)
    (i : Nat) (parray : Nat → Value) : Option (Nat → Value) :=
  if i < source.count then
    if (i + 1) * source.sizeof_type ≤ source.parray_bytes then
      match source.parray i with
      | Value.string s =>
        if env.strdup_ok i = false then none
        else if (i + 1) * sizeof_type ≤ bytes then
          array_copy.strings env source sizeof_type bytes (i + 1)
            (Function.update parray i (Value.string s))
        else none
      | _ => none
    else none
  else some parray
termination_by source.count - i
decreasing_by omega

/-- The function `array_copy`: the source after the call and the returned pointer;
`source` is `none` for a null pointer.  For the `memcpy` of the other types the cells
of the two blocks correspond when both arrays have the same `sizeof_type`; a source
whose `sizeof_type` field differs from the size of its type is outside the model. -/
def array_copy (env : MallocEnv) (source : Option Array) (is_dynamic : Bool) :
    Option (Option Array × Option Array) :=
  match source with
  | none => some (none, none)
  | some src =>
    match array_create env src.count src.type is_dynamic with
    | none => some (some src, none)
    | some array =>
      if src.type = ElemType.STRING then
        match array_copy.strings env src array.sizeof_type array.parray_bytes 0
            array.parray with
        | none => none
        | some parray => some (some src, some { array with parray := parray })
      else
        if src.sizeof_type = array.sizeof_type
            ∧ size_t_wrap (src.count * src.sizeof_type) ≤ array.parray_bytes
            ∧ size_t_wrap (src.count * src.sizeof_type) ≤ src.parray_bytes then
          some (some src, some { array with
            parray := fun k =>
              if (k + 1) * array.sizeof_type ≤ size_t_wrap (src.count * src.sizeof_type)
              then src.parray k else array.parray k })
        else none

/-! ### Concrete inputs used below -/

/-- A profile whose only set flag is `avx512f`. -/
def profile_avx512_only : HardwareProfile :=
  { HardwareProfile.zero with
    cpu_features := { CPUFeatures.zero with avx512f := true } }

/-- A profile with `sse2`, `avx`, `avx2` set and `avx512f` clear. -/
def profile_avx2 : HardwareProfile :=
  { HardwareProfile.zero with
    cpu_features := { CPUFeatures.zero with sse2 := true, avx := true, avx2 := true } }

/-- A build with every vector target macro defined. -/
def flags_all : BuildFlags := ⟨true, true, true, true⟩

/-- CPUID of a processor that implements AVX (leaf 1 ECX bit 28), AVX2 and AVX-512F
(leaf 7 EBX bits 5 and 16) under an operating system that has not enabled XSAVE:
OSXSAVE (leaf 1 ECX bit 27) is clear. -/
def cpuid_osxsave_clear (leaf subleaf : Nat) : CpuidRegs :=
  if leaf = 1 ∧ subleaf = 0 then ⟨0, 0, 1 <<< 28, (1 <<< 25) ||| (1 <<< 26)⟩
  else if leaf = 7 ∧ subleaf = 0 then ⟨0, (1 <<< 5) ||| (1 <<< 16), 0, 0⟩
  else ⟨0, 0, 0, 0⟩

/-! ### Properties and wording of the specification used below -/

/-- The relation the specification requires of a `GPUInfo`: when no GPU is present the
capability fields hold the sentinel -1 and the name is "Unknown". -/
def GPUInfo.absent_is_unknown (g : GPUInfo) : Prop :=
  g.has_cuda_gpu = false →
    g.compute_capability_major = -1 ∧ g.compute_capability_minor = -1
      ∧ g.gpu_name = "Unknown"

/-- The block dimension as the specification words it: the integer part of
`sqrt(cache_size_kb * 1024 / (3 * 4))`, rounded down to a multiple of the cache-line
element count `cache_line_size_bytes / 4` when that count is positive. -/
def advised_block (cache_size_kb cache_line_size_bytes : Int) : Int :=
  let unrounded : Int := ((Nat.sqrt (cache_size_kb.toNat * 1024 / (3 * 4)) : Nat) : Int)
  let count : Int := cache_line_size_bytes / 4
  if 0 < count then unrounded / count * count else unrounded

/-! ### More concrete inputs -/

/-- A platform enumeration that resolves nothing: every field stays as it was. -/
def cache_nothing_resolved (c : CacheInfo) : CacheInfo := c

/-- Both GPU queries fail to start. -/
def gpu_queries_fail : GpuQueries := ⟨none, none⟩

/-- A profile with 128 MB of RAM. -/
def profile_ram_128 : HardwareProfile :=
  { HardwareProfile.zero with memory_info := ⟨128⟩ }

/-- A profile with 1024 MB of RAM. -/
def profile_ram_1024 : HardwareProfile :=
  { HardwareProfile.zero with memory_info := ⟨1024⟩ }

/-- The allocation succeeds and both `clock()` readings are 5000. -/
def env_zero_elapsed : BandwidthEnv := ⟨true, 5000, 5000, 1000000⟩

/-- A profile whose L1 data cache size is the sentinel -1. -/
def profile_l1_unknown : HardwareProfile :=
  { HardwareProfile.zero with cache_info := ⟨-1, 32, 256, -1, 64⟩ }

/-- A profile with 32 KB of L1 data cache, 256 KB of L2 and 64-byte lines. -/
def profile_cache_32_256 : HardwareProfile :=
  { HardwareProfile.zero with cache_info := ⟨32, 32, 256, -1, 64⟩ }

/-- A profile whose L1 data cache size is 4,194,304 KB (4 GiB). -/
def profile_l1_4gib : HardwareProfile :=
  { HardwareProfile.zero with cache_info := ⟨4194304, 32, 256, -1, 64⟩ }

/-- The static array `[10, 20]`. -/
def static_10_20 : StaticIntArray :=
  { array := fun k => if k = 0 then 10 else if k = 1 then 20 else 0, length := 2 }

/-- The static array `[10, 20, 30]`. -/
def static_10_20_30 : StaticIntArray :=
  { array := fun k => if k = 0 then 10 else if k = 1 then 20 else if k = 2 then 30 else 0,
    length := 3 }

/-- The dynamic array `[100, 200]` in a block of two cells. -/
def dynamic_100_200 : DynamicIntArray :=
  { parray := fun k => if k = 0 then 100 else if k = 1 then 200 else 0,
    length := 2, capacity := 2 }

/-- The static array `[40, 50]`. -/
def static_40_50 : StaticIntArray :=
  { array := fun k => if k = 0 then 40 else if k = 1 then 50 else 0, length := 2 }

/-- The dynamic array `[100, 200]` in a block of three cells. -/
def dynamic_2_of_3 : DynamicIntArray :=
  { parray := fun k => if k = 0 then 100 else if k = 1 then 200 else 300,
    length := 2, capacity := 3 }

/-- A profile with 32 KB of L1 data cache, 256 KB of L2 and 256-byte cache lines. -/
def profile_line_256 : HardwareProfile :=
  { HardwareProfile.zero with cache_info := ⟨32, 32, 256, -1, 256⟩ }

/-- An allocator every request of which succeeds. -/
def malloc_succeeds : MallocEnv := ⟨true, true, true, fun _ => true⟩

/-- An allocator that has no block for the data of an array. -/
def malloc_data_fails : MallocEnv := ⟨true, true, false, fun _ => true⟩

/-- A size whose double exceeds the range of `size_t`: `2^63 + 1`. -/
def size_past_half : Nat := 9223372036854775809

/-- The static `INT` array `[7, 8, 9]`. -/
def int_array_7_8_9 : Array :=
  { parray := fun k =>
      if k = 0 then Value.int 7 else if k = 1 then Value.int 8
      else if k = 2 then Value.int 9 else Value.indeterminate,
    parray_bytes := 12,
    type := ElemType.INT,
    sizeof_type := 4,
    shape := [3],
    num_dimensions := 1,
    count := 3,
    capacity := 3,
    is_dynamic := false }

/-- The dynamic `INT` array `array_create` gives for `size_past_half` with the cells of
its 8-byte block set to 7 and 8. -/
def int_array_past_half : Array :=
  { parray := fun k =>
      if k = 0 then Value.int 7 else if k = 1 then Value.int 8 else Value.indeterminate,
    parray_bytes := 8,
    type := ElemType.INT,
    sizeof_type := 4,
    shape := [size_past_half],
    num_dimensions := 1,
    count := size_past_half,
    capacity := 2,
    is_dynamic := true }


/-- The double nearest to 0.1, `3602879701896397 / 2^55`. -/
def double_0_1 : ℚ := 3602879701896397 / 36028797018963968

/-- The double nearest to 1.3, `5854679515581645 / 2^52`. -/
def double_1_3 : ℚ := 5854679515581645 / 4503599627370496

/-! ### Concrete inputs for the thread advice and the tiers of the probe -/

/-- A profile with 4 physical and 8 logical cores, 32 KB of L1 data cache, 256 KB of L2
and 64-byte cache lines. -/
def profile_cores_4_8 : HardwareProfile :=
  { profile_cache_32_256 with cpu_cores := ⟨4, 8⟩ }

/-- A profile with 8 physical and 16 logical cores, 32 KB of L1 data cache, 256 KB of L2
and 64-byte cache lines. -/
def profile_cores_8_16 : HardwareProfile :=
  { profile_cache_32_256 with cpu_cores := ⟨8, 16⟩ }

section Kernels
variable {α : Type}

theorem mm_load_ps_lane (w : VecReg) (p : Buf α) (i : Int) (k : Nat) (hk : k < w.lanes) :
    (mm_load_ps w p i)[k]? = some (p (i + (k : Int))) := by
  unfold mm_load_ps
  rw [List.getElem?_map, List.getElem?_range hk]
  rfl

theorem mm_load_ps_length (w : VecReg) (p : Buf α) (i : Int) :
    (mm_load_ps w p i).length = w.lanes := by
  simp [mm_load_ps]

theorem mm_block_eq (fadd : α → α → α) (w : VecReg) (a b c : Buf α) (i : Int) :
    mm_store_ps c i (mm_add_ps fadd (mm_load_ps w a i) (mm_load_ps w b i))
      = add_range fadd a b c i (i + (w.lanes : Int)) := by
  funext j
  unfold mm_store_ps mm_add_ps add_range
  by_cases h : i ≤ j
  · by_cases h2 : j < i + (w.lanes : Int)
    · have hk : (j - i).toNat < w.lanes := by omega
      have hj : i + ((j - i).toNat : Int) = j := by omega
      rw [if_pos h, if_pos ⟨h, h2⟩, List.getElem?_zipWith, mm_load_ps_lane w a i _ hk,
        mm_load_ps_lane w b i _ hk, hj]
      rfl
    · have hk : w.lanes ≤ (j - i).toNat := by omega
      have hlen : (List.zipWith fadd (mm_load_ps w a i) (mm_load_ps w b i)).length
          ≤ (j - i).toNat := by
        rw [List.length_zipWith, mm_load_ps_length, mm_load_ps_length]
        simpa using hk
      rw [if_pos h, if_neg (fun hh => h2 hh.2), List.getElem?_eq_none hlen]
      rfl
  · rw [if_neg h, if_neg (fun hh => h hh.1)]

theorem scalar_loop_eq (fadd : α → α → α) (a b : Buf α) (n : Int) (i : Int) (c : Buf α) :
    scalar_loop fadd a b n i c = (max i n, add_range fadd a b c i n) := by
  induction i, c using scalar_loop.induct fadd a b n with
  | case1 i c h ih =>
    rw [scalar_loop, if_pos h, ih]
    refine Prod.ext ?_ ?_
    · show max (i + 1) n = max i n
      omega
    · show add_range fadd a b (Function.update c i (fadd (a i) (b i))) (i + 1) n
        = add_range fadd a b c i n
      funext j
      unfold add_range
      by_cases hj : j = i
      · subst hj
        simp [h]
      · rw [Function.update_noteq hj]
        by_cases h1 : i + 1 ≤ j ∧ j < n
        · rw [if_pos h1, if_pos ⟨by omega, h1.2⟩]
        · rw [if_neg h1, if_neg (by omega)]
  | case2 i c h =>
    rw [scalar_loop, if_neg h]
    refine Prod.ext ?_ ?_
    · show i = max i n
      omega
    · show c = add_range fadd a b c i n
      funext j
      unfold add_range
      rw [if_neg (by omega)]

theorem VecReg.lanes_pos (w : VecReg) : 0 < w.lanes := by
  cases w <;> decide

theorem add_range_add_range (fadd : α → α → α) (a b c : Buf α) (lo mid hi : Int)
    (h1 : lo ≤ mid) (h2 : mid ≤ hi) :
    add_range fadd a b (add_range fadd a b c lo mid) mid hi = add_range fadd a b c lo hi := by
  funext j
  unfold add_range
  by_cases hA : mid ≤ j ∧ j < hi
  · rw [if_pos hA, if_pos ⟨by omega, hA.2⟩]
  · rw [if_neg hA]
    by_cases hB : lo ≤ j ∧ j < mid
    · rw [if_pos hB, if_pos ⟨hB.1, by omega⟩]
    · rw [if_neg hB, if_neg (by omega)]

theorem add_range_empty (fadd : α → α → α) (a b c : Buf α) (lo hi : Int) (h : hi ≤ lo) :
    add_range fadd a b c lo hi = c := by
  funext j
  unfold add_range
  rw [if_neg (by omega)]

theorem simd_loop_spec (fadd : α → α → α) (w : VecReg) (a b : Buf α) (n : Int)
    (i : Int) (c : Buf α) :
    (simd_loop fadd w a b n i c).2 = add_range fadd a b c i (simd_loop fadd w a b n i c).1
      ∧ i ≤ (simd_loop fadd w a b n i c).1
      ∧ n - (w.lanes : Int) < (simd_loop fadd w a b n i c).1
      ∧ ((simd_loop fadd w a b n i c).1 ≤ n ∨ (simd_loop fadd w a b n i c).1 = i)
      ∧ (w.lanes : Int) ∣ (simd_loop fadd w a b n i c).1 - i := by
  induction i, c using simd_loop.induct fadd w a b n with
  | case1 i c h ih =>
    have hw := VecReg.lanes_pos w
    rw [simd_loop, if_pos h]
    rw [mm_block_eq] at ih ⊢
    obtain ⟨e1, e2, e3, e4, e5⟩ := ih
    refine ⟨?_, by omega, e3, ?_, ?_⟩
    · rw [e1, add_range_add_range _ _ _ _ _ _ _ (by omega) e2]
    · rcases e4 with e4 | e4
      · exact Or.inl e4
      · left; rw [e4]; omega
    · obtain ⟨k, hk⟩ := e5
      exact ⟨k + 1, by rw [mul_add, mul_one, ← hk]; ring⟩
  | case2 i c h =>
    rw [simd_loop, if_neg h]
    refine ⟨(add_range_empty _ _ _ _ _ _ (le_refl _)).symm, le_refl _, by omega, Or.inr rfl, ?_⟩
    simp

theorem array_add_scalar_eq (fadd : α → α → α) (a b c : Buf α) (n : Int) :
    array_add_scalar fadd a b c n = add_range fadd a b c 0 n := by
  unfold array_add_scalar
  rw [scalar_loop_eq]

theorem simd_then_tail_eq (fadd : α → α → α) (w : VecReg) (a b c : Buf α) (n : Int) :
    (scalar_loop fadd a b n (simd_loop fadd w a b n 0 c).1 (simd_loop fadd w a b n 0 c).2).2
      = add_range fadd a b c 0 n := by
  obtain ⟨e1, e2, _, e4, _⟩ := simd_loop_spec fadd w a b n 0 c
  rw [scalar_loop_eq]
  show add_range fadd a b (simd_loop fadd w a b n 0 c).2 (simd_loop fadd w a b n 0 c).1 n = _
  rw [e1]
  rcases e4 with e4 | e4
  · exact add_range_add_range _ _ _ _ _ _ _ e2 e4
  · rw [e4, add_range_empty _ _ _ _ _ _ (le_refl _)]

theorem array_add_sse2_eq (flags : BuildFlags) (fadd : α → α → α) (a b c : Buf α) (n : Int) :
    array_add_sse2 flags fadd a b c n = add_range fadd a b c 0 n := by
  unfold array_add_sse2
  split
  · exact simd_then_tail_eq fadd .m128 a b c n
  · exact array_add_scalar_eq fadd a b c n

theorem array_add_avx_eq (flags : BuildFlags) (fadd : α → α → α) (a b c : Buf α) (n : Int) :
    array_add_avx flags fadd a b c n = add_range fadd a b c 0 n := by
  unfold array_add_avx
  split
  · exact simd_then_tail_eq fadd .m256 a b c n
  · exact array_add_sse2_eq flags fadd a b c n

theorem array_add_avx2_eq (flags : BuildFlags) (fadd : α → α → α) (a b c : Buf α) (n : Int) :
    array_add_avx2 flags fadd a b c n = add_range fadd a b c 0 n := by
  unfold array_add_avx2
  split <;> exact array_add_avx_eq flags fadd a b c n

theorem array_add_avx512_eq (flags : BuildFlags) (fadd : α → α → α) (a b c : Buf α) (n : Int) :
    array_add_avx512 flags fadd a b c n = add_range fadd a b c 0 n := by
  unfold array_add_avx512
  split
  · exact simd_then_tail_eq fadd .m512 a b c n
  · exact array_add_avx2_eq flags fadd a b c n

theorem ArrayAddFn.call_eq (fn : ArrayAddFn) (flags : BuildFlags) (fadd : α → α → α)
    (a b c : Buf α) (n : Int) :
    fn.call flags fadd a b c n = add_range fadd a b c 0 n := by
  cases fn
  · exact array_add_scalar_eq fadd a b c n
  · exact array_add_sse2_eq flags fadd a b c n
  · exact array_add_avx_eq flags fadd a b c n
  · exact array_add_avx2_eq flags fadd a b c n
  · exact array_add_avx512_eq flags fadd a b c n
end Kernels

/-! ## Lemmas on selection -/

theorem init_runtime_dispatch_fn (hw : HardwareProfile) (s : DispatchState) :
    (init_runtime_dispatch hw s).array_add_fn =
      if hw.cpu_features.avx512f then ArrayAddFn.avx512
      else if hw.cpu_features.avx2 then ArrayAddFn.avx2
      else if hw.cpu_features.avx then ArrayAddFn.avx
      else if hw.cpu_features.sse2 then ArrayAddFn.sse2
      else ArrayAddFn.scalar := by
  unfold init_runtime_dispatch
  split_ifs <;> rfl

theorem select_best_first_eq (hw : HardwareProfile) :
    select_best_first hw =
      if hw.cpu_features.avx512f then ArrayAddFn.avx512
      else if hw.cpu_features.avx2 then ArrayAddFn.avx2
      else if hw.cpu_features.avx then ArrayAddFn.avx
      else if hw.cpu_features.sse2 then ArrayAddFn.sse2
      else ArrayAddFn.scalar := by
  unfold select_best_first kernel_catalog
  cases h1 : hw.cpu_features.avx512f <;> cases h2 : hw.cpu_features.avx2 <;>
    cases h3 : hw.cpu_features.avx <;> cases h4 : hw.cpu_features.sse2 <;>
    simp [List.find?, h1, h2, h3, h4]

theorem init_runtime_dispatch_eq_select (hw : HardwareProfile) (s : DispatchState) :
    (init_runtime_dispatch hw s).array_add_fn = select_best_first hw := by
  rw [init_runtime_dispatch_fn, select_best_first_eq]

/-! ## Lemmas on bit tests -/

theorem and_one_shl_ne_zero (x k : Nat) : ((x &&& (1 <<< k)) != 0) = x.testBit k := by
  rw [Nat.one_shiftLeft, Nat.and_two_pow]
  cases h : x.testBit k <;> simp

theorem and_eq_mask_iff (x m : Nat) :
    x &&& m = m ↔ ∀ i, m.testBit i = true → x.testBit i = true := by
  constructor
  · intro h i hi
    have := congrArg (fun y => y.testBit i) h
    simp only [Nat.testBit_and, hi, Bool.and_true] at this
    exact this
  · intro h
    apply Nat.eq_of_testBit_eq
    intro i
    rw [Nat.testBit_and]
    cases hm : m.testBit i
    · simp
    · simp [h i hm]

theorem testBit_six (i : Nat) : Nat.testBit 6 i = true ↔ i = 1 ∨ i = 2 := by
  rcases i with _ | _ | _ | i
  · decide
  · decide
  · decide
  · have h : (6 : Nat) < 2 ^ (i + 3) := by
      have : 2 ^ 3 ≤ 2 ^ (i + 3) := Nat.pow_le_pow_right (by decide) (by omega)
      omega
    rw [Nat.testBit_lt_two_pow h]
    simp

theorem and_six_iff (x : Nat) :
    x &&& 6 = 6 ↔ (x.testBit 1 = true ∧ x.testBit 2 = true) := by
  rw [and_eq_mask_iff]
  constructor
  · intro h
    exact ⟨h 1 (by decide), h 2 (by decide)⟩
  · rintro ⟨h1, h2⟩ i hi
    rcases (testBit_six i).1 hi with rfl | rfl
    · exact h1
    · exact h2

theorem detect_cpu_features_avx (cpuid : Nat → Nat → CpuidRegs) (xcr0 : Nat) :
    (detect_cpu_features cpuid xcr0).avx =
      (((cpuid 1 0).ecx.testBit 27 && (cpuid 1 0).ecx.testBit 28) && (xcr0 &&& 6 == 6)) := by
  unfold detect_cpu_features
  simp only [and_one_shl_ne_zero]
  cases h27 : (cpuid 1 0).ecx.testBit 27 <;> cases h28 : (cpuid 1 0).ecx.testBit 28 <;>
    cases h16 : (cpuid 7 0).ebx.testBit 16 <;> simp [CPUFeatures.zero]

/-! ## Lemmas on the probes -/

theorem detect_gpu_info_nvidia_smi_inv (q : GpuQueries) (g : GPUInfo)
    (hg : g.absent_is_unknown) : (detect_gpu_info.nvidia_smi q g).absent_is_unknown := by
  unfold detect_gpu_info.nvidia_smi
  split
  · intro h
    split at h
    · split at h <;> simp at h
    · simp at h
  · exact hg

theorem detect_gpu_info_lspci_inv (q : GpuQueries) (g : GPUInfo)
    (hg : g.absent_is_unknown) : (detect_gpu_info.lspci q g).absent_is_unknown := by
  unfold detect_gpu_info.lspci
  split
  · split
    · intro h
      split at h <;> simp at h
    · exact hg
  · exact hg

theorem detect_gpu_info_default_inv (g : GPUInfo)
    (hg : g.absent_is_unknown) :
    (detect_gpu_info.default_capability g).absent_is_unknown := by
  unfold detect_gpu_info.default_capability
  split
  · rename_i hc
    intro h
    simp [hc.1] at h
  · exact hg

theorem detect_cache_sizes_fallback_eq (raw : CacheInfo) :
    detect_cache_sizes.fallback raw =
      { l1_data_cache_size_kb :=
          if raw.l1_data_cache_size_kb < 0 then 32 else raw.l1_data_cache_size_kb,
        l1_instruction_cache_size_kb :=
          if raw.l1_instruction_cache_size_kb < 0 then 32
          else raw.l1_instruction_cache_size_kb,
        l2_cache_size_kb := if raw.l2_cache_size_kb < 0 then 256 else raw.l2_cache_size_kb,
        l3_cache_size_kb := raw.l3_cache_size_kb,
        cache_line_size_bytes :=
          if raw.cache_line_size_bytes < 0 then 64 else raw.cache_line_size_bytes } := by
  obtain ⟨d, i, l2, l3, ln⟩ := raw
  unfold detect_cache_sizes.fallback
  simp only
  by_cases h1 : ln < 0 <;> by_cases h2 : d < 0 <;> by_cases h3 : i < 0 <;>
    by_cases h4 : l2 < 0 <;> simp only [h1, h2, h3, h4, if_true, if_false]

theorem estimate_memory_bandwidth_ok (hw : HardwareProfile) (env : BandwidthEnv)
    (hram : 256 ≤ hw.memory_info.total_ram_mb) (hm : env.malloc_ok = true) :
    (estimate_memory_bandwidth hw env).1
      = CDouble.div_finite 1280
          (((env.clock_end - env.clock_start : Int) : ℚ) / (env.clocks_per_sec : ℚ)) := by
  unfold estimate_memory_bandwidth
  have : ¬ hw.memory_info.total_ram_mb < 256 := by omega
  simp only [if_neg this, hm]
  norm_num

theorem div_finite_zero : CDouble.div_finite 1280 0 = CDouble.pos_inf := by
  unfold CDouble.div_finite
  norm_num

/-! ## Lemmas on the blocking advice -/

theorem int_mul_1024 (kb : Int) (h0 : 0 < kb) (h1 : kb ≤ 2097151) :
    int_mul kb 1024 = some (kb * 1024) := by
  unfold int_mul
  rw [if_pos (by omega)]

theorem matrix_block_size_eq (kb : Int) (h0 : 0 < kb) (h1 : kb ≤ 2097151) :
    matrix_block_size kb = some ((Nat.sqrt (kb.toNat * 1024 / 12) : Nat) : Int) := by
  unfold matrix_block_size
  rw [int_mul_1024 kb h0 h1]
  have : to_size_t (kb * 1024) = kb.toNat * 1024 := by
    unfold to_size_t
    omega
  simp only [this]

theorem cache_line_floats_eq (line : Int) (h0 : -2147483648 ≤ line) (h1 : line ≤ 2147483647) :
    wrap_int32 ((to_size_t line / 4 : Nat) : Int) = line / 4 := by
  unfold wrap_int32 to_size_t
  omega

theorem tdiv_mul_eq (b c : Int) (hb : 0 ≤ b) (hc : 0 < c) :
    Int.tdiv b c * c = b / c * c := by
  rw [Int.tdiv_eq_ediv hb (le_of_lt hc)]

theorem suggest_matrix_blocking_known (hw : HardwareProfile)
    (hl1 : 0 < hw.cache_info.l1_data_cache_size_kb)
    (hl1max : hw.cache_info.l1_data_cache_size_kb ≤ 2097151)
    (hl2 : 0 < hw.cache_info.l2_cache_size_kb)
    (hl2max : hw.cache_info.l2_cache_size_kb ≤ 2097151)
    (hline : -2147483648 ≤ hw.cache_info.cache_line_size_bytes)
    (hlinemax : hw.cache_info.cache_line_size_bytes ≤ 2147483647) :
    suggest_matrix_blocking hw =
      some ([MatrixLine.header, MatrixLine.blocks_intro,
          MatrixLine.l1_block
            (if 0 < hw.cache_info.cache_line_size_bytes / 4 then
              ((Nat.sqrt (hw.cache_info.l1_data_cache_size_kb.toNat * 1024 / 12) : Nat) : Int)
                / (hw.cache_info.cache_line_size_bytes / 4)
                * (hw.cache_info.cache_line_size_bytes / 4)
             else ((Nat.sqrt (hw.cache_info.l1_data_cache_size_kb.toNat * 1024 / 12) : Nat) : Int)),
          MatrixLine.l2_block
            (if 0 < hw.cache_info.cache_line_size_bytes / 4 then
              ((Nat.sqrt (hw.cache_info.l2_cache_size_kb.toNat * 1024 / 12) : Nat) : Int)
                / (hw.cache_info.cache_line_size_bytes / 4)
                * (hw.cache_info.cache_line_size_bytes / 4)
             else ((Nat.sqrt (hw.cache_info.l2_cache_size_kb.toNat * 1024 / 12) : Nat) : Int)),
          MatrixLine.parallel_intro]
        ++ (if hw.cpu_cores.logical_cores ≥ 4 then
              [MatrixLine.use_threads hw.cpu_cores.physical_cores]
            else [MatrixLine.limited_threads hw.cpu_cores.logical_cores])
        ++ (if hw.gpu_info.has_cuda_gpu = true
                ∧ hw.gpu_info.compute_capability_major ≥ 3 then
              [MatrixLine.gpu_acceleration]
            else [])) := by
  unfold suggest_matrix_blocking
  rw [if_neg (by omega), matrix_block_size_eq _ hl1 hl1max, matrix_block_size_eq _ hl2 hl2max]
  simp only [cache_line_floats_eq _ hline hlinemax]
  by_cases hc : 0 < hw.cache_info.cache_line_size_bytes / 4
  · have hc' : hw.cache_info.cache_line_size_bytes / 4 > 0 := hc
    simp only [if_pos hc, if_pos hc',
      tdiv_mul_eq _ _ (Int.natCast_nonneg _) hc]
  · have hc' : ¬ hw.cache_info.cache_line_size_bytes / 4 > 0 := hc
    simp only [if_neg hc, if_neg hc']

theorem round_down_multiple (u c : Int) (hu : 0 ≤ u) (hc : 0 < c) :
    c ∣ u / c * c ∧ u / c * c ≤ u ∧ u < u / c * c + c ∧ 0 ≤ u / c * c := by
  have h1 := Int.emod_add_ediv u c
  have h2 := Int.emod_nonneg u (ne_of_gt hc)
  have h3 := Int.emod_lt_of_pos u hc
  have h4 : u / c * c = c * (u / c) := mul_comm _ _
  refine ⟨⟨u / c, h4⟩, by omega, by omega, ?_⟩
  have : 0 ≤ u / c := Int.ediv_nonneg hu (le_of_lt hc)
  positivity

theorem sqrt_floor_spec (kb : Int) (h0 : 0 < kb) :
    12 * ((Nat.sqrt (kb.toNat * 1024 / 12) : Nat) : Int) ^ 2 ≤ kb * 1024
    ∧ kb * 1024 < 12 * (((Nat.sqrt (kb.toNat * 1024 / 12) : Nat) : Int) + 1) ^ 2 := by
  have h1 := Nat.sqrt_le' (kb.toNat * 1024 / 12)
  have h2 := Nat.lt_succ_sqrt' (kb.toNat * 1024 / 12)
  generalize Nat.sqrt (kb.toNat * 1024 / 12) = u at h1 h2
  have hk : ((kb.toNat : Nat) : Int) = kb := Int.toNat_of_nonneg (le_of_lt h0)
  have h3 : 12 * u ^ 2 ≤ kb.toNat * 1024 := by
    have := Nat.div_mul_le_self (kb.toNat * 1024) 12
    nlinarith
  have h4 : kb.toNat * 1024 < 12 * (u + 1) ^ 2 := by
    have := Nat.lt_succ_iff.mpr (Nat.le_refl (kb.toNat * 1024 / 12))
    have h5 : kb.toNat * 1024 / 12 + 1 ≤ u.succ ^ 2 := h2
    have h6 := Nat.lt_mul_div_succ (kb.toNat * 1024) (by decide : 0 < 12)
    have : u.succ = u + 1 := rfl
    rw [this] at h5
    nlinarith
  constructor
  · have : ((12 * u ^ 2 : Nat) : Int) ≤ ((kb.toNat * 1024 : Nat) : Int) := by exact_mod_cast h3
    push_cast at this
    rw [hk] at this
    exact this
  · have : ((kb.toNat * 1024 : Nat) : Int) < ((12 * (u + 1) ^ 2 : Nat) : Int) := by
      exact_mod_cast h4
    push_cast at this
    rw [hk] at this
    exact this

/-! ## Lemmas on the integer arrays -/

theorem InsertStaticIntArray_shift_none (i j : Nat) (array : Nat → Int) (h : i < j) :
    InsertStaticIntArray.shift i j array = none := by
  induction j, array using InsertStaticIntArray.shift.induct i with
  | case1 j array hj hcap ih =>
    rw [InsertStaticIntArray.shift, if_pos hj, if_pos hcap]
    exact ih (by omega)
  | case2 j array hj hcap =>
    rw [InsertStaticIntArray.shift, if_pos hj, if_neg hcap]
  | case3 j array hj => exact absurd h hj

theorem InsertStaticIntArray_middle (a : StaticIntArray) (i : Nat) (v : Int)
    (hi : i < a.length) (hlen : a.length < MAX_CAPACITY) :
    InsertStaticIntArray a i v = none := by
  unfold InsertStaticIntArray
  rw [if_neg (by omega), if_neg (by omega)]
  simp only [if_pos hi, InsertStaticIntArray_shift_none i a.length a.array hi]

theorem InsertStaticIntArray_end (a : StaticIntArray) (v : Int)
    (hlen : a.length < MAX_CAPACITY) :
    InsertStaticIntArray a a.length v
      = some (1, { array := Function.update a.array a.length v, length := a.length + 1 }) := by
  unfold InsertStaticIntArray
  rw [if_neg (by omega), if_neg (by omega)]
  simp only [if_neg (lt_irrefl _), if_pos hlen]

theorem DeleteStaticIntArray_shift_spec (length : Nat) (hlen : length ≤ MAX_CAPACITY)
    (j : Nat) (array : Nat → Int) :
    ∃ array', DeleteStaticIntArray.shift length j array = some array'
      ∧ ∀ k, array' k = if j ≤ k ∧ k < length - 1 then array (k + 1) else array k := by
  induction j, array using DeleteStaticIntArray.shift.induct length with
  | case1 j array hj hcap ih =>
    obtain ⟨array', h1, h2⟩ := ih
    refine ⟨array', ?_, fun k => ?_⟩
    · rw [DeleteStaticIntArray.shift, if_pos hj, if_pos hcap]
      exact h1
    · rw [h2 k]
      by_cases hk : j + 1 ≤ k ∧ k < length - 1
      · rw [if_pos hk, if_pos ⟨by omega, hk.2⟩, Function.update_noteq (by omega)]
      · rw [if_neg hk]
        by_cases hkj : k = j
        · subst hkj
          rw [Function.update_same, if_pos ⟨le_refl _, hj⟩]
        · rw [Function.update_noteq hkj, if_neg (by omega)]
  | case2 j array hj hcap =>
    exfalso
    omega
  | case3 j array hj =>
    refine ⟨array, ?_, fun k => ?_⟩
    · rw [DeleteStaticIntArray.shift, if_neg hj]
    · rw [if_neg (by omega)]

theorem InsertDynamicIntArray_shift_none (capacity i j : Nat) (parray : Nat → Int)
    (h : i < j) : InsertDynamicIntArray.shift capacity i j parray = none := by
  induction j, parray using InsertDynamicIntArray.shift.induct capacity i with
  | case1 j parray hj hcap ih =>
    rw [InsertDynamicIntArray.shift, if_pos hj, if_pos hcap]
    exact ih (by omega)
  | case2 j parray hj hcap =>
    rw [InsertDynamicIntArray.shift, if_pos hj, if_neg hcap]
  | case3 j parray hj => exact absurd h hj

theorem InsertDynamicIntArray_middle (a : DynamicIntArray) (i : Nat) (v : Int)
    (hi : i < a.length) :
    InsertDynamicIntArray a i v true = none := by
  unfold InsertDynamicIntArray AllocateDynamicIntArray
  rw [if_neg (by omega)]
  by_cases hc : a.length ≥ a.capacity
  · simp [hc, hi, InsertDynamicIntArray_shift_none]
  · simp [hc, hi, InsertDynamicIntArray_shift_none]

theorem InsertDynamicIntArray_end (a : DynamicIntArray) (v : Int)
    (hwf : a.length ≤ a.capacity) :
    ∃ a', InsertDynamicIntArray a a.length v true = some (1, a')
      ∧ a'.length = a.length + 1
      ∧ GetDynamicIntArray a' a.length 0 = some (1, v) := by
  unfold InsertDynamicIntArray AllocateDynamicIntArray GetDynamicIntArray
  rw [if_neg (by omega)]
  by_cases hc : a.length ≥ a.capacity
  · have : a.length = a.capacity := by omega
    simp [hc, this]
  · have : a.length < a.capacity := by omega
    simp [hc, this]

theorem GetDynamicIntArray_spec (a : DynamicIntArray) (i : Nat) (v : Int)
    (hwf : a.length ≤ a.capacity) :
    (i < a.length → GetDynamicIntArray a i v = some (1, a.parray i))
    ∧ (a.length ≤ i → GetDynamicIntArray a i v = some (0, v)) := by
  unfold GetDynamicIntArray
  constructor
  · intro h
    rw [if_neg (by omega), if_pos (by omega)]
  · intro h
    rw [if_pos h]

/-! ## More lemmas on the integer arrays and the blocking advice -/

theorem FlattenStaticIntArray_copy_spec (a_length b_length : Nat) (b_array : Nat → Int)
    (hsum : a_length + b_length ≤ MAX_CAPACITY) (i : Nat) (a_array : Nat → Int) :
    ∃ array', FlattenStaticIntArray.copy a_length b_length b_array i a_array = some array'
      ∧ ∀ k, array' k =
          if a_length + i ≤ k ∧ k < a_length + b_length then b_array (k - a_length)
          else a_array k := by
  induction i, a_array using FlattenStaticIntArray.copy.induct a_length b_length b_array with
  | case1 i a_array hi hcap ih =>
    obtain ⟨array', h1, h2⟩ := ih
    refine ⟨array', ?_, fun k => ?_⟩
    · rw [FlattenStaticIntArray.copy, if_pos hi, if_pos hcap]
      exact h1
    · rw [h2 k]
      by_cases hk : a_length + (i + 1) ≤ k ∧ k < a_length + b_length
      · rw [if_pos hk, if_pos ⟨by omega, hk.2⟩]
      · rw [if_neg hk]
        by_cases hki : k = a_length + i
        · subst hki
          rw [Function.update_same, if_pos ⟨le_refl _, by omega⟩]
          congr 1
          omega
        · rw [Function.update_noteq hki, if_neg (by omega)]
  | case2 i a_array hi hcap =>
    exfalso
    unfold MAX_CAPACITY at *
    omega
  | case3 i a_array hi =>
    refine ⟨a_array, ?_, fun k => ?_⟩
    · rw [FlattenStaticIntArray.copy, if_neg hi]
    · rw [if_neg (by omega)]

theorem size_t_wrap_small (n : Nat) (h : n < 18446744073709551616) : size_t_wrap n = n := by
  unfold size_t_wrap
  omega

theorem FlattenStaticIntArray_ok (a b : StaticIntArray)
    (hsum : a.length + b.length ≤ MAX_CAPACITY) :
    ∃ a', FlattenStaticIntArray a b = some (1, a', b)
      ∧ a'.length = a.length + b.length
      ∧ (∀ k, k < a.length → a'.array k = a.array k)
      ∧ (∀ k, k < b.length → a'.array (a.length + k) = b.array k) := by
  have hw : size_t_wrap (a.length + b.length) = a.length + b.length := by
    apply size_t_wrap_small
    unfold MAX_CAPACITY at *
    omega
  obtain ⟨array', h1, h2⟩ :=
    FlattenStaticIntArray_copy_spec a.length b.length b.array hsum 0 a.array
  refine ⟨{ array := array', length := a.length + b.length }, ?_, rfl, fun k hk => ?_,
    fun k hk => ?_⟩
  · unfold FlattenStaticIntArray
    rw [hw, if_neg (by omega)]
    simp only [h1]
  · show array' k = a.array k
    rw [h2 k, if_neg (by omega)]
  · show array' (a.length + k) = b.array k
    rw [h2 (a.length + k), if_pos ⟨by omega, by omega⟩]
    congr 1
    omega

theorem FlattenStaticIntArray_fail (a b : StaticIntArray)
    (ha : a.length ≤ MAX_CAPACITY) (hb : b.length ≤ MAX_CAPACITY)
    (hsum : MAX_CAPACITY < a.length + b.length) :
    FlattenStaticIntArray a b = some (0, a, b) := by
  have hw : size_t_wrap (a.length + b.length) = a.length + b.length := by
    apply size_t_wrap_small
    unfold MAX_CAPACITY at *
    omega
  unfold FlattenStaticIntArray
  rw [hw, if_pos hsum]

theorem FlattenStaticIntArray_zero (a b : StaticIntArray) (r : Int)
    (a' b' : StaticIntArray) (h : FlattenStaticIntArray a b = some (r, a', b')) (hr : r = 0) :
    a' = a ∧ b' = b := by
  unfold FlattenStaticIntArray at h
  by_cases hc : size_t_wrap (a.length + b.length) > MAX_CAPACITY
  · rw [if_pos hc] at h
    cases h
    exact ⟨rfl, rfl⟩
  · rw [if_neg hc] at h
    cases hcopy : FlattenStaticIntArray.copy a.length b.length b.array 0 a.array with
    | none =>
      rw [hcopy] at h
      cases h
    | some array =>
      rw [hcopy] at h
      cases h
      exact absurd hr (by decide)

theorem FlattenStaticIntArray_length (a b : StaticIntArray) (r : Int)
    (a' b' : StaticIntArray) (ha : a.length ≤ MAX_CAPACITY) (hb : b.length ≤ MAX_CAPACITY)
    (h : FlattenStaticIntArray a b = some (r, a', b')) :
    a'.length ≤ MAX_CAPACITY ∧ b'.length ≤ MAX_CAPACITY := by
  unfold FlattenStaticIntArray at h
  by_cases hc : size_t_wrap (a.length + b.length) > MAX_CAPACITY
  · rw [if_pos hc] at h
    cases h
    exact ⟨ha, hb⟩
  · rw [if_neg hc] at h
    cases hcopy : FlattenStaticIntArray.copy a.length b.length b.array 0 a.array with
    | none =>
      rw [hcopy] at h
      cases h
    | some array =>
      rw [hcopy] at h
      cases h
      exact ⟨by simpa using hc, hb⟩

theorem InsertStaticIntArray_fail (a : StaticIntArray) (i : Nat) (v : Int)
    (h : i > a.length ∨ a.length ≥ MAX_CAPACITY) :
    InsertStaticIntArray a i v = some (0, a) := by
  unfold InsertStaticIntArray
  by_cases h1 : i > a.length
  · rw [if_pos h1]
  · rw [if_neg h1, if_pos (h.resolve_left h1)]

theorem InsertStaticIntArray_cases (a : StaticIntArray) (i : Nat) (v : Int) :
    InsertStaticIntArray a i v = some (0, a)
    ∨ InsertStaticIntArray a i v = none
    ∨ (a.length < MAX_CAPACITY ∧ InsertStaticIntArray a i v
        = some (1, { array := Function.update a.array a.length v,
                     length := a.length + 1 })) := by
  by_cases h : i > a.length ∨ a.length ≥ MAX_CAPACITY
  · exact Or.inl (InsertStaticIntArray_fail a i v h)
  · have h1 : i ≤ a.length := by omega
    have h2 : a.length < MAX_CAPACITY := by omega
    rcases Nat.lt_or_eq_of_le h1 with h3 | h3
    · exact Or.inr (Or.inl (InsertStaticIntArray_middle a i v h3 h2))
    · subst h3
      exact Or.inr (Or.inr ⟨h2, InsertStaticIntArray_end a v h2⟩)

theorem InsertStaticIntArray_zero (a : StaticIntArray) (i : Nat) (v : Int) (r : Int)
    (a' : StaticIntArray) (h : InsertStaticIntArray a i v = some (r, a')) (hr : r = 0) :
    a' = a := by
  rcases InsertStaticIntArray_cases a i v with h1 | h1 | ⟨_, h1⟩
  · rw [h1] at h
    cases h
    rfl
  · rw [h1] at h
    cases h
  · rw [h1] at h
    cases h
    exact absurd hr (by decide)

theorem InsertStaticIntArray_length (a : StaticIntArray) (i : Nat) (v : Int) (r : Int)
    (a' : StaticIntArray) (ha : a.length ≤ MAX_CAPACITY)
    (h : InsertStaticIntArray a i v = some (r, a')) : a'.length ≤ MAX_CAPACITY := by
  rcases InsertStaticIntArray_cases a i v with h1 | h1 | ⟨h2, h1⟩
  · rw [h1] at h
    cases h
    exact ha
  · rw [h1] at h
    cases h
  · rw [h1] at h
    cases h
    show a.length + 1 ≤ MAX_CAPACITY
    omega

theorem DeleteStaticIntArray_zero (a : StaticIntArray) (i : Nat) (r : Int)
    (a' : StaticIntArray) (h : DeleteStaticIntArray a i = some (r, a')) (hr : r = 0) :
    a' = a := by
  unfold DeleteStaticIntArray at h
  by_cases h1 : i ≥ a.length
  · rw [if_pos h1] at h
    cases h
    rfl
  · rw [if_neg h1] at h
    cases hs : DeleteStaticIntArray.shift a.length i a.array with
    | none =>
      rw [hs] at h
      cases h
    | some array =>
      rw [hs] at h
      cases h
      exact absurd hr (by decide)

theorem DeleteStaticIntArray_length (a : StaticIntArray) (i : Nat) (r : Int)
    (a' : StaticIntArray) (ha : a.length ≤ MAX_CAPACITY)
    (h : DeleteStaticIntArray a i = some (r, a')) : a'.length ≤ MAX_CAPACITY := by
  unfold DeleteStaticIntArray at h
  by_cases h1 : i ≥ a.length
  · rw [if_pos h1] at h
    cases h
    exact ha
  · rw [if_neg h1] at h
    cases hs : DeleteStaticIntArray.shift a.length i a.array with
    | none =>
      rw [hs] at h
      cases h
    | some array =>
      rw [hs] at h
      cases h
      show a.length - 1 ≤ MAX_CAPACITY
      omega

theorem DeallocateDynamicIntArray_keeps (a : DynamicIntArray) (realloc_ok : Bool)
    (hpos : 0 < a.length) (hcap : a.length ≤ a.capacity) :
    DeallocateDynamicIntArray a realloc_ok = (1, a) := by
  unfold DeallocateDynamicIntArray AllocateDynamicIntArray
  simp only [if_neg (Nat.pos_iff_ne_zero.mp hpos), if_pos hcap]

theorem advised_block_nonneg (kb line : Int) : 0 ≤ advised_block kb line := by
  unfold advised_block
  simp only
  split_ifs with hc
  · exact (round_down_multiple _ _ (Int.natCast_nonneg _) hc).2.2.2
  · exact Int.natCast_nonneg _

theorem sqrt_block_pos (kb : Int) (h0 : 0 < kb) :
    1 ≤ ((Nat.sqrt (kb.toNat * 1024 / (3 * 4)) : Nat) : Int) := by
  have h : 1 ≤ Nat.sqrt (kb.toNat * 1024 / (3 * 4)) := by
    rw [Nat.le_sqrt]
    have : 1 ≤ kb.toNat := by omega
    omega
  exact_mod_cast h

theorem advised_block_pos_iff (kb line : Int) (h0 : 0 < kb) :
    1 ≤ advised_block kb line
      ↔ line / 4 ≤ ((Nat.sqrt (kb.toNat * 1024 / (3 * 4)) : Nat) : Int) := by
  have hu := sqrt_block_pos kb h0
  unfold advised_block
  simp only
  generalize ((Nat.sqrt (kb.toNat * 1024 / (3 * 4)) : Nat) : Int) = u at hu ⊢
  by_cases hc : 0 < line / 4
  · rw [if_pos hc]
    generalize line / 4 = c at hc ⊢
    constructor
    · intro h
      by_contra hlt
      have : u / c = 0 := Int.ediv_eq_zero_of_lt (by omega) (by omega)
      rw [this] at h
      omega
    · intro h
      have h1 : 1 ≤ u / c := by
        have := Int.ediv_le_ediv hc h
        rwa [Int.ediv_self (ne_of_gt hc)] at this
      nlinarith
  · rw [if_neg hc]
    constructor
    · intro _
      omega
    · intro _
      exact hu

/-! ## Lemmas on the generic array -/

theorem array_create_none_of_sizeof (env : MallocEnv) (size : Nat) (type : ElemType)
    (is_dynamic : Bool) (h : array_sizeof_type type = 0) :
    array_create env size type is_dynamic = none := by
  unfold array_create
  split_ifs <;> rfl

theorem array_create_fields (env : MallocEnv) (size : Nat) (type : ElemType)
    (is_dynamic : Bool) (a : Array) (h : array_create env size type is_dynamic = some a) :
    a.num_dimensions = 1 ∧ a.shape = [size] ∧ a.count = size ∧ a.type = type
      ∧ a.sizeof_type = array_sizeof_type type ∧ a.is_dynamic = is_dynamic
      ∧ a.capacity =
          (if is_dynamic = true then (if size > 0 then size_t_wrap (size * 2) else 8)
           else size)
      ∧ a.parray_bytes = size_t_wrap (a.capacity * a.sizeof_type)
      ∧ a.parray = (fun _ => Value.indeterminate)
      ∧ array_sizeof_type type ≠ 0
      ∧ env.array_ok = true ∧ env.shape_ok = true ∧ env.data_ok = true := by
  unfold array_create array_allocate at h
  by_cases h1 : env.array_ok = false
  · simp [h1] at h
  by_cases h2 : array_sizeof_type type = 0
  · simp [h2] at h
  by_cases h3 : env.shape_ok = false
  · simp [h3] at h
  by_cases h4 : env.data_ok = false
  · simp [h4] at h
  simp only [h1, h2, h3, h4, if_false] at h
  injection h with h
  subst h
  simp at h1 h3 h4
  exact ⟨rfl, rfl, rfl, rfl, rfl, rfl, rfl, rfl, rfl, h2, h1, h3, h4⟩

theorem array_create_ok (env : MallocEnv) (size : Nat) (type : ElemType)
    (is_dynamic : Bool) (harray : env.array_ok = true) (hshape : env.shape_ok = true)
    (hdata : env.data_ok = true) (htype : array_sizeof_type type ≠ 0) :
    ∃ a, array_create env size type is_dynamic = some a := by
  unfold array_create array_allocate
  simp [harray, hshape, hdata, htype]

theorem array_create_data_fails (env : MallocEnv) (size : Nat) (type : ElemType)
    (is_dynamic : Bool) (hdata : env.data_ok = false) :
    array_create env size type is_dynamic = none := by
  unfold array_create array_allocate
  simp only [hdata, if_true]
  split_ifs <;> rfl

/-- The block of a created array holds `size` elements when the byte count of the
capacity does not wrap. -/
theorem array_create_room (env : MallocEnv) (size : Nat) (type : ElemType)
    (is_dynamic : Bool) (a : Array) (h : array_create env size type is_dynamic = some a)
    (hfit : (if is_dynamic = true then 2 * size else size) * array_sizeof_type type
      < 18446744073709551616) :
    size * a.sizeof_type ≤ a.parray_bytes
      ∧ a.capacity = (if is_dynamic = true then (if size > 0 then 2 * size else 8)
          else size) := by
  obtain ⟨-, -, -, -, hs, -, hc, hb, -, h0, -, -, -⟩ :=
    array_create_fields env size type is_dynamic a h
  have hpos : 1 ≤ array_sizeof_type type := Nat.one_le_iff_ne_zero.mpr h0
  have h8 : array_sizeof_type type ≤ 8 := by cases type <;> decide
  rw [hb, hc, hs]
  cases is_dynamic
  · simp only [Bool.false_eq_true, if_false] at hfit ⊢
    rw [size_t_wrap_small _ hfit]
    exact ⟨le_refl _, trivial⟩
  · simp only [if_true] at hfit ⊢
    by_cases hz : size > 0
    · simp only [hz, if_true]
      have h2 : size * 2 < 18446744073709551616 := by nlinarith
      rw [size_t_wrap_small _ h2]
      have h3 : size * 2 * array_sizeof_type type < 18446744073709551616 := by
        rw [Nat.mul_comm size 2]; exact hfit
      rw [size_t_wrap_small _ h3]
      refine ⟨?_, by omega⟩
      nlinarith
    · have : size = 0 := by omega
      subst this
      simp

theorem fill_loop_spec (sizeof_type bytes size : Nat) (value : Nat → Option Value)
    (hroom : size * sizeof_type ≤ bytes) (hvalue : ∀ i, i < size → value i ≠ none)
    (i : Nat) (parray : Nat → Value) :
    ∃ filled, fill_loop sizeof_type bytes size value i parray = some filled
      ∧ (∀ k, i ≤ k → k < size → value k = some (filled k))
      ∧ ∀ k, (k < i ∨ size ≤ k) → filled k = parray k := by
  induction i, parray using fill_loop.induct sizeof_type bytes size value with
  | case1 i parray hi hnone =>
    exact absurd hnone (hvalue i hi)
  | case2 i parray hi v hv hfit ih =>
    obtain ⟨filled, hf, h1, h2⟩ := ih
    refine ⟨filled, ?_, ?_, ?_⟩
    · rw [fill_loop]; simp only [hi, if_true, hv, hfit]; exact hf
    · intro k hk hks
      by_cases hki : k = i
      · subst hki
        rw [h2 k (Or.inl (Nat.lt_succ_self k)), Function.update_same]; exact hv
      · exact h1 k (by omega) hks
    · intro k hk
      rw [h2 k (by omega)]
      rw [Function.update_noteq]
      omega
  | case3 i parray hi v hv hfit =>
    exfalso
    apply hfit
    calc (i + 1) * sizeof_type ≤ size * sizeof_type := Nat.mul_le_mul_right _ hi
      _ ≤ bytes := hroom
  | case4 i parray hi =>
    refine ⟨parray, ?_, ?_, ?_⟩
    · rw [fill_loop]; simp only [hi, if_false]
    · intro k hk hks; omega
    · intro k _; rfl

theorem array_full_fill (env : MallocEnv) (size : Nat) (type : ElemType) (v : Value)
    (is_dynamic : Bool) (a : Array) (htype : type ≠ ElemType.STRING)
    (h : array_create env size type is_dynamic = some a)
    (hfit : (if is_dynamic = true then 2 * size else size) * array_sizeof_type type
      < 18446744073709551616) :
    ∃ filled, array_full env size type (some v) is_dynamic
        = some (some { a with parray := filled })
      ∧ ∀ i, i < size → filled i = v := by
  obtain ⟨hroom, -⟩ := array_create_room env size type is_dynamic a h hfit
  obtain ⟨filled, hf, h1, -⟩ :=
    fill_loop_spec a.sizeof_type a.parray_bytes size (fun _ => some v) hroom
      (fun _ _ => by simp) 0 a.parray
  refine ⟨filled, ?_, ?_⟩
  · unfold array_full
    simp only [h, htype, if_false, hf]
  · intro i hi
    have := h1 i (Nat.zero_le i) hi
    injection this with this
    exact this.symm

theorem array_copy_memcpy (env : MallocEnv) (src a : Array) (is_dynamic : Bool)
    (hstring : src.type ≠ ElemType.STRING)
    (hsizeof : src.sizeof_type = array_sizeof_type src.type)
    (hblock : src.count * src.sizeof_type ≤ src.parray_bytes)
    (h : array_create env src.count src.type is_dynamic = some a)
    (hfit : (if is_dynamic = true then 2 * src.count else src.count)
      * array_sizeof_type src.type < 18446744073709551616) :
    ∃ copied, array_copy env (some src) is_dynamic
        = some (some src, some { a with parray := copied })
      ∧ ∀ i, i < src.count → copied i = src.parray i := by
  obtain ⟨hroom, -⟩ := array_create_room env src.count src.type is_dynamic a h hfit
  obtain ⟨-, -, -, -, hs, -, -, -, -, h0, -, -, -⟩ :=
    array_create_fields env src.count src.type is_dynamic a h
  have hsame : src.sizeof_type = a.sizeof_type := by rw [hsizeof, hs]
  have hsmall : src.count * src.sizeof_type < 18446744073709551616 := by
    rw [hsizeof]
    refine lt_of_le_of_lt (Nat.mul_le_mul_right _ ?_) hfit
    split_ifs <;> omega
  have hwrap := size_t_wrap_small _ hsmall
  refine ⟨fun k =>
    if (k + 1) * a.sizeof_type ≤ size_t_wrap (src.count * src.sizeof_type)
    then src.parray k else a.parray k, ?_, ?_⟩
  · unfold array_copy
    simp only [h, hstring, if_false]
    rw [if_pos]
    rw [hwrap]
    exact ⟨hsame, by rw [hsame]; exact hroom, hblock⟩
  · intro i hi
    simp only
    rw [if_pos]
    rw [hwrap, ← hsame]
    exact Nat.mul_le_mul_right _ hi

theorem array_create_past_half :
    array_create malloc_succeeds size_past_half ElemType.INT true
      = some { int_array_past_half with parray := fun _ => Value.indeterminate } := by
  unfold array_create array_allocate
  simp only [malloc_succeeds, size_past_half, array_sizeof_type, size_t_wrap,
    int_array_past_half]
  norm_num

theorem fill_loop_past_half (v : Value) :
    fill_loop 4 8 size_past_half (fun _ => some v) 0 (fun _ => Value.indeterminate)
      = none := by
  unfold size_past_half
  rw [fill_loop]; norm_num
  rw [fill_loop]; norm_num
  rw [fill_loop]; norm_num

theorem array_full_eq (env : MallocEnv) (size : Nat) (type : ElemType) (v : Value)
    (is_dynamic : Bool) (a : Array) (htype : type ≠ ElemType.STRING)
    (h : array_create env size type is_dynamic = some a) :
    array_full env size type (some v) is_dynamic
      = (fill_loop a.sizeof_type a.parray_bytes size (fun _ => some v) 0 a.parray).map
          fun parray => some { a with parray := parray } := by
  unfold array_full
  simp only [h, htype, if_false]
  cases fill_loop a.sizeof_type a.parray_bytes size (fun _ => some v) 0 a.parray <;> rfl

/-! ## Lemmas on rounding -/

theorem round_half_even_int (k : Int) : round_half_even (k : ℚ) = k := by
  unfold round_half_even
  simp

theorem round_half_even_down (x : ℚ) (k : Int) (h1 : (k : ℚ) ≤ x) (h2 : x - k < 1 / 2) :
    round_half_even x = k := by
  have hf : ⌊x⌋ = k := Int.floor_eq_iff.mpr ⟨h1, by linarith⟩
  unfold round_half_even
  rw [hf, if_pos h2]

theorem round_half_even_up (x : ℚ) (k : Int) (h1 : 1 / 2 < x - k) (h2 : x < k + 1) :
    round_half_even x = k + 1 := by
  have hf : ⌊x⌋ = k := Int.floor_eq_iff.mpr ⟨by linarith, h2⟩
  unfold round_half_even
  rw [hf, if_neg (by linarith), if_pos h1]

theorem round_half_even_tie (x : ℚ) (k : Int) (h : x = k + 1 / 2) :
    round_half_even x = if k % 2 = 0 then k else k + 1 := by
  have hf : ⌊x⌋ = k := Int.floor_eq_iff.mpr ⟨by linarith, by linarith⟩
  unfold round_half_even
  rw [hf, if_neg (by linarith), if_neg (by linarith)]

theorem round_half_even_near (x : ℚ) : |(round_half_even x : ℚ) - x| ≤ 1 := by
  have h1 := Int.floor_le x
  have h2 := Int.lt_floor_add_one x
  unfold round_half_even
  rw [abs_le]
  split_ifs <;> push_cast <;> constructor <;> linarith

theorem int_log_two_eq (x : ℚ) (e : Int) (h1 : (2 : ℚ) ^ e ≤ |x|)
    (h2 : |x| < (2 : ℚ) ^ (e + 1)) : Int.log 2 |x| = e := by
  have hpos : 0 < |x| := lt_of_lt_of_le (by positivity) h1
  have a : e ≤ Int.log 2 |x| :=
    (Int.zpow_le_iff_le_log (by norm_num) hpos).mp (by simpa using h1)
  have b : Int.log 2 |x| < e + 1 :=
    (Int.lt_zpow_iff_log_lt (by norm_num) hpos).mp (by simpa using h2)
  omega

/-- Evaluation of `round_binary` once the binade of `x` is known. -/
theorem round_binary_eq (p : Nat) (emin : Int) (x : ℚ) (e u : Int)
    (h1 : (2 : ℚ) ^ e ≤ |x|) (h2 : |x| < (2 : ℚ) ^ (e + 1))
    (hu : max (e + 1 - (p : Int)) emin = u) :
    round_binary p emin x = (round_half_even (x / (2 : ℚ) ^ u) : ℚ) * (2 : ℚ) ^ u := by
  have hpos : 0 < |x| := lt_of_lt_of_le (by positivity) h1
  have hx : x ≠ 0 := abs_pos.mp hpos
  unfold round_binary
  rw [if_neg hx, int_log_two_eq x e h1 h2, hu]

theorem round_binary_down (p : Nat) (emin : Int) (x : ℚ) (e u k : Int)
    (h1 : (2 : ℚ) ^ e ≤ |x|) (h2 : |x| < (2 : ℚ) ^ (e + 1))
    (hu : max (e + 1 - (p : Int)) emin = u)
    (hk1 : (k : ℚ) * (2 : ℚ) ^ u ≤ x) (hk2 : x - (k : ℚ) * (2 : ℚ) ^ u < (2 : ℚ) ^ u / 2) :
    round_binary p emin x = (k : ℚ) * (2 : ℚ) ^ u := by
  have hpow : (0 : ℚ) < (2 : ℚ) ^ u := by positivity
  rw [round_binary_eq p emin x e u h1 h2 hu, round_half_even_down _ k]
  · rw [le_div_iff₀ hpow]; exact hk1
  · rw [div_sub' _ _ _ (ne_of_gt hpow), div_lt_iff₀ hpow]
    linarith

theorem round_binary_up (p : Nat) (emin : Int) (x : ℚ) (e u k : Int)
    (h1 : (2 : ℚ) ^ e ≤ |x|) (h2 : |x| < (2 : ℚ) ^ (e + 1))
    (hu : max (e + 1 - (p : Int)) emin = u)
    (hk1 : (2 : ℚ) ^ u / 2 < x - (k : ℚ) * (2 : ℚ) ^ u)
    (hk2 : x < ((k : ℚ) + 1) * (2 : ℚ) ^ u) :
    round_binary p emin x = ((k : ℚ) + 1) * (2 : ℚ) ^ u := by
  have hpow : (0 : ℚ) < (2 : ℚ) ^ u := by positivity
  rw [round_binary_eq p emin x e u h1 h2 hu, round_half_even_up _ k]
  · push_cast; rfl
  · rw [div_sub' _ _ _ (ne_of_gt hpow), lt_div_iff₀ hpow]
    linarith
  · rw [div_lt_iff₀ hpow]; exact hk2

theorem round_binary_tie_even (p : Nat) (emin : Int) (x : ℚ) (e u k : Int)
    (h1 : (2 : ℚ) ^ e ≤ |x|) (h2 : |x| < (2 : ℚ) ^ (e + 1))
    (hu : max (e + 1 - (p : Int)) emin = u)
    (hk : x = (k : ℚ) * (2 : ℚ) ^ u + (2 : ℚ) ^ u / 2) (hodd : k % 2 = 1) :
    round_binary p emin x = ((k : ℚ) + 1) * (2 : ℚ) ^ u := by
  have hpow : (0 : ℚ) < (2 : ℚ) ^ u := by positivity
  rw [round_binary_eq p emin x e u h1 h2 hu, round_half_even_tie _ k]
  · rw [if_neg (by omega)]; push_cast; rfl
  · rw [hk]; field_simp; ring

theorem round_binary_exact (p : Nat) (emin : Int) (x : ℚ) (e u k : Int)
    (h1 : (2 : ℚ) ^ e ≤ |x|) (h2 : |x| < (2 : ℚ) ^ (e + 1))
    (hu : max (e + 1 - (p : Int)) emin = u) (hk : x = (k : ℚ) * (2 : ℚ) ^ u) :
    round_binary p emin x = x := by
  have hpow : (0 : ℚ) < (2 : ℚ) ^ u := by positivity
  rw [round_binary_eq p emin x e u h1 h2 hu]
  have : x / (2 : ℚ) ^ u = (k : ℚ) := by rw [hk]; field_simp
  rw [this, round_half_even_int, hk]

/-- An integer of magnitude below `2^p` is a floating-point number of precision `p`. -/
theorem round_binary_int (p : Nat) (emin : Int) (k : Int) (hemin : emin ≤ 0)
    (hk : |k| < 2 ^ p) : round_binary p emin (k : ℚ) = k := by
  by_cases h0 : k = 0
  · subst h0; simp [round_binary]
  have hx : (k : ℚ) ≠ 0 := by exact_mod_cast h0
  have hpos : 0 < |(k : ℚ)| := abs_pos.mpr hx
  have hlog : Int.log 2 |(k : ℚ)| < (p : Int) := by
    rw [← Int.lt_zpow_iff_log_lt (by norm_num) hpos]
    have : |(k : ℚ)| < (2 : ℚ) ^ p := by exact_mod_cast hk
    simpa using this
  unfold round_binary
  rw [if_neg hx]
  generalize hu : max (Int.log 2 |(k : ℚ)| + 1 - (p : Int)) emin = u
  have hu0 : u ≤ 0 := by rw [← hu]; exact max_le (by omega) hemin
  obtain ⟨n, hn⟩ : ∃ n : Nat, u = -(n : Int) := ⟨(-u).toNat, by omega⟩
  subst hn
  have hpow : (0 : ℚ) < (2 : ℚ) ^ n := by positivity
  have e1 : (k : ℚ) / (2 : ℚ) ^ (-(n : Int)) = ((k * 2 ^ n : Int) : ℚ) := by
    rw [zpow_neg, zpow_natCast]; push_cast; field_simp
  rw [e1, round_half_even_int, zpow_neg, zpow_natCast]
  push_cast
  field_simp

/-- Rounding moves a value by at most its own magnitude plus one. -/
theorem round_binary_abs_le (p : Nat) (emin : Int) (x : ℚ) (hp : 1 ≤ p) (hemin : emin ≤ 0) :
    |round_binary p emin x| ≤ 2 * |x| + 1 := by
  by_cases hx : x = 0
  · subst hx; simp [round_binary]
  have hpos : 0 < |x| := abs_pos.mpr hx
  unfold round_binary
  rw [if_neg hx]
  generalize hu : max (Int.log 2 |x| + 1 - (p : Int)) emin = u
  have hpow : (0 : ℚ) < (2 : ℚ) ^ u := by positivity
  have hle : (2 : ℚ) ^ u ≤ |x| + 1 := by
    rcases max_cases (Int.log 2 |x| + 1 - (p : Int)) emin with ⟨hm, -⟩ | ⟨hm, -⟩
    · rw [← hu, hm]
      have h1 : (2 : ℚ) ^ (Int.log 2 |x| + 1 - (p : Int)) ≤ (2 : ℚ) ^ (Int.log 2 |x|) :=
        zpow_le_zpow_right₀ (by norm_num) (by omega)
      have h2 : (2 : ℚ) ^ (Int.log 2 |x|) ≤ |x| := by
        simpa using Int.zpow_log_le_self (b := 2) (by norm_num) hpos
      linarith
    · rw [← hu, hm]
      have h1 : (2 : ℚ) ^ emin ≤ (2 : ℚ) ^ (0 : Int) :=
        zpow_le_zpow_right₀ (by norm_num) hemin
      rw [zpow_zero] at h1
      linarith
  have hnear := round_half_even_near (x / (2 : ℚ) ^ u)
  have hdiff : |(round_half_even (x / (2 : ℚ) ^ u) : ℚ) * (2 : ℚ) ^ u - x| ≤ (2 : ℚ) ^ u := by
    have : (round_half_even (x / (2 : ℚ) ^ u) : ℚ) * (2 : ℚ) ^ u - x
        = ((round_half_even (x / (2 : ℚ) ^ u) : ℚ) - x / (2 : ℚ) ^ u) * (2 : ℚ) ^ u := by
      field_simp
    rw [this, abs_mul, abs_of_pos hpow]
    calc |(round_half_even (x / (2 : ℚ) ^ u) : ℚ) - x / (2 : ℚ) ^ u| * (2 : ℚ) ^ u
        ≤ 1 * (2 : ℚ) ^ u := mul_le_mul_of_nonneg_right hnear (le_of_lt hpow)
      _ = (2 : ℚ) ^ u := one_mul _
  have habs : |(round_half_even (x / (2 : ℚ) ^ u) : ℚ) * (2 : ℚ) ^ u|
      ≤ |(round_half_even (x / (2 : ℚ) ^ u) : ℚ) * (2 : ℚ) ^ u - x| + |x| := by
    have := abs_add ((round_half_even (x / (2 : ℚ) ^ u) : ℚ) * (2 : ℚ) ^ u - x) x
    simpa using this
  linarith

theorem round_double_int (k : Int) (hk : |k| < 2 ^ 53) : round_double (k : ℚ) = k :=
  round_binary_int 53 (-1074) k (by decide) hk

theorem round_double_abs_le (x : ℚ) : |round_double x| ≤ 2 * |x| + 1 :=
  round_binary_abs_le 53 (-1074) x (by decide) (by decide)

theorem size_t_to_double_small (n : Nat) (h : n < 2 ^ 53) : size_t_to_double n = n := by
  have := round_double_int (n : Int) (by rw [abs_of_nonneg (by positivity)]; exact_mod_cast h)
  simpa [size_t_to_double] using this

theorem double_result_of_round (x y : ℚ) (h : round_double x = y)
    (hy : |y| < (2 : ℚ) ^ 1024) : double_result x = some y := by
  unfold double_result
  rw [h, if_pos hy]

theorem double_result_int (k : Int) (hk : |k| < 2 ^ 53) :
    double_result (k : ℚ) = some (k : ℚ) := by
  apply double_result_of_round _ _ (round_double_int k hk)
  have h1 : |(k : ℚ)| < (2 : ℚ) ^ 53 := by exact_mod_cast hk
  have h2 : (2 : ℚ) ^ 53 ≤ (2 : ℚ) ^ 1024 := by norm_num
  linarith

theorem double_result_bounded (x b : ℚ) (h : |x| ≤ b)
    (hb : 2 * b + 1 < (2 : ℚ) ^ 1024) :
    ∃ y, double_result x = some y ∧ |y| ≤ 2 * b + 1 := by
  have := round_double_abs_le x
  refine ⟨round_double x, ?_, by linarith⟩
  unfold double_result
  rw [if_pos (by linarith)]

theorem trunc_toward_zero_int (k : Int) : trunc_toward_zero (k : ℚ) = k := by
  unfold trunc_toward_zero
  split_ifs <;> simp

theorem trunc_toward_zero_abs_le (x : ℚ) : |(trunc_toward_zero x : ℚ)| ≤ |x| := by
  unfold trunc_toward_zero
  split_ifs with h
  · have h1 := Int.floor_le x
    have h2 : (0 : ℚ) ≤ (⌊x⌋ : ℚ) := by exact_mod_cast Int.floor_nonneg.mpr h
    rw [abs_of_nonneg h2, abs_of_nonneg h]; exact h1
  · push_neg at h
    have h1 := Int.le_ceil x
    have h2 : ((⌈x⌉ : Int) : ℚ) ≤ 0 := by exact_mod_cast Int.ceil_le.mpr (by simpa using le_of_lt h)
    rw [abs_of_nonpos h2, abs_of_neg h]; linarith

theorem double_to_int_bounded (x : ℚ) (h : |x| ≤ 2147483647) :
    ∃ v, double_to_int x = some v := by
  have h1 := trunc_toward_zero_abs_le x
  have h2 : |(trunc_toward_zero x : ℚ)| ≤ 2147483647 := le_trans h1 h
  rw [abs_le] at h2
  unfold double_to_int
  refine ⟨trunc_toward_zero x, ?_⟩
  rw [if_pos]
  constructor
  · have : ((-2147483647 : Int) : ℚ) ≤ (trunc_toward_zero x : ℚ) := by push_cast; exact h2.1
    have := Int.cast_le.mp this
    omega
  · have : (trunc_toward_zero x : ℚ) ≤ ((2147483647 : Int) : ℚ) := by push_cast; exact h2.2
    exact Int.cast_le.mp this

theorem double_to_int_int (k : Int) (h1 : -2147483648 ≤ k) (h2 : k ≤ 2147483647) :
    double_to_int (k : ℚ) = some k := by
  unfold double_to_int
  rw [trunc_toward_zero_int, if_pos ⟨h1, h2⟩]

/-! ## Lemmas on the sequences of the generic array -/

theorem array_arange_eq (env : MallocEnv) (start stop step : ℚ) (type : ElemType)
    (is_dynamic : Bool) (size : Nat) (a : Array) (hstep : step ≠ 0)
    (hrange : ¬ ((step > 0 ∧ start ≥ stop) ∨ (step < 0 ∧ start ≤ stop)))
    (hsize : array_arange.size start stop step = some size) (hpos : size ≠ 0)
    (hnum : type = ElemType.INT ∨ type = ElemType.FLOAT ∨ type = ElemType.DOUBLE
      ∨ type = ElemType.CHAR)
    (ha : array_create env size type is_dynamic = some a) :
    array_arange env start stop step type is_dynamic
      = (fill_loop a.sizeof_type a.parray_bytes size (sequence_element type start step) 0
          a.parray).map fun parray => some { a with parray := parray } := by
  unfold array_arange
  simp only [if_neg hstep, if_neg hrange, hsize, if_neg hpos, ha, if_pos hnum]
  cases fill_loop a.sizeof_type a.parray_bytes size (sequence_element type start step) 0
    a.parray <;> rfl

theorem array_linspace_eq (env : MallocEnv) (start stop : ℚ) (num_points : Nat)
    (type : ElemType) (is_dynamic : Bool) (step : ℚ) (a : Array)
    (hn : ¬ num_points < 2)
    (hstep : array_linspace.step start stop num_points = some step)
    (hnum : type = ElemType.INT ∨ type = ElemType.FLOAT ∨ type = ElemType.DOUBLE
      ∨ type = ElemType.CHAR)
    (ha : array_create env num_points type is_dynamic = some a) :
    array_linspace env start stop num_points type is_dynamic
      = (fill_loop a.sizeof_type a.parray_bytes num_points
          (sequence_element type start step) 0 a.parray).bind fun parray =>
          (sequence_value type stop).bind fun last =>
            if num_points * a.sizeof_type ≤ a.parray_bytes then
              some (some { a with
                parray := Function.update parray (num_points - 1) last })
            else none := by
  unfold array_linspace
  simp only [if_neg hn, ha, hstep, if_pos hnum]
  cases fill_loop a.sizeof_type a.parray_bytes num_points
    (sequence_element type start step) 0 a.parray with
  | none => rfl
  | some parray =>
    cases sequence_value type stop <;> rfl

theorem array_sizeof_type_numeric (type : ElemType)
    (hnum : type = ElemType.INT ∨ type = ElemType.FLOAT ∨ type = ElemType.DOUBLE
      ∨ type = ElemType.CHAR) : array_sizeof_type type ≠ 0 := by
  rcases hnum with h | h | h | h <;> subst h <;> decide

theorem array_arange_fill (env : MallocEnv) (start stop step : ℚ) (type : ElemType)
    (is_dynamic : Bool) (size : Nat) (hstep : step ≠ 0)
    (hrange : ¬ ((step > 0 ∧ start ≥ stop) ∨ (step < 0 ∧ start ≤ stop)))
    (hsize : array_arange.size start stop step = some size) (hpos : size ≠ 0)
    (hnum : type = ElemType.INT ∨ type = ElemType.FLOAT ∨ type = ElemType.DOUBLE
      ∨ type = ElemType.CHAR)
    (hfit : (if is_dynamic = true then 2 * size else size) * array_sizeof_type type
      < 18446744073709551616)
    (harray : env.array_ok = true) (hshape : env.shape_ok = true)
    (hdata : env.data_ok = true)
    (hpoints : ∀ i, i < size → sequence_element type start step i ≠ none) :
    ∃ a, array_arange env start stop step type is_dynamic = some (some a)
      ∧ a.count = size ∧ a.type = type
      ∧ ∀ i, i < size → sequence_element type start step i = some (a.parray i) := by
  obtain ⟨a, ha⟩ := array_create_ok env size type is_dynamic harray hshape hdata
    (array_sizeof_type_numeric type hnum)
  obtain ⟨hroom, -⟩ := array_create_room env size type is_dynamic a ha hfit
  obtain ⟨-, -, hc, ht, -⟩ := array_create_fields env size type is_dynamic a ha
  obtain ⟨filled, hf, h1, -⟩ :=
    fill_loop_spec a.sizeof_type a.parray_bytes size (sequence_element type start step)
      hroom hpoints 0 a.parray
  refine ⟨{ a with parray := filled }, ?_, hc, ht, fun i hi => h1 i (Nat.zero_le i) hi⟩
  rw [array_arange_eq env start stop step type is_dynamic size a hstep hrange hsize hpos
    hnum ha, hf]
  rfl

theorem array_linspace_fill (env : MallocEnv) (start stop : ℚ) (num_points : Nat)
    (type : ElemType) (is_dynamic : Bool) (step : ℚ) (last : Value)
    (hn : 2 ≤ num_points)
    (hstep : array_linspace.step start stop num_points = some step)
    (hnum : type = ElemType.INT ∨ type = ElemType.FLOAT ∨ type = ElemType.DOUBLE
      ∨ type = ElemType.CHAR)
    (hfit : (if is_dynamic = true then 2 * num_points else num_points)
      * array_sizeof_type type < 18446744073709551616)
    (harray : env.array_ok = true) (hshape : env.shape_ok = true)
    (hdata : env.data_ok = true)
    (hpoints : ∀ i, i < num_points → sequence_element type start step i ≠ none)
    (hlast : sequence_value type stop = some last) :
    ∃ a, array_linspace env start stop num_points type is_dynamic = some (some a)
      ∧ a.count = num_points ∧ a.type = type
      ∧ a.parray (num_points - 1) = last
      ∧ ∀ i, i < num_points - 1 →
          sequence_element type start step i = some (a.parray i) := by
  obtain ⟨a, ha⟩ := array_create_ok env num_points type is_dynamic harray hshape hdata
    (array_sizeof_type_numeric type hnum)
  obtain ⟨hroom, -⟩ := array_create_room env num_points type is_dynamic a ha hfit
  obtain ⟨-, -, hc, ht, -⟩ := array_create_fields env num_points type is_dynamic a ha
  obtain ⟨filled, hf, h1, -⟩ :=
    fill_loop_spec a.sizeof_type a.parray_bytes num_points
      (sequence_element type start step) hroom hpoints 0 a.parray
  refine ⟨{ a with parray := Function.update filled (num_points - 1) last }, ?_, hc, ht,
    ?_, ?_⟩
  · rw [array_linspace_eq env start stop num_points type is_dynamic step a (by omega)
      hstep hnum ha, hf, hlast]
    simp only [Option.some_bind, if_pos hroom]
  · simp only [Function.update_same]
  · intro i hi
    simp only
    rw [Function.update_noteq (by omega)]
    exact h1 i (Nat.zero_le i) (by omega)

theorem sequence_point_bounded (start step : ℚ) (i : Nat) (b : ℚ) (hi : (i : ℚ) ≤ b)
    (hstart : |start| ≤ b) (hstep : |step| ≤ b) (hb1 : 1 ≤ b) (hb : b ≤ 10000) :
    ∃ x, sequence_point start step i = some x ∧ |x| ≤ 17 * b ^ 2 := by
  have hi0 : (0 : ℚ) ≤ (i : ℚ) := by positivity
  have h1 : |size_t_to_double i| ≤ 3 * b := by
    have := round_double_abs_le (i : ℚ)
    rw [abs_of_nonneg hi0] at this
    unfold size_t_to_double
    linarith
  have hbb : b ^ 2 ≤ 100000000 := by nlinarith
  have hb2 : b ≤ b ^ 2 := by nlinarith
  have h2 : |size_t_to_double i * step| ≤ 3 * b ^ 2 := by
    rw [abs_mul]
    calc |size_t_to_double i| * |step| ≤ 3 * b * b :=
          mul_le_mul h1 hstep (abs_nonneg _) (by linarith)
      _ = 3 * b ^ 2 := by ring
  have hbig : (1000000000000 : ℚ) < (2 : ℚ) ^ 1024 := by norm_num
  obtain ⟨product, hp, hpb⟩ := double_result_bounded _ _ h2 (by linarith)
  have h3 : |start + product| ≤ 7 * b ^ 2 + 1 := by
    have := abs_add start product
    linarith
  obtain ⟨x, hx, hxb⟩ := double_result_bounded _ _ h3 (by linarith)
  refine ⟨x, ?_, by nlinarith⟩
  unfold sequence_point
  rw [hp]
  exact hx

theorem sequence_element_int_defined (start step : ℚ) (i : Nat) (b : ℚ) (hi : (i : ℚ) ≤ b)
    (hstart : |start| ≤ b) (hstep : |step| ≤ b) (hb1 : 1 ≤ b) (hb : b ≤ 10000) :
    sequence_element ElemType.INT start step i ≠ none := by
  obtain ⟨x, hx, hxb⟩ := sequence_point_bounded start step i b hi hstart hstep hb1 hb
  obtain ⟨v, hv⟩ := double_to_int_bounded x (by nlinarith)
  unfold sequence_element sequence_value
  rw [hx]
  simp [hv]

theorem sequence_element_double_defined (start step : ℚ) (i : Nat) (b : ℚ)
    (hi : (i : ℚ) ≤ b) (hstart : |start| ≤ b) (hstep : |step| ≤ b) (hb1 : 1 ≤ b)
    (hb : b ≤ 10000) :
    sequence_element ElemType.DOUBLE start step i ≠ none := by
  obtain ⟨x, hx, -⟩ := sequence_point_bounded start step i b hi hstart hstep hb1 hb
  unfold sequence_element sequence_value
  rw [hx]
  simp

/-- A sequence of small integers is computed without rounding. -/
theorem sequence_element_int (start step : Int) (i : Nat) (hi : i < 1024)
    (hstart : |start| < 1024) (hstep : |step| < 1024) :
    sequence_element ElemType.INT (start : ℚ) (step : ℚ) i
      = some (Value.int (start + (i : Int) * step)) := by
  have hprod : |(i : Int) * step| < 1024 * 1024 := by
    rw [abs_mul]
    have h1 : |(i : Int)| < 1024 := by rw [abs_of_nonneg (by positivity)]; exact_mod_cast hi
    have h0 : 0 ≤ |(i : Int)| := abs_nonneg _
    have h2 : 0 ≤ |step| := abs_nonneg _
    nlinarith
  have hsum : |start + (i : Int) * step| < 1024 + 1024 * 1024 := by
    have := abs_add start ((i : Int) * step)
    omega
  have e1 : size_t_to_double i = ((i : Int) : ℚ) := by
    rw [size_t_to_double_small i (by omega)]; simp
  have e2 : double_result (size_t_to_double i * (step : ℚ))
      = some (((i : Int) * step : Int) : ℚ) := by
    rw [e1, ← Int.cast_mul]
    exact double_result_int _ (by omega)
  have e3 : double_result ((start : ℚ) + (((i : Int) * step : Int) : ℚ))
      = some ((start + (i : Int) * step : Int) : ℚ) := by
    rw [← Int.cast_add]
    exact double_result_int _ (by omega)
  have e4 := double_to_int_int (start + (i : Int) * step)
    (by rw [abs_lt] at hsum; omega) (by rw [abs_lt] at hsum; omega)
  unfold sequence_element sequence_point sequence_value
  rw [e2]
  simp only [Option.some_bind]
  rw [e3]
  simp only [Option.some_bind]
  rw [e4]
  rfl

/-! ## Rounding at the concrete inputs -/

theorem round_double_tenth : round_double (1 / 10) = double_0_1 := by
  unfold round_double double_0_1
  rw [round_binary_up 53 (-1074) (1 / 10) (-4) (-56) 7205759403792793]
  · norm_num
  · rw [abs_of_pos (by norm_num)]; norm_num
  · rw [abs_of_pos (by norm_num)]; norm_num
  · decide
  · norm_num
  · norm_num

theorem round_double_thirteen_tenths : round_double (13 / 10) = double_1_3 := by
  unfold round_double double_1_3
  rw [round_binary_up 53 (-1074) (13 / 10) 0 (-52) 5854679515581644]
  · norm_num
  · rw [abs_of_pos (by norm_num)]; norm_num
  · rw [abs_of_pos (by norm_num)]; norm_num
  · decide
  · norm_num
  · norm_num

theorem array_arange_size_1_3 : array_arange.size 1 double_1_3 double_0_1 = some 4 := by
  have e1 : double_result (double_1_3 - 1)
      = some (1351079888211149 / 4503599627370496) := by
    apply double_result_of_round
    · unfold round_double double_1_3
      rw [round_binary_exact 53 (-1074) _ (-2) (-54) 5404319552844596]
      · norm_num
      · rw [abs_of_pos (by norm_num)]; norm_num
      · rw [abs_of_pos (by norm_num)]; norm_num
      · decide
      · norm_num
    · rw [abs_of_pos (by norm_num)]; norm_num
  have e2 : double_result (1351079888211149 / 4503599627370496 / double_0_1)
      = some (6755399441055745 / 2251799813685248) := by
    apply double_result_of_round
    · unfold round_double double_0_1
      rw [round_binary_up 53 (-1074) _ 1 (-51) 6755399441055744]
      · norm_num
      · rw [abs_of_pos (by norm_num)]; norm_num
      · rw [abs_of_pos (by norm_num)]; norm_num
      · decide
      · norm_num
      · norm_num
    · rw [abs_of_pos (by norm_num)]; norm_num
  have e3 : ⌈|(6755399441055745 / 2251799813685248 : ℚ)|⌉ = 4 := by
    rw [abs_of_pos (by norm_num), Int.ceil_eq_iff]
    constructor <;> norm_num
  unfold array_arange.size
  rw [e1]
  simp only [Option.some_bind]
  rw [e2]
  simp only [Option.some_bind]
  rw [e3]
  unfold double_to_size_t
  rw [trunc_toward_zero_int]
  rfl

theorem sequence_point_1_3 : sequence_point 1 double_0_1 3 = some double_1_3 := by
  have e0 : size_t_to_double 3 = 3 := by
    have := size_t_to_double_small 3 (by norm_num)
    simpa using this
  have e1 : double_result (3 * double_0_1)
      = some (1351079888211149 / 4503599627370496) := by
    apply double_result_of_round
    · unfold round_double double_0_1
      rw [round_binary_tie_even 53 (-1074) _ (-2) (-54) 5404319552844595]
      · norm_num
      · rw [abs_of_pos (by norm_num)]; norm_num
      · rw [abs_of_pos (by norm_num)]; norm_num
      · decide
      · norm_num
      · decide
    · rw [abs_of_pos (by norm_num)]; norm_num
  have e2 : double_result (1 + 1351079888211149 / 4503599627370496) = some double_1_3 := by
    apply double_result_of_round
    · unfold round_double double_1_3
      rw [round_binary_exact 53 (-1074) _ 0 (-52) 5854679515581645]
      · norm_num
      · rw [abs_of_pos (by norm_num)]; norm_num
      · rw [abs_of_pos (by norm_num)]; norm_num
      · decide
      · norm_num
    · unfold double_1_3; rw [abs_of_pos (by norm_num)]; norm_num
  unfold sequence_point
  rw [e0, e1]
  simp only [Option.some_bind]
  exact e2

theorem array_arange_size_spec (start stop step : ℚ) (size : Nat)
    (h : array_arange.size start stop step = some size) :
    ∃ difference quotient, double_result (stop - start) = some difference
      ∧ double_result (difference / step) = some quotient
      ∧ (size : Int) = ⌈|quotient|⌉ := by
  unfold array_arange.size at h
  cases hd : double_result (stop - start) with
  | none => rw [hd] at h; cases h
  | some difference =>
    rw [hd] at h
    simp only [Option.some_bind] at h
    cases hq : double_result (difference / step) with
    | none => rw [hq] at h; cases h
    | some quotient =>
      rw [hq] at h
      simp only [Option.some_bind] at h
      refine ⟨difference, quotient, rfl, hq, ?_⟩
      unfold double_to_size_t at h
      rw [trunc_toward_zero_int] at h
      split_ifs at h with hc
      injection h with h
      rw [← h]
      exact Int.toNat_of_nonneg hc.1

theorem array_arange_data_fails (env : MallocEnv) (start stop step : ℚ) (type : ElemType)
    (is_dynamic : Bool) (size : Nat)
    (hsize : array_arange.size start stop step = some size)
    (hdata : env.data_ok = false) :
    array_arange env start stop step type is_dynamic = some none := by
  unfold array_arange
  rw [hsize]
  simp only [array_create_data_fails env size type is_dynamic hdata]
  split_ifs <;> rfl

theorem array_linspace_data_fails (env : MallocEnv) (start stop : ℚ) (num_points : Nat)
    (type : ElemType) (is_dynamic : Bool) (hdata : env.data_ok = false) :
    array_linspace env start stop num_points type is_dynamic = some none := by
  unfold array_linspace
  rw [array_create_data_fails env num_points type is_dynamic hdata]
  simp only
  split_ifs <;> rfl

theorem array_arange_size_0_10_2 : array_arange.size 0 10 2 = some 5 := by
  have e1 : double_result (10 - 0) = some 10 := by
    have := double_result_int 10 (by norm_num)
    simpa using this
  have e2 : double_result (10 / 2) = some 5 := by
    have := double_result_int 5 (by norm_num)
    have e : (10 / 2 : ℚ) = ((5 : Int) : ℚ) := by norm_num
    rw [e, this]; norm_num
  have e3 : ⌈|(5 : ℚ)|⌉ = 5 := by
    rw [abs_of_pos (by norm_num), Int.ceil_eq_iff]
    constructor <;> norm_num
  unfold array_arange.size
  rw [e1]
  simp only [Option.some_bind]
  rw [e2]
  simp only [Option.some_bind]
  rw [e3]
  unfold double_to_size_t
  rw [trunc_toward_zero_int]
  rfl

theorem array_linspace_step_0_10_6 : array_linspace.step 0 10 6 = some 2 := by
  have e1 : double_result (10 - 0) = some 10 := by
    have := double_result_int 10 (by norm_num)
    simpa using this
  have e0 : size_t_to_double (6 - 1) = 5 := by
    have := size_t_to_double_small 5 (by norm_num)
    simpa using this
  have e2 : double_result (10 / 5) = some 2 := by
    have := double_result_int 2 (by norm_num)
    have e : (10 / 5 : ℚ) = ((2 : Int) : ℚ) := by norm_num
    rw [e, this]; norm_num
  unfold array_linspace.step
  rw [e1]
  simp only [Option.some_bind]
  rw [e0]
  exact e2

/-- The elements of the sequence from 0 in steps of 2, as `INT`. -/
theorem sequence_element_0_2 (i : Nat) (hi : i < 1024) :
    sequence_element ElemType.INT 0 2 i = some (Value.int (2 * (i : Int))) := by
  have := sequence_element_int 0 2 i hi (by norm_num) (by norm_num)
  have e : (0 : Int) + (i : Int) * 2 = 2 * (i : Int) := by ring
  rw [e] at this
  simpa using this

theorem sequence_value_int (k : Int) (h1 : -2147483648 ≤ k) (h2 : k ≤ 2147483647) :
    sequence_value ElemType.INT (k : ℚ) = some (Value.int k) := by
  unfold sequence_value
  rw [double_to_int_int k h1 h2]
  rfl

theorem array_linspace_step_0_30_23 :
    array_linspace.step 0 30 23 = some (6141272219141585 / 4503599627370496) := by
  have e1 : double_result (30 - 0) = some 30 := by
    have := double_result_int 30 (by norm_num)
    simpa using this
  have e0 : size_t_to_double (23 - 1) = 22 := by
    have := size_t_to_double_small 22 (by norm_num)
    simpa using this
  have e2 : double_result (30 / 22) = some (6141272219141585 / 4503599627370496) := by
    apply double_result_of_round
    · unfold round_double
      rw [round_binary_down 53 (-1074) _ 0 (-52) 6141272219141585]
      · norm_num
      · rw [abs_of_pos (by norm_num)]; norm_num
      · rw [abs_of_pos (by norm_num)]; norm_num
      · decide
      · norm_num
      · norm_num
    · rw [abs_of_pos (by norm_num)]; norm_num
  unfold array_linspace.step
  rw [e1]
  simp only [Option.some_bind]
  rw [e0]
  exact e2

theorem sequence_element_0_30_23 :
    sequence_element ElemType.INT 0 (6141272219141585 / 4503599627370496) 11
      = some (Value.int 14) := by
  have e0 : size_t_to_double 11 = 11 := by
    have := size_t_to_double_small 11 (by norm_num)
    simpa using this
  have e1 : double_result (11 * (6141272219141585 / 4503599627370496))
      = some (8444249301319679 / 562949953421312) := by
    apply double_result_of_round
    · unfold round_double
      rw [round_binary_down 53 (-1074) _ 3 (-49) 8444249301319679]
      · norm_num
      · rw [abs_of_pos (by norm_num)]; norm_num
      · rw [abs_of_pos (by norm_num)]; norm_num
      · decide
      · norm_num
      · norm_num
    · rw [abs_of_pos (by norm_num)]; norm_num
  have e2 : double_result (0 + 8444249301319679 / 562949953421312)
      = some (8444249301319679 / 562949953421312) := by
    apply double_result_of_round
    · unfold round_double
      rw [round_binary_exact 53 (-1074) _ 3 (-49) 8444249301319679]
      · norm_num
      · rw [abs_of_pos (by norm_num)]; norm_num
      · rw [abs_of_pos (by norm_num)]; norm_num
      · decide
      · norm_num
    · rw [abs_of_pos (by norm_num)]; norm_num
  have e3 : double_to_int (8444249301319679 / 562949953421312) = some 14 := by
    have hf : ⌊(8444249301319679 / 562949953421312 : ℚ)⌋ = 14 := by
      rw [Int.floor_eq_iff]; constructor <;> norm_num
    have ht : trunc_toward_zero (8444249301319679 / 562949953421312) = 14 := by
      unfold trunc_toward_zero
      rw [if_pos (by norm_num), hf]
    unfold double_to_int
    rw [ht]
    rfl
  unfold sequence_element sequence_point sequence_value
  rw [e0, e1]
  simp only [Option.some_bind]
  rw [e2]
  simp only [Option.some_bind]
  rw [e3]
  rfl

theorem round_binary_tie_down (p : Nat) (emin : Int) (x : ℚ) (e u k : Int)
    (h1 : (2 : ℚ) ^ e ≤ |x|) (h2 : |x| < (2 : ℚ) ^ (e + 1))
    (hu : max (e + 1 - (p : Int)) emin = u)
    (hk : x = (k : ℚ) * (2 : ℚ) ^ u + (2 : ℚ) ^ u / 2) (heven : k % 2 = 0) :
    round_binary p emin x = (k : ℚ) * (2 : ℚ) ^ u := by
  have hpow : (0 : ℚ) < (2 : ℚ) ^ u := by positivity
  rw [round_binary_eq p emin x e u h1 h2 hu, round_half_even_tie _ k]
  · rw [if_pos heven]
  · rw [hk]; field_simp; ring

theorem sequence_point_zero (start step : ℚ) :
    sequence_point start step 0 = double_result start := by
  have e0 : size_t_to_double 0 = 0 := by
    unfold size_t_to_double round_double round_binary
    simp
  have e1 : double_result (0 : ℚ) = some 0 := by
    unfold double_result round_double round_binary
    simp
  unfold sequence_point
  rw [e0, zero_mul, e1]
  simp only [Option.some_bind, add_zero]

theorem sequence_element_split (type : ElemType) (start step : ℚ) (i : Nat) (v : Value)
    (h : sequence_element type start step i = some v) :
    ∃ point, sequence_point start step i = some point
      ∧ sequence_value type point = some v := by
  unfold sequence_element at h
  cases hp : sequence_point start step i with
  | none => rw [hp] at h; cases h
  | some point => rw [hp] at h; exact ⟨point, rfl, h⟩

theorem array_arange_0_10_2 (env : MallocEnv) (is_dynamic : Bool)
    (harray : env.array_ok = true) (hshape : env.shape_ok = true)
    (hdata : env.data_ok = true) :
    ∃ a, array_arange env 0 10 2 ElemType.INT is_dynamic = some (some a) ∧ a.count = 5
      ∧ (List.range 5).map a.parray
        = [Value.int 0, Value.int 2, Value.int 4, Value.int 6, Value.int 8] := by
  obtain ⟨a, ha, hc, -, hall⟩ := array_arange_fill env 0 10 2 ElemType.INT is_dynamic 5
    (by norm_num) (by norm_num) array_arange_size_0_10_2 (by decide) (Or.inl rfl)
    (by cases is_dynamic <;> decide) harray hshape hdata
    (fun i hi => by rw [sequence_element_0_2 i (by omega)]; simp)
  have hval : ∀ i, i < 5 → a.parray i = Value.int (2 * (i : Int)) := by
    intro i hi
    have := hall i hi
    rw [sequence_element_0_2 i (by omega)] at this
    injection this with this
    exact this.symm
  refine ⟨a, ha, hc, ?_⟩
  have e : List.range 5 = [0, 1, 2, 3, 4] := by decide
  rw [e]
  simp only [List.map, hval 0 (by decide), hval 1 (by decide), hval 2 (by decide),
    hval 3 (by decide), hval 4 (by decide)]
  norm_num

theorem array_linspace_0_10_6 (env : MallocEnv) (is_dynamic : Bool)
    (harray : env.array_ok = true) (hshape : env.shape_ok = true)
    (hdata : env.data_ok = true) :
    ∃ a, array_linspace env 0 10 6 ElemType.INT is_dynamic = some (some a) ∧ a.count = 6
      ∧ (List.range 6).map a.parray
        = [Value.int 0, Value.int 2, Value.int 4, Value.int 6, Value.int 8,
            Value.int 10] := by
  have hlast : sequence_value ElemType.INT 10 = some (Value.int 10) := by
    have := sequence_value_int 10 (by norm_num) (by norm_num)
    simpa using this
  obtain ⟨a, ha, hc, -, hl, hall⟩ := array_linspace_fill env 0 10 6 ElemType.INT
    is_dynamic 2 (Value.int 10) (by decide) array_linspace_step_0_10_6 (Or.inl rfl)
    (by cases is_dynamic <;> decide) harray hshape hdata
    (fun i hi => by rw [sequence_element_0_2 i (by omega)]; simp) hlast
  have hval : ∀ i, i < 5 → a.parray i = Value.int (2 * (i : Int)) := by
    intro i hi
    have := hall i (by omega)
    rw [sequence_element_0_2 i (by omega)] at this
    injection this with this
    exact this.symm
  refine ⟨a, ha, hc, ?_⟩
  have e : List.range 6 = [0, 1, 2, 3, 4, 5] := by decide
  have hl5 : a.parray 5 = Value.int 10 := hl
  rw [e]
  simp only [List.map, hval 0 (by decide), hval 1 (by decide), hval 2 (by decide),
    hval 3 (by decide), hval 4 (by decide), hl5]
  norm_num

/-! ## Lemmas on failure of the static array operations -/

/-- For StaticIntArrays `a`, `b` of length at most `MAX_CAPACITY`: whenever
`InsertStaticIntArray` (which returns 0 for index > length or a full array),
`DeleteStaticIntArray` (index ≥ length) or `FlattenStaticIntArray` (combined length
above `MAX_CAPACITY`) returns 0, the array is exactly as before the call, length and
every element; and every call of an operation that returns leaves
`length ≤ MAX_CAPACITY`. -/
theorem StaticIntArray_failure_atomic (a b : StaticIntArray) (i : Nat) (v : Int)
    (ha : a.length ≤ MAX_CAPACITY) (hb : b.length ≤ MAX_CAPACITY) :
    ((i > a.length ∨ a.length ≥ MAX_CAPACITY) → InsertStaticIntArray a i v = some (0, a))
    ∧ (∀ a', InsertStaticIntArray a i v = some (0, a') → a' = a)
    ∧ (i ≥ a.length → DeleteStaticIntArray a i = some (0, a))
    ∧ (∀ a', DeleteStaticIntArray a i = some (0, a') → a' = a)
    ∧ (a.length + b.length > MAX_CAPACITY → FlattenStaticIntArray a b = some (0, a, b))
    ∧ (∀ a' b', FlattenStaticIntArray a b = some (0, a', b') → a' = a ∧ b' = b)
    ∧ (∀ r a', InsertStaticIntArray a i v = some (r, a') → a'.length ≤ MAX_CAPACITY)
    ∧ (∀ r a', DeleteStaticIntArray a i = some (r, a') → a'.length ≤ MAX_CAPACITY)
    ∧ (∀ r a' b', FlattenStaticIntArray a b = some (r, a', b') →
        a'.length ≤ MAX_CAPACITY ∧ b'.length ≤ MAX_CAPACITY)
    ∧ (ClearStaticIntArray a).length ≤ MAX_CAPACITY
    ∧ (∀ garbage, (NewStaticIntArray garbage).length ≤ MAX_CAPACITY) := by
  refine ⟨InsertStaticIntArray_fail a i v, fun a' h => InsertStaticIntArray_zero a i v 0 a' h rfl,
    fun h => ?_, fun a' h => DeleteStaticIntArray_zero a i 0 a' h rfl,
    fun h => FlattenStaticIntArray_fail a b ha hb h,
    fun a' b' h => FlattenStaticIntArray_zero a b 0 a' b' h rfl,
    fun r a' h => InsertStaticIntArray_length a i v r a' ha h,
    fun r a' h => DeleteStaticIntArray_length a i r a' ha h,
    fun r a' b' h => FlattenStaticIntArray_length a b r a' b' ha hb h,
    Nat.zero_le _, fun _ => Nat.zero_le _⟩
  unfold DeleteStaticIntArray
  rw [if_pos h]

/-! ## Lemmas on the tiers of the probe and on the thread advice -/

/-- The lines `suggest_matrix_blocking` prints for 32 KB of L1 data cache, 256 KB of L2
and 64-byte cache lines, whatever the other fields of the profile are. -/
theorem suggest_matrix_blocking_32_256 (hw : HardwareProfile)
    (hcache : hw.cache_info = ⟨32, 32, 256, -1, 64⟩) :
    suggest_matrix_blocking hw
      = some ([MatrixLine.header, MatrixLine.blocks_intro, MatrixLine.l1_block 48,
            MatrixLine.l2_block 144, MatrixLine.parallel_intro]
          ++ (if hw.cpu_cores.logical_cores ≥ 4 then
                [MatrixLine.use_threads hw.cpu_cores.physical_cores]
              else [MatrixLine.limited_threads hw.cpu_cores.logical_cores])
          ++ (if hw.gpu_info.has_cuda_gpu = true
                  ∧ hw.gpu_info.compute_capability_major ≥ 3 then
                [MatrixLine.gpu_acceleration]
              else [])) := by
  rw [suggest_matrix_blocking_known hw (by rw [hcache]; decide) (by rw [hcache]; decide)
    (by rw [hcache]; decide) (by rw [hcache]; decide) (by rw [hcache]; decide)
    (by rw [hcache]; decide), hcache]
  have h1 : Nat.sqrt 2730 = 52 := by
    symm
    rw [Nat.eq_sqrt]
    decide
  have h2 : Nat.sqrt 21845 = 147 := by
    symm
    rw [Nat.eq_sqrt]
    decide
  have e1 : (32 : Int).toNat * 1024 / 12 = 2730 := by decide
  have e2 : (256 : Int).toNat * 1024 / 12 = 21845 := by decide
  have hl : (64 : Int) / 4 = 16 := by decide
  simp only [e1, e2, h1, h2, hl]
  rfl

theorem array_arange_step_zero (env : MallocEnv) (start stop : ℚ) (type : ElemType)
    (is_dynamic : Bool) : array_arange env start stop 0 type is_dynamic = some none := by
  unfold array_arange
  rw [if_pos rfl]

theorem array_arange_empty_range (env : MallocEnv) (start stop step : ℚ) (type : ElemType)
    (is_dynamic : Bool) (h : (step > 0 ∧ start ≥ stop) ∨ (step < 0 ∧ start ≤ stop)) :
    array_arange env start stop step type is_dynamic = some none := by
  unfold array_arange
  split_ifs
  · rfl
  · rfl

/-- What `array_arange` computes on a valid range for the types `INT`, `FLOAT`,
`DOUBLE` and `CHAR`: with `size` the ceiling of the magnitude of `(stop - start) / step`
evaluated in double arithmetic, when `size` is positive, its byte count stays below
`2^64`, the allocations succeed and every `start + i * step` (in double arithmetic) has
a value in the element type, the result is an array of `size` elements whose element `i`
is that double converted to the element type. -/
theorem array_arange_computed (env : MallocEnv) (start stop step : ℚ) (type : ElemType)
    (is_dynamic : Bool) (size : Nat)
    (hnum : type = ElemType.INT ∨ type = ElemType.FLOAT ∨ type = ElemType.DOUBLE
      ∨ type = ElemType.CHAR)
    (hstep : step ≠ 0)
    (hrange : ¬ ((step > 0 ∧ start ≥ stop) ∨ (step < 0 ∧ start ≤ stop)))
    (hsize : array_arange.size start stop step = some size) (hpos : 0 < size)
    (hfit : (if is_dynamic = true then 2 * size else size) * array_sizeof_type type
      < 18446744073709551616)
    (harray : env.array_ok = true) (hshape : env.shape_ok = true)
    (hdata : env.data_ok = true)
    (hpoints : ∀ i, i < size → sequence_element type start step i ≠ none) :
    (∃ a, array_arange env start stop step type is_dynamic = some (some a)
        ∧ a.count = size ∧ a.type = type
        ∧ ∀ i, i < size → ∃ point, sequence_point start step i = some point
            ∧ sequence_value type point = some (a.parray i))
      ∧ (∃ difference quotient, double_result (stop - start) = some difference
          ∧ double_result (difference / step) = some quotient
          ∧ (size : Int) = ⌈|quotient|⌉)
      ∧ (∀ s t : ℚ, array_arange env s t 0 type is_dynamic = some none)
      ∧ (∀ s t d : ℚ, (d > 0 ∧ s ≥ t) ∨ (d < 0 ∧ s ≤ t) →
          array_arange env s t d type is_dynamic = some none)
      ∧ (∃ a, array_arange env 0 10 2 ElemType.INT is_dynamic = some (some a)
          ∧ a.count = 5
          ∧ (List.range 5).map a.parray
            = [Value.int 0, Value.int 2, Value.int 4, Value.int 6, Value.int 8])
      ∧ ∀ failing : MallocEnv, failing.data_ok = false →
          array_arange failing start stop step type is_dynamic = some none := by
  obtain ⟨a, ha, hc, ht, hall⟩ := array_arange_fill env start stop step type is_dynamic
    size hstep hrange hsize (by omega) hnum hfit harray hshape hdata hpoints
  refine ⟨⟨a, ha, hc, ht, fun i hi => sequence_element_split _ _ _ _ _ (hall i hi)⟩,
    array_arange_size_spec start stop step size hsize, ?_, ?_,
    array_arange_0_10_2 env is_dynamic harray hshape hdata,
    fun failing hfail => array_arange_data_fails _ _ _ _ _ _ size hsize hfail⟩
  · intro s t
    unfold array_arange
    rw [if_pos rfl]
  · intro s t d hd
    unfold array_arange
    split_ifs
    · rfl
    · rfl

/-! ## Claims -/

/-- C1: for every `0 ≤ n ≤ INT_MAX`, every build (each kernel in its vectorised form
or in its compile-time fallback form) and all buffers, `array_add_scalar` writes
`a[i] + b[i]` at every `i` in `[0, n)` and nothing else, and `array_add_sse2`,
`array_add_avx`, `array_add_avx2`, `array_add_avx512` produce exactly the same output
buffer as `array_add_scalar`; so does, for each register width, the block loop
followed by the scalar tail, whose block loop exits with a counter in `[0, n]` less
than one vector width short of `n` (for `n` below the width it runs no block). -/
theorem array_add_kernels_eq_scalar {α : Type} (flags : BuildFlags) (fadd : α → α → α)
    (a b c : Buf α) (n : Int) (h0 : 0 ≤ n) (hmax : n ≤ 2147483647) :
    (∀ j, array_add_scalar fadd a b c n j
        = if 0 ≤ j ∧ j < n then fadd (a j) (b j) else c j)
    ∧ array_add_sse2 flags fadd a b c n = array_add_scalar fadd a b c n
    ∧ array_add_avx flags fadd a b c n = array_add_scalar fadd a b c n
    ∧ array_add_avx2 flags fadd a b c n = array_add_scalar fadd a b c n
    ∧ array_add_avx512 flags fadd a b c n = array_add_scalar fadd a b c n
    ∧ (∀ w : VecReg,
        (scalar_loop fadd a b n (simd_loop fadd w a b n 0 c).1 (simd_loop fadd w a b n 0 c).2).2
            = array_add_scalar fadd a b c n
          ∧ 0 ≤ (simd_loop fadd w a b n 0 c).1
          ∧ (simd_loop fadd w a b n 0 c).1 ≤ n
          ∧ (simd_loop fadd w a b n 0 c).1 ≤ 2147483647
          ∧ n - (w.lanes : Int) < (simd_loop fadd w a b n 0 c).1
          ∧ (n < (w.lanes : Int) → simd_loop fadd w a b n 0 c = (0, c))) := by
  have hs := array_add_scalar_eq fadd a b c n
  refine ⟨fun j => ?_, ?_, ?_, ?_, ?_, fun w => ?_⟩
  · rw [hs]; rfl
  · rw [hs]; exact array_add_sse2_eq flags fadd a b c n
  · rw [hs]; exact array_add_avx_eq flags fadd a b c n
  · rw [hs]; exact array_add_avx2_eq flags fadd a b c n
  · rw [hs]; exact array_add_avx512_eq flags fadd a b c n
  · obtain ⟨_, e2, e3, e4, _⟩ := simd_loop_spec fadd w a b n 0 c
    have hle : (simd_loop fadd w a b n 0 c).1 ≤ n := by
      rcases e4 with e4 | e4
      · exact e4
      · rw [e4]; exact h0
    refine ⟨?_, e2, hle, le_trans hle hmax, e3, fun hlt => ?_⟩
    · rw [hs]; exact simd_then_tail_eq fadd w a b c n
    · rw [simd_loop, if_neg (by omega)]

/-- C1, at a concrete input: 5 elements (fewer than the AVX width, one more than the
SSE2 width), `a[i] = i`, `b[i] = 2 i`, integers standing for the floats. -/
theorem array_add_kernels_eq_scalar_witness :
    ((0 : Int) ≤ 5 ∧ (5 : Int) ≤ 2147483647)
    ∧ array_add_sse2 flags_all (fun x y : Int => x + y) (fun j => j) (fun j => 2 * j)
          (fun _ => 0) 5
        = array_add_scalar (fun x y : Int => x + y) (fun j => j) (fun j => 2 * j) (fun _ => 0) 5
    ∧ array_add_avx512 flags_all (fun x y : Int => x + y) (fun j => j) (fun j => 2 * j)
          (fun _ => 0) 5
        = array_add_scalar (fun x y : Int => x + y) (fun j => j) (fun j => 2 * j) (fun _ => 0) 5 :=
  have h := array_add_kernels_eq_scalar flags_all (fun x y : Int => x + y) (fun j => j)
    (fun j => 2 * j) (fun _ => 0) 5 (by decide) (by decide)
  ⟨⟨by decide, by decide⟩, h.2.1, h.2.2.2.2.1⟩

/-- C2: for every profile (and prior dispatch state) the kernel `init_runtime_dispatch`
stores is the one a best-first scan of the catalog [AVX-512 (avx512f), AVX2 (avx2),
AVX (avx), SSE2 (sse2)] names: the first whose flag is true in the profile, the scalar
kernel exactly when none of the four flags is true; a kernel is chosen for every
profile. -/
theorem init_runtime_dispatch_best_first (hw : HardwareProfile) (s : DispatchState) :
    (init_runtime_dispatch hw s).array_add_fn = select_best_first hw
    ∧ (init_runtime_dispatch hw s).array_add_fn =
        (if hw.cpu_features.avx512f then ArrayAddFn.avx512
         else if hw.cpu_features.avx2 then ArrayAddFn.avx2
         else if hw.cpu_features.avx then ArrayAddFn.avx
         else if hw.cpu_features.sse2 then ArrayAddFn.sse2
         else ArrayAddFn.scalar)
    ∧ ((init_runtime_dispatch hw s).array_add_fn = ArrayAddFn.scalar ↔
        (hw.cpu_features.avx512f = false ∧ hw.cpu_features.avx2 = false
          ∧ hw.cpu_features.avx = false ∧ hw.cpu_features.sse2 = false))
    ∧ (∃ k : ArrayAddFn, (init_runtime_dispatch hw s).array_add_fn = k) := by
  refine ⟨init_runtime_dispatch_eq_select hw s, init_runtime_dispatch_fn hw s, ?_, ⟨_, rfl⟩⟩
  rw [init_runtime_dispatch_fn]
  cases hw.cpu_features.avx512f <;> cases hw.cpu_features.avx2 <;>
    cases hw.cpu_features.avx <;> cases hw.cpu_features.sse2 <;> simp

/-- C3: for every profile with `avx512f = true`, whatever the other flags and the
prior state, the kernel resolved by `init_runtime_dispatch` has tier AVX2 or higher:
it is not the AVX, SSE2 or scalar kernel. -/
theorem init_runtime_dispatch_avx512_monotone (hw : HardwareProfile) (s : DispatchState)
    (h : hw.cpu_features.avx512f = true) :
    ArrayAddFn.avx2.tier ≤ (init_runtime_dispatch hw s).array_add_fn.tier
    ∧ (init_runtime_dispatch hw s).array_add_fn ≠ ArrayAddFn.avx
    ∧ (init_runtime_dispatch hw s).array_add_fn ≠ ArrayAddFn.sse2
    ∧ (init_runtime_dispatch hw s).array_add_fn ≠ ArrayAddFn.scalar := by
  rw [init_runtime_dispatch_fn, h]
  simp [ArrayAddFn.tier]

/-- C3, at the profile whose only flag is `avx512f`, from the initial state. -/
theorem init_runtime_dispatch_avx512_monotone_witness :
    profile_avx512_only.cpu_features.avx512f = true
    ∧ ArrayAddFn.avx2.tier
        ≤ (init_runtime_dispatch profile_avx512_only DispatchState.initial).array_add_fn.tier :=
  ⟨by decide,
    (init_runtime_dispatch_avx512_monotone profile_avx512_only DispatchState.initial
      (by decide)).1⟩

/-- C4: for every profile with `avx2 = true` and `avx512f = false`, `init_runtime_dispatch`
resolves to `array_add_avx2`; applied to two 4,097-element arrays holding `one` everywhere
and `two` everywhere, with `fadd one two = three` (1.0 + 2.0 = 3.0), the resolved kernel
leaves `three` at each of the 4,097 output elements, in every build; the 8-wide block loop
stops at counter 4,096, having produced elements 0 to 4,095, and the scalar tail produces
element 4,096. -/
theorem avx2_profile_end_to_end {α : Type} (hw : HardwareProfile) (s : DispatchState)
    (flags : BuildFlags) (fadd : α → α → α) (one two three : α) (a b c : Buf α)
    (havx2 : hw.cpu_features.avx2 = true) (havx512 : hw.cpu_features.avx512f = false)
    (ha : ∀ j, 0 ≤ j → j < 4097 → a j = one) (hb : ∀ j, 0 ≤ j → j < 4097 → b j = two)
    (hadd : fadd one two = three) :
    (get_array_add_function (init_runtime_dispatch hw s)).1 = ArrayAddFn.avx2
    ∧ (∀ j, 0 ≤ j → j < 4097 →
        (get_array_add_function (init_runtime_dispatch hw s)).1.call flags fadd a b c 4097 j
          = three)
    ∧ (simd_loop fadd .m256 a b 4097 0 c).1 = 4096
    ∧ (∀ j, 0 ≤ j → j < 4096 → (simd_loop fadd .m256 a b 4097 0 c).2 j = three)
    ∧ (simd_loop fadd .m256 a b 4097 0 c).2 4096 = c 4096
    ∧ (scalar_loop fadd a b 4097 (simd_loop fadd .m256 a b 4097 0 c).1
          (simd_loop fadd .m256 a b 4097 0 c).2).2 4096 = three := by
  have hfn : (get_array_add_function (init_runtime_dispatch hw s)).1 = ArrayAddFn.avx2 := by
    show (init_runtime_dispatch hw s).array_add_fn = ArrayAddFn.avx2
    rw [init_runtime_dispatch_fn, havx512, havx2]
    rfl
  have hval : ∀ j, 0 ≤ j → j < 4097 → add_range fadd a b c 0 4097 j = three := by
    intro j h1 h2
    unfold add_range
    rw [if_pos ⟨h1, h2⟩, ha j h1 h2, hb j h1 h2, hadd]
  obtain ⟨e1, e2, e3, e4, e5⟩ := simd_loop_spec fadd .m256 a b 4097 0 c
  have hi : (simd_loop fadd .m256 a b 4097 0 c).1 = 4096 := by
    have hl : ((VecReg.m256.lanes : Nat) : Int) = 8 := rfl
    rw [hl] at e3 e5
    obtain ⟨k, hk⟩ := e5
    omega
  refine ⟨hfn, fun j h1 h2 => ?_, hi, fun j h1 h2 => ?_, ?_, ?_⟩
  · rw [hfn, ArrayAddFn.call_eq]
    exact hval j h1 h2
  · rw [e1, hi]
    unfold add_range
    rw [if_pos ⟨h1, h2⟩, ha j h1 (by omega), hb j h1 (by omega), hadd]
  · rw [e1, hi]
    unfold add_range
    rw [if_neg (by omega)]
  · rw [simd_then_tail_eq]
    exact hval 4096 (by decide) (by decide)

/-- C4, at the profile with `sse2`, `avx`, `avx2` set, a build with every target macro,
and integers standing for the floats: `1 + 2 = 3`. -/
theorem avx2_profile_end_to_end_witness :
    (profile_avx2.cpu_features.avx2 = true ∧ profile_avx2.cpu_features.avx512f = false
      ∧ (1 : Int) + 2 = 3)
    ∧ (get_array_add_function (init_runtime_dispatch profile_avx2 DispatchState.initial)).1
        = ArrayAddFn.avx2
    ∧ (get_array_add_function (init_runtime_dispatch profile_avx2 DispatchState.initial)).1.call
        flags_all (fun x y : Int => x + y) (fun _ => 1) (fun _ => 2) (fun _ => 0) 4097 4096 = 3 :=
  have h := avx2_profile_end_to_end profile_avx2 DispatchState.initial flags_all
    (fun x y : Int => x + y) 1 2 3 (fun _ => 1) (fun _ => 2) (fun _ => 0)
    (by decide) (by decide) (fun _ _ _ => rfl) (fun _ _ _ => rfl) (by decide)
  ⟨⟨by decide, by decide, by decide⟩, h.1, h.2.1 4096 (by decide) (by decide)⟩

/-- C5, counterexample: in the Uninitialized state `get_array_add_function` does
return the scalar kernel, and silently: the call prints nothing and the dispatch state
after it is the initial one. -/
theorem get_array_add_function_uninitialized_silent :
    ¬ ((get_array_add_function DispatchState.initial).1 ≠ ArrayAddFn.scalar
        ∨ (get_array_add_function DispatchState.initial).2.stdout ≠ []
        ∨ (get_array_add_function DispatchState.initial).2 ≠ DispatchState.initial) := by
  decide

/-- C5, amended: calling `get_array_add_function` before any call of
`init_runtime_dispatch` is not an error; it returns the scalar kernel, the static
default of `array_add_fn`, and leaves the dispatch state as it was. -/
theorem get_array_add_function_uninitialized :
    get_array_add_function DispatchState.initial
      = (ArrayAddFn.scalar, DispatchState.initial) := by
  rfl

/-- C6: for every prior state `s` and profile `p`, after `init_runtime_dispatch p` the
function `get_array_add_function` returns the kernel the selection policy names for `p`;
`get_array_add_function` leaves every dispatch state unchanged; and running
`init_runtime_dispatch p` twice resolves the same kernel as running it once. -/
theorem get_after_init_idempotent (s : DispatchState) (p : HardwareProfile) :
    (get_array_add_function (init_runtime_dispatch p s)).1 = select_best_first p
    ∧ (∀ t : DispatchState, (get_array_add_function t).2 = t)
    ∧ (get_array_add_function (init_runtime_dispatch p (init_runtime_dispatch p s))).1
        = (get_array_add_function (init_runtime_dispatch p s)).1
    ∧ (get_array_add_function
          (get_array_add_function (init_runtime_dispatch p s)).2).1
        = select_best_first p := by
  refine ⟨init_runtime_dispatch_eq_select p s, fun _ => rfl, ?_,
    init_runtime_dispatch_eq_select p s⟩
  show (init_runtime_dispatch p (init_runtime_dispatch p s)).array_add_fn
    = (init_runtime_dispatch p s).array_add_fn
  rw [init_runtime_dispatch_fn, init_runtime_dispatch_fn]

/-- C7: for every pair of raw core counts left by the platform enumeration (zero,
negative and inverted values included), the counts `detect_cpu_cores` stores satisfy
`physical_cores ≥ 1` and `logical_cores ≥ physical_cores`. -/
theorem detect_cpu_cores_floor (raw : CPUCores) :
    1 ≤ (detect_cpu_cores raw).physical_cores
    ∧ (detect_cpu_cores raw).physical_cores ≤ (detect_cpu_cores raw).logical_cores := by
  unfold detect_cpu_cores
  simp only
  split_ifs <;> simp_all

/-- C8: for every outcome of the platform RAM query (failure, or a zero, negative or
positive value) `detect_memory_info` stores `total_ram_mb > 0`: the queried value when
it is positive, the default 1024 otherwise. -/
theorem detect_memory_info_positive (query : Option Int) :
    0 < (detect_memory_info query).total_ram_mb
    ∧ (detect_memory_info query).total_ram_mb =
        (match query with
         | some v => if 0 < v then v else 1024
         | none => 1024) := by
  unfold detect_memory_info
  cases query with
  | none => simp
  | some v =>
    simp only
    split_ifs <;> simp_all
    omega

/-- C9: for all CPUID results and all values of XCR0, `detect_cpu_features` reports
`avx = true` if and only if leaf 1 ECX has the AVX bit (28) and the OSXSAVE bit (27) set
and `(xcr0 & 6) == 6`, that is both the SSE and the AVX state bits (1 and 2) of XCR0 are
set; with OSXSAVE clear or a state bit missing, `avx` is false whatever the AVX bit. -/
theorem detect_cpu_features_avx_iff (cpuid : Nat → Nat → CpuidRegs) (xcr0 : Nat) :
    ((detect_cpu_features cpuid xcr0).avx = true ↔
        ((cpuid 1 0).ecx.testBit 28 = true ∧ (cpuid 1 0).ecx.testBit 27 = true
          ∧ xcr0 &&& 6 = 6))
    ∧ ((detect_cpu_features cpuid xcr0).avx = true ↔
        ((cpuid 1 0).ecx.testBit 28 = true ∧ (cpuid 1 0).ecx.testBit 27 = true
          ∧ xcr0.testBit 1 = true ∧ xcr0.testBit 2 = true))
    ∧ (((cpuid 1 0).ecx.testBit 27 = false ∨ xcr0 &&& 6 ≠ 6) →
        (detect_cpu_features cpuid xcr0).avx = false) := by
  have key : (detect_cpu_features cpuid xcr0).avx = true ↔
      ((cpuid 1 0).ecx.testBit 28 = true ∧ (cpuid 1 0).ecx.testBit 27 = true
        ∧ xcr0 &&& 6 = 6) := by
    rw [detect_cpu_features_avx]
    simp only [Bool.and_eq_true, beq_iff_eq]
    tauto
  refine ⟨key, ?_, ?_⟩
  · rw [key, and_six_iff]
  · intro h
    cases hv : (detect_cpu_features cpuid xcr0).avx
    · rfl
    · have := key.1 hv
      rcases h with h | h
      · rw [this.2.1] at h
        exact absurd h (by decide)
      · exact absurd this.2.2 h

/-- C10, the code at the failing input: with OSXSAVE clear in leaf 1 ECX and the
AVX-512F bit set in leaf 7 EBX, `detect_cpu_features` reports `avx512f = true` for
every value of XCR0, also when `(xcr0 & 0xE0) != 0xE0` (here XCR0 = 0), because the
XCR0 check sits inside `if (cpu_features->avx)`; the dispatcher then selects
`array_add_avx512`. -/
theorem detect_cpu_features_avx512f_ungated :
    (cpuid_osxsave_clear 1 0).ecx.testBit 27 = false
    ∧ (cpuid_osxsave_clear 7 0).ebx.testBit 16 = true
    ∧ (0 : Nat) &&& 0xE0 ≠ 0xE0
    ∧ (detect_cpu_features cpuid_osxsave_clear 0).avx = false
    ∧ (detect_cpu_features cpuid_osxsave_clear 0).avx512f = true
    ∧ (∀ xcr0 : Nat, (detect_cpu_features cpuid_osxsave_clear xcr0).avx512f = true)
    ∧ (init_runtime_dispatch
          { HardwareProfile.zero with
            cpu_features := detect_cpu_features cpuid_osxsave_clear 0 }
          DispatchState.initial).array_add_fn = ArrayAddFn.avx512 := by
  refine ⟨by decide, by decide, by decide, by decide, by decide, fun xcr0 => ?_, by decide⟩
  unfold detect_cpu_features
  have h : ((((cpuid_osxsave_clear 1 0).ecx &&& (1 <<< 27)) != 0)
      && (((cpuid_osxsave_clear 1 0).ecx &&& (1 <<< 28)) != 0)) = false := by decide
  have h16 : (((cpuid_osxsave_clear 7 0).ebx &&& (1 <<< 16)) != 0) = true := by decide
  simp only [h, h16]
  rfl

/-- C11, counterexample: when the platform enumeration resolves nothing, the L3 size
returned by `detect_cache_sizes` is still the sentinel -1 (the other four fields have
received their defaults). -/
theorem detect_cache_sizes_l3_sentinel :
    (cache_nothing_resolved CacheInfo.unknown).l3_cache_size_kb = -1
    ∧ (detect_cache_sizes cache_nothing_resolved).l3_cache_size_kb = -1
    ∧ (detect_cache_sizes cache_nothing_resolved).l1_data_cache_size_kb = 32 := by
  decide

/-- C11, amended: each of the L1 data size, L1 instruction size, L2 size and line size
that the platform enumeration leaves negative is replaced by its default (32, 32, 256 KB
and 64 bytes) and otherwise keeps the enumerated value, so none of these four is
returned as -1; the L3 size has no default and is returned as the enumeration left
it. -/
theorem detect_cache_sizes_defaults (platform : CacheInfo → CacheInfo) :
    (detect_cache_sizes platform).cache_line_size_bytes
        = (if (platform CacheInfo.unknown).cache_line_size_bytes < 0 then 64
           else (platform CacheInfo.unknown).cache_line_size_bytes)
    ∧ (detect_cache_sizes platform).l1_data_cache_size_kb
        = (if (platform CacheInfo.unknown).l1_data_cache_size_kb < 0 then 32
           else (platform CacheInfo.unknown).l1_data_cache_size_kb)
    ∧ (detect_cache_sizes platform).l1_instruction_cache_size_kb
        = (if (platform CacheInfo.unknown).l1_instruction_cache_size_kb < 0 then 32
           else (platform CacheInfo.unknown).l1_instruction_cache_size_kb)
    ∧ (detect_cache_sizes platform).l2_cache_size_kb
        = (if (platform CacheInfo.unknown).l2_cache_size_kb < 0 then 256
           else (platform CacheInfo.unknown).l2_cache_size_kb)
    ∧ (detect_cache_sizes platform).l3_cache_size_kb
        = (platform CacheInfo.unknown).l3_cache_size_kb
    ∧ (detect_cache_sizes platform).cache_line_size_bytes ≠ -1
    ∧ (detect_cache_sizes platform).l1_data_cache_size_kb ≠ -1
    ∧ (detect_cache_sizes platform).l1_instruction_cache_size_kb ≠ -1
    ∧ (detect_cache_sizes platform).l2_cache_size_kb ≠ -1 := by
  unfold detect_cache_sizes
  rw [detect_cache_sizes_fallback_eq]
  refine ⟨rfl, rfl, rfl, rfl, rfl, ?_, ?_, ?_, ?_⟩ <;> simp only <;> split_ifs <;> omega

/-- C12: for every outcome of the external GPU queries, when `detect_gpu_info` leaves
`has_cuda_gpu = false` the capability fields are the sentinel -1 (major and minor) and
the name is "Unknown"; the block that substitutes the default capability 1.0 changes
nothing when no GPU was found. -/
theorem detect_gpu_info_absent (q : GpuQueries)
    (h : (detect_gpu_info q).has_cuda_gpu = false) :
    (detect_gpu_info q).compute_capability_major = -1
    ∧ (detect_gpu_info q).compute_capability_minor = -1
    ∧ (detect_gpu_info q).gpu_name = "Unknown"
    ∧ (∀ g : GPUInfo, g.has_cuda_gpu = false →
        detect_gpu_info.default_capability g = g) := by
  have hinv : (detect_gpu_info q).absent_is_unknown := by
    unfold detect_gpu_info
    apply detect_gpu_info_default_inv
    apply detect_gpu_info_lspci_inv
    apply detect_gpu_info_nvidia_smi_inv
    intro _
    exact ⟨rfl, rfl, rfl⟩
  obtain ⟨h1, h2, h3⟩ := hinv h
  refine ⟨h1, h2, h3, fun g hg => ?_⟩
  unfold detect_gpu_info.default_capability
  rw [if_neg]
  rw [hg]
  simp

/-- C12, at the outcome where neither `nvidia-smi` nor `lspci` can be started. -/
theorem detect_gpu_info_absent_witness :
    (detect_gpu_info gpu_queries_fail).has_cuda_gpu = false
    ∧ (detect_gpu_info gpu_queries_fail).compute_capability_major = -1
    ∧ (detect_gpu_info gpu_queries_fail).compute_capability_minor = -1 :=
  have h := detect_gpu_info_absent gpu_queries_fail (by decide)
  ⟨by decide, h.1, h.2.1⟩

/-- C13: for every profile with `total_ram_mb < 256`, `estimate_memory_bandwidth` returns
the sentinel -1.0 and calls neither `malloc` nor `clock`; and for every profile, when
`malloc` fails it returns -1.0 as well, without a call of `clock`. -/
theorem estimate_memory_bandwidth_insufficient (hw : HardwareProfile) (env : BandwidthEnv)
    (h : hw.memory_info.total_ram_mb < 256) :
    estimate_memory_bandwidth hw env = (bandwidth_sentinel, [])
    ∧ (∀ (hw2 : HardwareProfile) (env2 : BandwidthEnv), env2.malloc_ok = false →
        (estimate_memory_bandwidth hw2 env2).1 = bandwidth_sentinel
        ∧ BandwidthCall.clock ∉ (estimate_memory_bandwidth hw2 env2).2) := by
  constructor
  · unfold estimate_memory_bandwidth bandwidth_sentinel
    simp only [if_pos h]
  · intro hw2 env2 hm
    unfold estimate_memory_bandwidth bandwidth_sentinel
    simp only [hm, if_true]
    split_ifs <;> simp

/-- C13, at the profile with 128 MB of RAM. -/
theorem estimate_memory_bandwidth_insufficient_witness :
    profile_ram_128.memory_info.total_ram_mb < 256
    ∧ estimate_memory_bandwidth profile_ram_128 env_zero_elapsed = (bandwidth_sentinel, []) :=
  ⟨by decide,
    (estimate_memory_bandwidth_insufficient profile_ram_128 env_zero_elapsed (by decide)).1⟩

/-- C14, counterexample: with 1024 MB of RAM, a successful allocation and equal clock
readings at start and end, `estimate_memory_bandwidth` returns +infinity, the result of
dividing 1280 by 0.0, and not the sentinel -1.0. -/
theorem estimate_memory_bandwidth_zero_elapsed_inf :
    env_zero_elapsed.clock_end = env_zero_elapsed.clock_start
    ∧ (estimate_memory_bandwidth profile_ram_1024 env_zero_elapsed).1 = CDouble.pos_inf
    ∧ (estimate_memory_bandwidth profile_ram_1024 env_zero_elapsed).1
        ≠ bandwidth_sentinel := by
  have h : (estimate_memory_bandwidth profile_ram_1024 env_zero_elapsed).1
      = CDouble.pos_inf := by
    rw [estimate_memory_bandwidth_ok _ _ (by decide) (by decide)]
    have : (((env_zero_elapsed.clock_end - env_zero_elapsed.clock_start : Int) : ℚ)
        / (env_zero_elapsed.clocks_per_sec : ℚ)) = 0 := by
      simp [env_zero_elapsed]
    rw [this, div_finite_zero]
  refine ⟨by decide, h, ?_⟩
  rw [h]
  unfold bandwidth_sentinel
  simp

/-- C14, amended: when the measured elapsed time is zero (with at least 256 MB of RAM
and a successful allocation), `estimate_memory_bandwidth` does divide the megabyte count
1280 by the zero elapsed time and returns the result of that division, +infinity, not
the sentinel -1.0. -/
theorem estimate_memory_bandwidth_zero_elapsed (hw : HardwareProfile) (env : BandwidthEnv)
    (hram : 256 ≤ hw.memory_info.total_ram_mb) (hm : env.malloc_ok = true)
    (hz : env.clock_end = env.clock_start) :
    (estimate_memory_bandwidth hw env).1 = CDouble.div_finite 1280 0
    ∧ (estimate_memory_bandwidth hw env).1 = CDouble.pos_inf
    ∧ (estimate_memory_bandwidth hw env).1 ≠ bandwidth_sentinel := by
  have h0 : (estimate_memory_bandwidth hw env).1 = CDouble.div_finite 1280 0 := by
    rw [estimate_memory_bandwidth_ok hw env hram hm, hz]
    simp
  refine ⟨h0, by rw [h0, div_finite_zero], ?_⟩
  rw [h0, div_finite_zero]
  unfold bandwidth_sentinel
  simp

/-- C14 amended, at 1024 MB of RAM with both clock readings equal to 5000. -/
theorem estimate_memory_bandwidth_zero_elapsed_witness :
    (256 ≤ profile_ram_1024.memory_info.total_ram_mb ∧ env_zero_elapsed.malloc_ok = true
      ∧ env_zero_elapsed.clock_end = env_zero_elapsed.clock_start)
    ∧ (estimate_memory_bandwidth profile_ram_1024 env_zero_elapsed).1
        = CDouble.div_finite 1280 0 :=
  ⟨⟨by decide, by decide, by decide⟩,
    (estimate_memory_bandwidth_zero_elapsed profile_ram_1024 env_zero_elapsed
      (by decide) (by decide) (by decide)).1⟩

/-- C15: for every profile whose `l1_data_cache_size_kb` or `l2_cache_size_kb` is
non-positive (the unknown sentinel -1 included), `suggest_matrix_blocking` prints its
header and the line reporting that cache information is not available, and nothing
else: no block-size line at all. -/
theorem suggest_matrix_blocking_unavailable (hw : HardwareProfile)
    (h : hw.cache_info.l1_data_cache_size_kb ≤ 0 ∨ hw.cache_info.l2_cache_size_kb ≤ 0) :
    suggest_matrix_blocking hw = some [MatrixLine.header, MatrixLine.cache_unavailable]
    ∧ (∀ lines, suggest_matrix_blocking hw = some lines →
        MatrixLine.cache_unavailable ∈ lines
        ∧ ∀ n : Int, MatrixLine.l1_block n ∉ lines ∧ MatrixLine.l2_block n ∉ lines) := by
  have h1 : suggest_matrix_blocking hw
      = some [MatrixLine.header, MatrixLine.cache_unavailable] := by
    unfold suggest_matrix_blocking
    rw [if_pos h]
  refine ⟨h1, fun lines hl => ?_⟩
  rw [h1] at hl
  cases hl
  simp

/-- C15, at the profile with `l1_data_cache_size_kb = -1`. -/
theorem suggest_matrix_blocking_unavailable_witness :
    (profile_l1_unknown.cache_info.l1_data_cache_size_kb ≤ 0
      ∨ profile_l1_unknown.cache_info.l2_cache_size_kb ≤ 0)
    ∧ suggest_matrix_blocking profile_l1_unknown
        = some [MatrixLine.header, MatrixLine.cache_unavailable] :=
  ⟨by decide, (suggest_matrix_blocking_unavailable profile_l1_unknown (by decide)).1⟩

/-- C16, counterexample: for the profile with a 4,194,304 KB L1 data cache (and 256 KB
of L2, 64-byte lines), both sizes positive, the product `l1_data_cache_size_kb * 1024`
is 2^32 and overflows `int`; `suggest_matrix_blocking` has no defined result there, in
particular it does not print the block dimension of the specification. -/
theorem suggest_matrix_blocking_overflow :
    0 < profile_l1_4gib.cache_info.l1_data_cache_size_kb
    ∧ 0 < profile_l1_4gib.cache_info.l2_cache_size_kb
    ∧ int_mul profile_l1_4gib.cache_info.l1_data_cache_size_kb 1024 = none
    ∧ suggest_matrix_blocking profile_l1_4gib = none
    ∧ ¬ ∃ tail, suggest_matrix_blocking profile_l1_4gib
          = some (MatrixLine.header :: MatrixLine.blocks_intro
              :: MatrixLine.l1_block (advised_block 4194304 64) :: tail) := by
  have h : suggest_matrix_blocking profile_l1_4gib = none := by
    unfold suggest_matrix_blocking matrix_block_size
    have hm : int_mul profile_l1_4gib.cache_info.l1_data_cache_size_kb 1024 = none := by
      decide
    rw [if_neg (by decide), hm]
  refine ⟨by decide, by decide, by decide, h, ?_⟩
  rintro ⟨tail, ht⟩
  rw [h] at ht
  cases ht

/-- C16, amended: for every profile with positive L1-data and L2 cache sizes of at most
2,097,151 KB (so that `size * 1024` fits an `int`), `suggest_matrix_blocking` prints for
each cache the dimension `floor(sqrt(cache_size_kb * 1024 / (3 * 4)))` rounded down to a
multiple of the cache-line element count `cache_line_size_bytes / 4` whenever that count
is positive; the result is then a multiple of that count, is non-negative and does not
exceed the unrounded value; 32 KB with 64-byte lines gives 48 and 256 KB gives 144. -/
theorem suggest_matrix_blocking_blocks (hw : HardwareProfile)
    (hl1 : 0 < hw.cache_info.l1_data_cache_size_kb)
    (hl1max : hw.cache_info.l1_data_cache_size_kb ≤ 2097151)
    (hl2 : 0 < hw.cache_info.l2_cache_size_kb)
    (hl2max : hw.cache_info.l2_cache_size_kb ≤ 2097151)
    (hline : -2147483648 ≤ hw.cache_info.cache_line_size_bytes)
    (hlinemax : hw.cache_info.cache_line_size_bytes ≤ 2147483647) :
    (∃ tail, suggest_matrix_blocking hw
        = some (MatrixLine.header :: MatrixLine.blocks_intro
            :: MatrixLine.l1_block (advised_block hw.cache_info.l1_data_cache_size_kb
                  hw.cache_info.cache_line_size_bytes)
            :: MatrixLine.l2_block (advised_block hw.cache_info.l2_cache_size_kb
                  hw.cache_info.cache_line_size_bytes)
            :: MatrixLine.parallel_intro :: tail)
        ∧ ∀ n : Int, MatrixLine.l1_block n ∉ tail ∧ MatrixLine.l2_block n ∉ tail)
    ∧ (∀ kb : Int, 0 < kb →
        12 * ((Nat.sqrt (kb.toNat * 1024 / (3 * 4)) : Nat) : Int) ^ 2 ≤ kb * 1024
        ∧ kb * 1024 < 12 * (((Nat.sqrt (kb.toNat * 1024 / (3 * 4)) : Nat) : Int) + 1) ^ 2)
    ∧ (∀ kb : Int, 0 < hw.cache_info.cache_line_size_bytes / 4 →
        hw.cache_info.cache_line_size_bytes / 4
            ∣ advised_block kb hw.cache_info.cache_line_size_bytes
        ∧ advised_block kb hw.cache_info.cache_line_size_bytes
            ≤ ((Nat.sqrt (kb.toNat * 1024 / (3 * 4)) : Nat) : Int)
        ∧ 0 ≤ advised_block kb hw.cache_info.cache_line_size_bytes)
    ∧ (∀ kb : Int, ¬ 0 < hw.cache_info.cache_line_size_bytes / 4 →
        advised_block kb hw.cache_info.cache_line_size_bytes
          = ((Nat.sqrt (kb.toNat * 1024 / (3 * 4)) : Nat) : Int))
    ∧ advised_block 32 64 = 48
    ∧ advised_block 256 64 = 144 := by
  refine ⟨?_, fun kb hkb => sqrt_floor_spec kb hkb, fun kb hc => ?_, fun kb hc => ?_, ?_, ?_⟩
  · rw [suggest_matrix_blocking_known hw hl1 hl1max hl2 hl2max hline hlinemax]
    refine ⟨_, rfl, fun n => ?_⟩
    constructor <;> split_ifs <;> simp
  · unfold advised_block
    simp only [if_pos hc]
    obtain ⟨h1, h2, _, h4⟩ := round_down_multiple
      ((Nat.sqrt (kb.toNat * 1024 / (3 * 4)) : Nat) : Int)
      (hw.cache_info.cache_line_size_bytes / 4) (Int.natCast_nonneg _) hc
    exact ⟨h1, h2, h4⟩
  · unfold advised_block
    simp only [if_neg hc]
  · have h : Nat.sqrt 2730 = 52 := by
      symm
      rw [Nat.eq_sqrt]
      decide
    have e : Int.toNat 32 * 1024 / (3 * 4) = 2730 := by decide
    unfold advised_block
    simp only [e, h]
    decide
  · have h : Nat.sqrt 21845 = 147 := by
      symm
      rw [Nat.eq_sqrt]
      decide
    have e : Int.toNat 256 * 1024 / (3 * 4) = 21845 := by decide
    unfold advised_block
    simp only [e, h]
    decide

/-- C16 amended, at 32 KB of L1 data cache, 256 KB of L2 and 64-byte lines: the block
dimensions printed are 48 and 144. -/
theorem suggest_matrix_blocking_blocks_witness :
    (0 < profile_cache_32_256.cache_info.l1_data_cache_size_kb
      ∧ profile_cache_32_256.cache_info.l1_data_cache_size_kb ≤ 2097151
      ∧ 0 < profile_cache_32_256.cache_info.l2_cache_size_kb
      ∧ profile_cache_32_256.cache_info.l2_cache_size_kb ≤ 2097151
      ∧ -2147483648 ≤ profile_cache_32_256.cache_info.cache_line_size_bytes
      ∧ profile_cache_32_256.cache_info.cache_line_size_bytes ≤ 2147483647)
    ∧ ∃ tail, suggest_matrix_blocking profile_cache_32_256
        = some (MatrixLine.header :: MatrixLine.blocks_intro
            :: MatrixLine.l1_block 48 :: MatrixLine.l2_block 144
            :: MatrixLine.parallel_intro :: tail) :=
  have h := suggest_matrix_blocking_blocks profile_cache_32_256
    (by decide) (by decide) (by decide) (by decide) (by decide) (by decide)
  ⟨⟨by decide, by decide, by decide, by decide, by decide, by decide⟩,
    h.1.elim fun tail ht =>
      ⟨tail, by
        have e1 : advised_block profile_cache_32_256.cache_info.l1_data_cache_size_kb
            profile_cache_32_256.cache_info.cache_line_size_bytes = 48 := h.2.2.2.2.1
        have e2 : advised_block profile_cache_32_256.cache_info.l2_cache_size_kb
            profile_cache_32_256.cache_info.cache_line_size_bytes = 144 := h.2.2.2.2.2
        rw [← e1, ← e2]
        exact ht.1⟩⟩

/-- C17, counterexample: for a profile with 8 logical and 4 physical cores (known cache
sizes) the thread line of `suggest_matrix_blocking` recommends the physical-core count 4
where the rule of the claim gives one pooled recommendation at the logical-core count 8,
which is what `print_hardware_profile` prints; and for 16 logical and 8 physical cores it
prints the single recommendation of 8 threads, without a compute-bound recommendation at
16. -/
theorem suggest_matrix_blocking_two_tiers :
    profile_cores_4_8.cpu_cores.logical_cores = 8
    ∧ profile_cores_4_8.cpu_cores.physical_cores = 4
    ∧ suggest_matrix_blocking profile_cores_4_8
        = some [MatrixLine.header, MatrixLine.blocks_intro, MatrixLine.l1_block 48,
            MatrixLine.l2_block 144, MatrixLine.parallel_intro, MatrixLine.use_threads 4]
    ∧ print_hardware_profile_threading profile_cores_4_8 = [ThreadingLine.thread_pool 8]
    ∧ profile_cores_8_16.cpu_cores.logical_cores = 16
    ∧ profile_cores_8_16.cpu_cores.physical_cores = 8
    ∧ suggest_matrix_blocking profile_cores_8_16
        = some [MatrixLine.header, MatrixLine.blocks_intro, MatrixLine.l1_block 48,
            MatrixLine.l2_block 144, MatrixLine.parallel_intro, MatrixLine.use_threads 8]
    ∧ print_hardware_profile_threading profile_cores_8_16
        = [ThreadingLine.compute_bound 16, ThreadingLine.memory_bound 8] := by
  refine ⟨rfl, rfl, ?_, by decide, rfl, rfl, ?_, by decide⟩
  · rw [suggest_matrix_blocking_32_256 profile_cores_4_8 rfl]
    decide
  · rw [suggest_matrix_blocking_32_256 profile_cores_8_16 rfl]
    decide

/-- C17, amended: for every profile the threading recommendation of
`print_hardware_profile` follows the three tiers on `logical_cores`: with 16 or more, the
logical-core count for compute-bound tasks and the physical-core count for memory-bound
tasks; with 4 to 15, one thread-pool recommendation at the logical-core count; below 4,
the advice that threading has limited benefit.  The thread line of
`suggest_matrix_blocking` follows two tiers: when the cache sizes are known (positive,
at most 2,097,151 KB, the line size an `int`) it recommends the physical-core count for 4
or more logical cores and reports limited parallelism with the logical-core count
otherwise; when a cache size is unknown it prints no thread line at all. -/
theorem threading_recommendation_tiers (hw : HardwareProfile) :
    ((16 ≤ hw.cpu_cores.logical_cores →
        print_hardware_profile_threading hw
          = [ThreadingLine.compute_bound hw.cpu_cores.logical_cores,
             ThreadingLine.memory_bound hw.cpu_cores.physical_cores])
      ∧ (4 ≤ hw.cpu_cores.logical_cores ∧ hw.cpu_cores.logical_cores ≤ 15 →
        print_hardware_profile_threading hw
          = [ThreadingLine.thread_pool hw.cpu_cores.logical_cores])
      ∧ (hw.cpu_cores.logical_cores < 4 →
        print_hardware_profile_threading hw = [ThreadingLine.limited_benefit]))
    ∧ (0 < hw.cache_info.l1_data_cache_size_kb →
        hw.cache_info.l1_data_cache_size_kb ≤ 2097151 →
        0 < hw.cache_info.l2_cache_size_kb →
        hw.cache_info.l2_cache_size_kb ≤ 2097151 →
        -2147483648 ≤ hw.cache_info.cache_line_size_bytes →
        hw.cache_info.cache_line_size_bytes ≤ 2147483647 →
        ∃ b1 b2 gpu,
          suggest_matrix_blocking hw
            = some ([MatrixLine.header, MatrixLine.blocks_intro, MatrixLine.l1_block b1,
                  MatrixLine.l2_block b2, MatrixLine.parallel_intro]
                ++ (if hw.cpu_cores.logical_cores ≥ 4 then
                      [MatrixLine.use_threads hw.cpu_cores.physical_cores]
                    else [MatrixLine.limited_threads hw.cpu_cores.logical_cores])
                ++ gpu)
          ∧ (gpu = [] ∨ gpu = [MatrixLine.gpu_acceleration]))
    ∧ (hw.cache_info.l1_data_cache_size_kb ≤ 0 ∨ hw.cache_info.l2_cache_size_kb ≤ 0 →
        suggest_matrix_blocking hw
          = some [MatrixLine.header, MatrixLine.cache_unavailable]) := by
  refine ⟨?_, ?_, ?_⟩
  · unfold print_hardware_profile_threading
    refine ⟨fun h => ?_, fun h => ?_, fun h => ?_⟩
    · rw [if_pos h]
    · rw [if_neg (by omega), if_pos h.1]
    · rw [if_neg (by omega), if_neg (by omega)]
  · intro hl1 hl1max hl2 hl2max hline hlinemax
    rw [suggest_matrix_blocking_known hw hl1 hl1max hl2 hl2max hline hlinemax]
    refine ⟨_, _, _, rfl, ?_⟩
    split_ifs
    · exact Or.inr rfl
    · exact Or.inl rfl
  · intro h
    unfold suggest_matrix_blocking
    rw [if_pos h]

/-- C17 amended, at 8 logical and 4 physical cores with 32 KB of L1 data cache, 256 KB of
L2 and 64-byte lines: `print_hardware_profile` recommends a pool of 8 threads and
`suggest_matrix_blocking` recommends 4 threads. -/
theorem threading_recommendation_tiers_witness :
    (4 ≤ profile_cores_4_8.cpu_cores.logical_cores
      ∧ profile_cores_4_8.cpu_cores.logical_cores ≤ 15
      ∧ 0 < profile_cores_4_8.cache_info.l1_data_cache_size_kb
      ∧ 0 < profile_cores_4_8.cache_info.l2_cache_size_kb)
    ∧ print_hardware_profile_threading profile_cores_4_8 = [ThreadingLine.thread_pool 8]
    ∧ ∃ b1 b2 gpu,
        suggest_matrix_blocking profile_cores_4_8
          = some ([MatrixLine.header, MatrixLine.blocks_intro, MatrixLine.l1_block b1,
                MatrixLine.l2_block b2, MatrixLine.parallel_intro]
              ++ [MatrixLine.use_threads 4] ++ gpu) :=
  have h := threading_recommendation_tiers profile_cores_4_8
  ⟨⟨by decide, by decide, by decide, by decide⟩, h.1.2.1 ⟨by decide, by decide⟩,
    (h.2.1 (by decide) (by decide) (by decide) (by decide) (by decide) (by decide)).elim
      fun b1 h1 => h1.elim fun b2 h2 => h2.elim fun gpu h3 => ⟨b1, b2, gpu, h3.1⟩⟩

/-- C18, the code at the failing input: inserting 5 at index 0 of the static array
`[10, 20]` does not return; the shifting loop counts `j` upwards from the length and
writes past the last slot of the array.  The same happens for every insertion below the
length of an array that is not full. -/
theorem InsertStaticIntArray_front_faults :
    static_10_20.length < MAX_CAPACITY
    ∧ 0 ≤ static_10_20.length
    ∧ InsertStaticIntArray static_10_20 0 5 = none
    ∧ (∀ (a : StaticIntArray) (i : Nat) (v : Int), i < a.length →
        a.length < MAX_CAPACITY → InsertStaticIntArray a i v = none) := by
  refine ⟨by decide, by decide, ?_, fun a i v hi hlen => ?_⟩
  · exact InsertStaticIntArray_middle static_10_20 0 5 (by decide) (by decide)
  · exact InsertStaticIntArray_middle a i v hi hlen

/-- C19: for every StaticIntArray (length at most `MAX_CAPACITY`) and every index
`i < length`, `DeleteStaticIntArray` returns 1, the length decreases by one, the elements
below `i` are unchanged and every element that was at an index `k > i` is at `k - 1`;
for every `i ≥ length` it returns 0 and leaves the array as it was. -/
theorem DeleteStaticIntArray_spec (a : StaticIntArray) (i : Nat)
    (hwf : a.length ≤ MAX_CAPACITY) :
    (i < a.length →
      ∃ a', DeleteStaticIntArray a i = some (1, a')
        ∧ a'.length = a.length - 1
        ∧ (∀ k, k < i → a'.array k = a.array k)
        ∧ (∀ k, i < k → k < a.length → a'.array (k - 1) = a.array k))
    ∧ (a.length ≤ i → DeleteStaticIntArray a i = some (0, a)) := by
  constructor
  · intro hi
    obtain ⟨array', h1, h2⟩ := DeleteStaticIntArray_shift_spec a.length hwf i a.array
    refine ⟨{ array := array', length := a.length - 1 }, ?_, rfl, fun k hk => ?_,
      fun k hk1 hk2 => ?_⟩
    · unfold DeleteStaticIntArray
      rw [if_neg (by omega)]
      simp only [h1]
    · show array' k = a.array k
      rw [h2 k, if_neg (by omega)]
    · show array' (k - 1) = a.array k
      rw [h2 (k - 1), if_pos ⟨by omega, by omega⟩]
      congr 1
      omega
  · intro hi
    unfold DeleteStaticIntArray
    rw [if_pos hi]

/-- C19, at the array `[10, 20, 30]` and index 1: the result is `[10, 30]`. -/
theorem DeleteStaticIntArray_spec_witness :
    static_10_20_30.length ≤ MAX_CAPACITY
    ∧ ∃ a', DeleteStaticIntArray static_10_20_30 1 = some (1, a')
        ∧ a'.length = 2 ∧ a'.array 0 = 10 ∧ a'.array 1 = 30 :=
  ⟨by decide,
    ((DeleteStaticIntArray_spec static_10_20_30 1 (by decide)).1 (by decide)).elim
      fun a' h => ⟨a', h.1, h.2.1, h.2.2.1 0 (by decide), h.2.2.2 2 (by decide) (by decide)⟩⟩

/-- C20, the code at the failing input: inserting 50 at index 0 of the dynamic array
`[100, 200]`, the allocation succeeding, does not return; after the block has grown to
three cells the shifting loop counts `j` upwards from the length and writes past the end
of the block.  The same happens for every insertion below the length. -/
theorem InsertDynamicIntArray_front_faults :
    0 ≤ dynamic_100_200.length
    ∧ InsertDynamicIntArray dynamic_100_200 0 50 true = none
    ∧ (∀ (a : DynamicIntArray) (i : Nat) (v : Int), i < a.length →
        InsertDynamicIntArray a i v true = none) := by
  refine ⟨by decide, ?_, fun a i v hi => InsertDynamicIntArray_middle a i v hi⟩
  exact InsertDynamicIntArray_middle dynamic_100_200 0 50 (by decide)

/-- C21: for all distinct StaticIntArrays `a` and `b` (lengths at most `MAX_CAPACITY`),
`FlattenStaticIntArray` returns 1 when `a.length + b.length ≤ MAX_CAPACITY` and 0
otherwise; on success `a` holds its old contents followed by the contents of `b` in
order, its length is the sum of the two lengths and `b` is unchanged; on failure `a`
(and `b`) are unchanged. -/
theorem FlattenStaticIntArray_spec (a b : StaticIntArray)
    (ha : a.length ≤ MAX_CAPACITY) (hb : b.length ≤ MAX_CAPACITY) :
    (a.length + b.length ≤ MAX_CAPACITY →
      ∃ a', FlattenStaticIntArray a b = some (1, a', b)
        ∧ a'.length = a.length + b.length
        ∧ (∀ k, k < a.length → a'.array k = a.array k)
        ∧ (∀ k, k < b.length → a'.array (a.length + k) = b.array k))
    ∧ (MAX_CAPACITY < a.length + b.length → FlattenStaticIntArray a b = some (0, a, b))
    ∧ (∀ r a' b', FlattenStaticIntArray a b = some (r, a', b') →
        (r = 1 ↔ a.length + b.length ≤ MAX_CAPACITY) ∧ (r = 0 ∨ r = 1)) := by
  refine ⟨fun h => FlattenStaticIntArray_ok a b h, fun h => FlattenStaticIntArray_fail a b ha hb h,
    fun r a' b' h => ?_⟩
  by_cases hsum : a.length + b.length ≤ MAX_CAPACITY
  · obtain ⟨a'', h1, _⟩ := FlattenStaticIntArray_ok a b hsum
    rw [h1] at h
    cases h
    exact ⟨⟨fun _ => hsum, fun _ => rfl⟩, Or.inr rfl⟩
  · rw [FlattenStaticIntArray_fail a b ha hb (by omega)] at h
    cases h
    exact ⟨⟨fun h0 => absurd h0 (by decide), fun h0 => absurd h0 hsum⟩, Or.inl rfl⟩

/-- C21, at `a = [10, 20]` and `b = [40, 50]`: the result is `[10, 20, 40, 50]`. -/
theorem FlattenStaticIntArray_spec_witness :
    (static_10_20.length ≤ MAX_CAPACITY ∧ static_40_50.length ≤ MAX_CAPACITY)
    ∧ ∃ a', FlattenStaticIntArray static_10_20 static_40_50 = some (1, a', static_40_50)
        ∧ a'.length = 4 ∧ a'.array 0 = 10 ∧ a'.array 1 = 20
        ∧ a'.array 2 = 40 ∧ a'.array 3 = 50 :=
  ⟨⟨by decide, by decide⟩,
    ((FlattenStaticIntArray_spec static_10_20 static_40_50 (by decide) (by decide)).1
        (by decide)).elim
      fun a' h => ⟨a', h.1, h.2.1, h.2.2.1 0 (by decide), h.2.2.1 1 (by decide),
        h.2.2.2 0 (by decide), h.2.2.2 1 (by decide)⟩⟩

/-- C22, the code at the failing input: for the dynamic array `[100, 200]` stored in a
block of three cells, `DeallocateDynamicIntArray` returns 1 and leaves the array as it
was, capacity 3 with length 2; `AllocateDynamicIntArray(a, a->length)` returns at once
because the requested count does not exceed the capacity.  The same holds for every
non-empty array whose length is at most its capacity. -/
theorem DeallocateDynamicIntArray_no_trim :
    DeallocateDynamicIntArray dynamic_2_of_3 true = (1, dynamic_2_of_3)
    ∧ (DeallocateDynamicIntArray dynamic_2_of_3 true).2.capacity = 3
    ∧ (DeallocateDynamicIntArray dynamic_2_of_3 true).2.length = 2
    ∧ (DeallocateDynamicIntArray dynamic_2_of_3 true).2.capacity
        ≠ (DeallocateDynamicIntArray dynamic_2_of_3 true).2.length
    ∧ (∀ (a : DynamicIntArray) (realloc_ok : Bool), 0 < a.length → a.length ≤ a.capacity →
        DeallocateDynamicIntArray a realloc_ok = (1, a)) := by
  have h := DeallocateDynamicIntArray_keeps dynamic_2_of_3 true (by decide) (by decide)
  refine ⟨h, ?_, ?_, ?_, fun a ok h1 h2 => DeallocateDynamicIntArray_keeps a ok h1 h2⟩
  · rw [h]; rfl
  · rw [h]; rfl
  · rw [h]; decide


/-- Claim C23 as stated fails: with no block left for the data `array_full` returns
`NULL` for size 3, type `INT` and a pointer to 7, and for the size `2^63 + 1` of a dynamic
`INT` array, where every allocation succeeds, the byte count of the doubled capacity
wraps to 8 and the third write of the filling loop falls outside the block. -/
theorem array_full_not_total :
    array_full malloc_data_fails 3 ElemType.INT (some (Value.int 7)) false = some none
      ∧ 0 < size_past_half ∧ size_past_half < 18446744073709551616
      ∧ array_full malloc_succeeds size_past_half ElemType.INT (some (Value.int 7)) true
          = none := by
  refine ⟨?_, by norm_num [size_past_half], by norm_num [size_past_half], ?_⟩
  · unfold array_full
    rw [array_create_data_fails _ _ _ _ rfl]
  · rw [array_full_eq _ _ _ _ _ _ (by decide) array_create_past_half]
    exact congrArg (Option.map _) (fill_loop_past_half (Value.int 7))

/-- Claim C23, amended: when the three allocations succeed, the type is one of the six
enumerators other than `STRING` and the byte count of the capacity (`size`, doubled for a
dynamic array, times the element size) stays below `2^64`, `array_full` with a pointer to
`v` returns an array of that type whose count is `size` and whose element at every index
below `size` is `v`; with a null pointer it returns `NULL`, and so it does when the
block for the data cannot be allocated. -/
theorem array_full_spec (env : MallocEnv) (size : Nat) (type : ElemType) (v : Value)
    (is_dynamic : Bool) (hstring : type ≠ ElemType.STRING)
    (hvalid : type ≠ ElemType.invalid)
    (hfit : (if is_dynamic = true then 2 * size else size) * array_sizeof_type type
      < 18446744073709551616)
    (harray : env.array_ok = true) (hshape : env.shape_ok = true)
    (hdata : env.data_ok = true) :
    (∃ a, array_full env size type (some v) is_dynamic = some (some a)
        ∧ a.count = size ∧ a.type = type ∧ a.shape = [size]
        ∧ ∀ i, i < size → a.parray i = v)
      ∧ array_full env size type none is_dynamic = some none
      ∧ ∀ failing : MallocEnv, failing.data_ok = false →
          array_full failing size type (some v) is_dynamic = some none := by
  have h0 : array_sizeof_type type ≠ 0 := by cases type <;> simp_all [array_sizeof_type]
  obtain ⟨a, ha⟩ := array_create_ok env size type is_dynamic harray hshape hdata h0
  obtain ⟨filled, hf, hall⟩ := array_full_fill env size type v is_dynamic a hstring ha hfit
  obtain ⟨-, hsh, hc, ht, -⟩ := array_create_fields env size type is_dynamic a ha
  refine ⟨⟨_, hf, hc, ht, hsh, hall⟩, rfl, ?_⟩
  intro failing hfail
  unfold array_full
  rw [array_create_data_fails _ _ _ _ hfail]

/-- Instance of the amended claim C23: three `INT` elements, each 7. -/
theorem array_full_spec_witness :
    (∃ a, array_full malloc_succeeds 3 ElemType.INT (some (Value.int 7)) false
          = some (some a)
        ∧ a.count = 3 ∧ a.type = ElemType.INT ∧ a.shape = [3]
        ∧ ∀ i, i < 3 → a.parray i = Value.int 7)
      ∧ array_full malloc_succeeds 3 ElemType.INT none false = some none
      ∧ ∀ failing : MallocEnv, failing.data_ok = false →
          array_full failing 3 ElemType.INT (some (Value.int 7)) false = some none :=
  array_full_spec malloc_succeeds 3 ElemType.INT (Value.int 7) false (by decide)
    (by decide) (by decide) rfl rfl rfl

/-- Claim C24 fails on the code: for `arange(1, 1.3, 0.1)` as `DOUBLE`, whose arguments are
the doubles nearest to 1.3 and 0.1 (a positive step, `start` below `stop`), `array_arange`
returns the 4 elements the claim counts, `ceil(|stop - start| / |step|) = 4` on these
doubles, but the element at index 3, `1 + 3 * 0.1` in double arithmetic, is `stop` itself:
`stop` is not excluded.  The other parts of the claim hold: `NULL` for a step of 0 and
for an empty or inverted range, and `arange(0, 10, 2)` as `INT` is `[0, 2, 4, 6, 8]`. -/
theorem array_arange_includes_stop :
    round_double (13 / 10) = double_1_3 ∧ round_double (1 / 10) = double_0_1
      ∧ double_0_1 > 0 ∧ (1 : ℚ) < double_1_3
      ∧ ⌈|double_1_3 - 1| / |double_0_1|⌉ = 4
      ∧ (∃ a, array_arange malloc_succeeds 1 double_1_3 double_0_1 ElemType.DOUBLE false
            = some (some a)
          ∧ a.count = 4 ∧ a.parray 3 = Value.double double_1_3)
      ∧ (∃ a, array_arange malloc_succeeds 0 10 2 ElemType.INT false = some (some a)
          ∧ a.count = 5
          ∧ (List.range 5).map a.parray
            = [Value.int 0, Value.int 2, Value.int 4, Value.int 6, Value.int 8])
      ∧ (∀ (env : MallocEnv) (s t : ℚ) (type : ElemType) (is_dynamic : Bool),
          array_arange env s t 0 type is_dynamic = some none)
      ∧ (∀ (env : MallocEnv) (s t d : ℚ) (type : ElemType) (is_dynamic : Bool),
          (d > 0 ∧ s ≥ t) ∨ (d < 0 ∧ s ≤ t) →
          array_arange env s t d type is_dynamic = some none) := by
  refine ⟨round_double_thirteen_tenths, round_double_tenth,
    by unfold double_0_1; norm_num, by unfold double_1_3; norm_num, ?_, ?_,
    array_arange_0_10_2 malloc_succeeds false rfl rfl rfl,
    fun env s t type is_dynamic => array_arange_step_zero env s t type is_dynamic,
    fun env s t d type is_dynamic h => array_arange_empty_range env s t d type is_dynamic h⟩
  · unfold double_1_3 double_0_1
    rw [Int.ceil_eq_iff]
    constructor <;> norm_num [abs_of_pos]
  · have h13 : |double_1_3| ≤ 4 := by
      unfold double_1_3; rw [abs_of_pos (by norm_num)]; norm_num
    have h01 : |double_0_1| ≤ 4 := by
      unfold double_0_1; rw [abs_of_pos (by norm_num)]; norm_num
    obtain ⟨a, ha, hc, -, hall⟩ := array_arange_fill malloc_succeeds 1 double_1_3
      double_0_1 ElemType.DOUBLE false 4 (by unfold double_0_1; norm_num)
      (by unfold double_0_1 double_1_3; norm_num) array_arange_size_1_3 (by decide)
      (Or.inr (Or.inr (Or.inl rfl))) (by decide) rfl rfl rfl
      (fun i hi => sequence_element_double_defined 1 double_0_1 i 4
        (by exact_mod_cast le_of_lt hi) (by norm_num) h01 (by norm_num) (by norm_num))
    refine ⟨a, ha, hc, ?_⟩
    have h3 := hall 3 (by decide)
    unfold sequence_element at h3
    rw [sequence_point_1_3] at h3
    injection h3 with h3
    exact h3.symm

/-- Claim C25 as stated fails: for `linspace(0, 30, 23)` as `INT` the step is the double
nearest to 30/22 and `11 * step` rounds to a double just below 15, so the element at
index 11 is 14 where `start + i * (stop - start) / (num_points - 1)` is 15; and with no
block left for the data the call returns `NULL` although `num_points` is at least 2. -/
theorem array_linspace_element_below :
    (∃ a, array_linspace malloc_succeeds 0 30 23 ElemType.INT false = some (some a)
        ∧ a.count = 23 ∧ a.parray 11 = Value.int 14)
      ∧ (0 + 11 * (30 - 0) / (23 - 1) : ℚ) = 15
      ∧ sequence_value ElemType.INT 15 = some (Value.int 15)
      ∧ array_linspace malloc_data_fails 0 30 23 ElemType.INT false = some none := by
  refine ⟨?_, by norm_num, ?_, array_linspace_data_fails _ _ _ _ _ _ rfl⟩
  · have hlast : sequence_value ElemType.INT 30 = some (Value.int 30) := by
      have := sequence_value_int 30 (by norm_num) (by norm_num)
      simpa using this
    obtain ⟨a, ha, hc, -, -, hall⟩ := array_linspace_fill malloc_succeeds 0 30 23
      ElemType.INT false (6141272219141585 / 4503599627370496) (Value.int 30)
      (by decide) array_linspace_step_0_30_23 (Or.inl rfl) (by decide) rfl rfl rfl
      (fun i hi => sequence_element_int_defined 0 _ i 23
        (by exact_mod_cast le_of_lt hi) (by norm_num)
        (by rw [abs_of_pos (by norm_num)]; norm_num) (by norm_num) (by norm_num)) hlast
    refine ⟨a, ha, hc, ?_⟩
    have h11 := hall 11 (by decide)
    rw [sequence_element_0_30_23] at h11
    injection h11 with h11
    exact h11.symm
  · have := sequence_value_int 15 (by norm_num) (by norm_num)
    simpa using this

/-- Claim C25, amended: for `num_points < 2` `array_linspace` returns `NULL`.  For the
types `INT`, `FLOAT`, `DOUBLE` and `CHAR` and `num_points ≥ 2`, let `step` be
`(stop - start) / (num_points - 1)` evaluated in double arithmetic (each operation
rounded to the nearest double); when the byte count of the capacity stays below `2^64`,
the allocations succeed, every `start + i * step` (again in double arithmetic) and
`stop` have a value in the element type, the result is an array of `num_points`
elements whose last element is `stop` converted to the element type, whose element `i`
below the last is the double `start + i * step` converted to the element type, and whose
first element is `start` converted when `start` is a double.  With every allocation
succeeding `linspace(0, 10, 6)` as `INT` is `[0, 2, 4, 6, 8, 10]`; when the block for the
data cannot be allocated the result is `NULL`. -/
theorem array_linspace_spec (env : MallocEnv) (start stop : ℚ) (num_points : Nat)
    (type : ElemType) (is_dynamic : Bool) (step : ℚ) (last : Value)
    (hnum : type = ElemType.INT ∨ type = ElemType.FLOAT ∨ type = ElemType.DOUBLE
      ∨ type = ElemType.CHAR)
    (hn : 2 ≤ num_points)
    (hstep : array_linspace.step start stop num_points = some step)
    (hfit : (if is_dynamic = true then 2 * num_points else num_points)
      * array_sizeof_type type < 18446744073709551616)
    (harray : env.array_ok = true) (hshape : env.shape_ok = true)
    (hdata : env.data_ok = true)
    (hpoints : ∀ i, i < num_points → sequence_element type start step i ≠ none)
    (hlast : sequence_value type stop = some last) :
    (∃ a, array_linspace env start stop num_points type is_dynamic = some (some a)
        ∧ a.count = num_points ∧ a.type = type
        ∧ a.parray (num_points - 1) = last
        ∧ (∀ i, i < num_points - 1 → ∃ point, sequence_point start step i = some point
            ∧ sequence_value type point = some (a.parray i))
        ∧ (round_double start = start → sequence_value type start = some (a.parray 0)))
      ∧ (∃ difference, double_result (stop - start) = some difference
          ∧ double_result (difference / size_t_to_double (num_points - 1)) = some step)
      ∧ (∀ (s t : ℚ) (n : Nat), n < 2 →
          array_linspace env s t n type is_dynamic = some none)
      ∧ (∃ a, array_linspace env 0 10 6 ElemType.INT is_dynamic = some (some a)
          ∧ a.count = 6
          ∧ (List.range 6).map a.parray
            = [Value.int 0, Value.int 2, Value.int 4, Value.int 6, Value.int 8,
                Value.int 10])
      ∧ ∀ failing : MallocEnv, failing.data_ok = false →
          array_linspace failing start stop num_points type is_dynamic = some none := by
  obtain ⟨a, ha, hc, ht, hl, hall⟩ := array_linspace_fill env start stop num_points type
    is_dynamic step last hn hstep hnum hfit harray hshape hdata hpoints hlast
  refine ⟨⟨a, ha, hc, ht, hl,
      fun i hi => sequence_element_split _ _ _ _ _ (hall i hi), ?_⟩, ?_, ?_,
    array_linspace_0_10_6 env is_dynamic harray hshape hdata,
    fun failing hfail => array_linspace_data_fails _ _ _ _ _ _ hfail⟩
  · intro hdouble
    have h0 := hall 0 (by omega)
    unfold sequence_element at h0
    rw [sequence_point_zero] at h0
    unfold double_result at h0
    rw [hdouble] at h0
    split_ifs at h0 with hfin
    · exact h0
    · cases h0
  · unfold array_linspace.step at hstep
    cases hd : double_result (stop - start) with
    | none => rw [hd] at hstep; cases hstep
    | some difference => rw [hd] at hstep; exact ⟨difference, rfl, hstep⟩
  · intro s t n hlt
    unfold array_linspace
    rw [if_pos hlt]

/-- Instance of the amended claim C25: `linspace(0, 10, 6)` as a static `INT` array. -/
theorem array_linspace_spec_witness :
    (∃ a, array_linspace malloc_succeeds 0 10 6 ElemType.INT false = some (some a)
        ∧ a.count = 6 ∧ a.type = ElemType.INT
        ∧ a.parray (6 - 1) = Value.int 10
        ∧ (∀ i, i < 6 - 1 → ∃ point, sequence_point 0 2 i = some point
            ∧ sequence_value ElemType.INT point = some (a.parray i))
        ∧ (round_double 0 = 0 → sequence_value ElemType.INT 0 = some (a.parray 0)))
      ∧ (∃ difference, double_result (10 - 0) = some difference
          ∧ double_result (difference / size_t_to_double (6 - 1)) = some 2)
      ∧ (∀ (s t : ℚ) (n : Nat), n < 2 →
          array_linspace malloc_succeeds s t n ElemType.INT false = some none)
      ∧ (∃ a, array_linspace malloc_succeeds 0 10 6 ElemType.INT false = some (some a)
          ∧ a.count = 6
          ∧ (List.range 6).map a.parray
            = [Value.int 0, Value.int 2, Value.int 4, Value.int 6, Value.int 8,
                Value.int 10])
      ∧ ∀ failing : MallocEnv, failing.data_ok = false →
          array_linspace failing 0 10 6 ElemType.INT false = some none :=
  array_linspace_spec malloc_succeeds 0 10 6 ElemType.INT false 2 (Value.int 10)
    (Or.inl rfl) (by decide) array_linspace_step_0_10_6 (by decide) rfl rfl rfl
    (fun i hi => by rw [sequence_element_0_2 i (by omega)]; simp)
    (by
      have := sequence_value_int 10 (by norm_num) (by norm_num)
      simpa using this)

/-- Claim C26 as stated fails: with no block left for the data `array_copy` returns `NULL`
for the static `INT` array `[7, 8, 9]`; and for the dynamic `INT` array that `array_create`
gives for the size `2^63 + 1`, whose 8-byte block holds 7 and 8, the byte count of the
`memcpy` wraps to 4, so that the copy has the count of the source but not its element at
index 1. -/
theorem array_copy_not_total :
    array_copy malloc_data_fails (some int_array_7_8_9) false
        = some (some int_array_7_8_9, none)
      ∧ array_create malloc_succeeds size_past_half ElemType.INT true
          = some { int_array_past_half with parray := fun _ => Value.indeterminate }
      ∧ ∃ a, array_copy malloc_succeeds (some int_array_past_half) false
            = some (some int_array_past_half, some a)
          ∧ a.count = int_array_past_half.count
          ∧ 1 < int_array_past_half.count
          ∧ int_array_past_half.parray 1 = Value.int 8
          ∧ a.parray 1 = Value.indeterminate := by
  refine ⟨?_, array_create_past_half, ?_⟩
  · unfold array_copy
    simp only
    rw [array_create_data_fails _ _ _ _ rfl]
  · obtain ⟨a, ha⟩ := array_create_ok malloc_succeeds int_array_past_half.count
      int_array_past_half.type false rfl rfl rfl (by decide)
    obtain ⟨-, -, hc, -, hs, -, hcap, hb, hp, -⟩ :=
      array_create_fields _ _ _ _ a ha
    have hs4 : a.sizeof_type = 4 := hs
    have hcap2 : a.capacity = size_past_half := hcap
    have hb4 : a.parray_bytes = 4 := by
      rw [hb, hcap2, hs4]; unfold size_t_wrap size_past_half; norm_num
    have hn : size_t_wrap (int_array_past_half.count * int_array_past_half.sizeof_type)
        = 4 := by
      show size_t_wrap (size_past_half * 4) = 4
      unfold size_t_wrap size_past_half; norm_num
    have hcond : int_array_past_half.sizeof_type = a.sizeof_type
        ∧ size_t_wrap (int_array_past_half.count * int_array_past_half.sizeof_type)
          ≤ a.parray_bytes
        ∧ size_t_wrap (int_array_past_half.count * int_array_past_half.sizeof_type)
          ≤ int_array_past_half.parray_bytes := by
      rw [hn, hs4, hb4]
      exact ⟨rfl, le_refl _, by decide⟩
    refine ⟨{ a with parray := fun k =>
        if (k + 1) * a.sizeof_type
          ≤ size_t_wrap (int_array_past_half.count * int_array_past_half.sizeof_type)
        then int_array_past_half.parray k else a.parray k }, ?_, hc, ?_, rfl, ?_⟩
    · unfold array_copy
      simp only [ha]
      rw [if_neg (by decide), if_pos hcond]
    · show 1 < size_past_half
      norm_num [size_past_half]
    · simp only [hn, hs4, hp]
      norm_num

/-- Claim C26, amended: for a source of a type other than `STRING` whose element size is
that of its type and whose block holds its `count` elements, when the three allocations
succeed and the byte count of the new capacity stays below `2^64`, `array_copy` leaves
the source as it was and returns an array with the type, element size and count of the
source and the same element at every index below the count, with `is_dynamic` and the
capacity (count, or twice the count, or 8 for an empty dynamic array) taken from the
argument; for a null source it returns `NULL`, and so it does when the block for the
data cannot be allocated. -/
theorem array_copy_spec (env : MallocEnv) (src : Array) (is_dynamic : Bool)
    (hstring : src.type ≠ ElemType.STRING) (hvalid : src.type ≠ ElemType.invalid)
    (hsizeof : src.sizeof_type = array_sizeof_type src.type)
    (hblock : src.count * src.sizeof_type ≤ src.parray_bytes)
    (hfit : (if is_dynamic = true then 2 * src.count else src.count)
      * array_sizeof_type src.type < 18446744073709551616)
    (harray : env.array_ok = true) (hshape : env.shape_ok = true)
    (hdata : env.data_ok = true) :
    (∃ a, array_copy env (some src) is_dynamic = some (some src, some a)
        ∧ a.type = src.type ∧ a.sizeof_type = src.sizeof_type ∧ a.count = src.count
        ∧ (∀ i, i < src.count → a.parray i = src.parray i)
        ∧ a.is_dynamic = is_dynamic
        ∧ a.capacity = (if is_dynamic = true then
            (if src.count > 0 then 2 * src.count else 8) else src.count))
      ∧ array_copy env none is_dynamic = some (none, none)
      ∧ ∀ failing : MallocEnv, failing.data_ok = false →
          array_copy failing (some src) is_dynamic = some (some src, none) := by
  have h0 : array_sizeof_type src.type ≠ 0 := by
    revert hvalid hstring
    cases src.type <;> simp [array_sizeof_type]
  obtain ⟨a, ha⟩ := array_create_ok env src.count src.type is_dynamic harray hshape hdata h0
  obtain ⟨copied, hc, hall⟩ :=
    array_copy_memcpy env src a is_dynamic hstring hsizeof hblock ha hfit
  obtain ⟨-, -, hcount, ht, hs, hd, -⟩ :=
    array_create_fields env src.count src.type is_dynamic a ha
  obtain ⟨-, hcap⟩ := array_create_room env src.count src.type is_dynamic a ha hfit
  refine ⟨⟨_, hc, ht, by rw [hsizeof]; exact hs, hcount, hall, hd, hcap⟩, rfl, ?_⟩
  intro failing hfail
  unfold array_copy
  simp only
  rw [array_create_data_fails _ _ _ _ hfail]

/-- Instance of the amended claim C26: a dynamic copy of the static array `[7, 8, 9]`. -/
theorem array_copy_spec_witness :
    (∃ a, array_copy malloc_succeeds (some int_array_7_8_9) true
          = some (some int_array_7_8_9, some a)
        ∧ a.type = int_array_7_8_9.type ∧ a.sizeof_type = int_array_7_8_9.sizeof_type
        ∧ a.count = int_array_7_8_9.count
        ∧ (∀ i, i < int_array_7_8_9.count → a.parray i = int_array_7_8_9.parray i)
        ∧ a.is_dynamic = true
        ∧ a.capacity = (if true = true then
            (if int_array_7_8_9.count > 0 then 2 * int_array_7_8_9.count else 8)
            else int_array_7_8_9.count))
      ∧ array_copy malloc_succeeds none true = some (none, none)
      ∧ ∀ failing : MallocEnv, failing.data_ok = false →
          array_copy failing (some int_array_7_8_9) true
            = some (some int_array_7_8_9, none) :=
  array_copy_spec malloc_succeeds int_array_7_8_9 true (by decide) (by decide) rfl
    (by decide) (by decide) rfl rfl rfl

/-- C28, counterexample: with 32 KB of L1 data cache, 256 KB of L2 and 256-byte cache
lines (all positive) the cache-line element count is 64, above the unrounded L1
dimension 52, and the L1 block dimension printed by `suggest_matrix_blocking` is 0. -/
theorem suggest_matrix_blocking_zero_block :
    (0 < profile_line_256.cache_info.l1_data_cache_size_kb
      ∧ 0 < profile_line_256.cache_info.l2_cache_size_kb
      ∧ 0 < profile_line_256.cache_info.cache_line_size_bytes)
    ∧ ∃ tail, suggest_matrix_blocking profile_line_256
        = some (MatrixLine.header :: MatrixLine.blocks_intro
            :: MatrixLine.l1_block 0 :: tail) := by
  refine ⟨⟨by decide, by decide, by decide⟩, ?_⟩
  rw [suggest_matrix_blocking_known profile_line_256 (by decide) (by decide) (by decide)
    (by decide) (by decide) (by decide)]
  have h : Nat.sqrt 2730 = 52 := by
    symm
    rw [Nat.eq_sqrt]
    decide
  have e : profile_line_256.cache_info.l1_data_cache_size_kb.toNat * 1024 / 12 = 2730 := by
    decide
  have hl : profile_line_256.cache_info.cache_line_size_bytes / 4 = 64 := by decide
  rw [e, h, hl]
  exact ⟨_, rfl⟩

/-- C28, amended: for every profile with positive L1-data and L2 cache sizes (at most
2,097,151 KB) and a positive cache line size, both block dimensions printed by
`suggest_matrix_blocking` are non-negative, and a dimension is at least 1 exactly when
the cache-line element count `cache_line_size_bytes / 4` does not exceed the unrounded
value `floor(sqrt(cache_size_kb * 1024 / 12))`; otherwise it is 0. -/
theorem suggest_matrix_blocking_block_floor (hw : HardwareProfile)
    (hl1 : 0 < hw.cache_info.l1_data_cache_size_kb)
    (hl1max : hw.cache_info.l1_data_cache_size_kb ≤ 2097151)
    (hl2 : 0 < hw.cache_info.l2_cache_size_kb)
    (hl2max : hw.cache_info.l2_cache_size_kb ≤ 2097151)
    (hline : 0 < hw.cache_info.cache_line_size_bytes)
    (hlinemax : hw.cache_info.cache_line_size_bytes ≤ 2147483647) :
    ∃ b1 b2 tail,
      suggest_matrix_blocking hw
        = some (MatrixLine.header :: MatrixLine.blocks_intro
            :: MatrixLine.l1_block b1 :: MatrixLine.l2_block b2
            :: MatrixLine.parallel_intro :: tail)
      ∧ 0 ≤ b1 ∧ 0 ≤ b2
      ∧ (1 ≤ b1 ↔ hw.cache_info.cache_line_size_bytes / 4
            ≤ ((Nat.sqrt (hw.cache_info.l1_data_cache_size_kb.toNat * 1024 / (3 * 4)) : Nat)
                : Int))
      ∧ (1 ≤ b2 ↔ hw.cache_info.cache_line_size_bytes / 4
            ≤ ((Nat.sqrt (hw.cache_info.l2_cache_size_kb.toNat * 1024 / (3 * 4)) : Nat)
                : Int))
      ∧ (b1 = 0 ∨ 1 ≤ b1) ∧ (b2 = 0 ∨ 1 ≤ b2) := by
  obtain ⟨tail, ht⟩ : ∃ tail, suggest_matrix_blocking hw
      = some (MatrixLine.header :: MatrixLine.blocks_intro
          :: MatrixLine.l1_block (advised_block hw.cache_info.l1_data_cache_size_kb
                hw.cache_info.cache_line_size_bytes)
          :: MatrixLine.l2_block (advised_block hw.cache_info.l2_cache_size_kb
                hw.cache_info.cache_line_size_bytes)
          :: MatrixLine.parallel_intro :: tail) := by
    rw [suggest_matrix_blocking_known hw hl1 hl1max hl2 hl2max (by omega) hlinemax]
    exact ⟨_, rfl⟩
  have n1 := advised_block_nonneg hw.cache_info.l1_data_cache_size_kb
    hw.cache_info.cache_line_size_bytes
  have n2 := advised_block_nonneg hw.cache_info.l2_cache_size_kb
    hw.cache_info.cache_line_size_bytes
  exact ⟨_, _, tail, ht, n1, n2, advised_block_pos_iff _ _ hl1, advised_block_pos_iff _ _ hl2,
    by omega, by omega⟩

/-- C28 amended, at 32 KB of L1 data cache, 256 KB of L2 and 64-byte lines. -/
theorem suggest_matrix_blocking_block_floor_witness :
    (0 < profile_cache_32_256.cache_info.l1_data_cache_size_kb
      ∧ profile_cache_32_256.cache_info.l1_data_cache_size_kb ≤ 2097151
      ∧ 0 < profile_cache_32_256.cache_info.l2_cache_size_kb
      ∧ profile_cache_32_256.cache_info.l2_cache_size_kb ≤ 2097151
      ∧ 0 < profile_cache_32_256.cache_info.cache_line_size_bytes
      ∧ profile_cache_32_256.cache_info.cache_line_size_bytes ≤ 2147483647)
    ∧ ∃ b1 b2 tail,
        suggest_matrix_blocking profile_cache_32_256
          = some (MatrixLine.header :: MatrixLine.blocks_intro
              :: MatrixLine.l1_block b1 :: MatrixLine.l2_block b2
              :: MatrixLine.parallel_intro :: tail)
        ∧ 0 ≤ b1 ∧ 0 ≤ b2 :=
  have h := suggest_matrix_blocking_block_floor profile_cache_32_256
    (by decide) (by decide) (by decide) (by decide) (by decide) (by decide)
  ⟨⟨by decide, by decide, by decide, by decide, by decide, by decide⟩,
    h.elim fun b1 h1 => h1.elim fun b2 h2 => h2.elim fun tail h3 =>
      ⟨b1, b2, tail, h3.1, h3.2.1, h3.2.2.1⟩⟩

/-- Claim C29 fails on the code: inserting 7 at index 0 of the static array `[40, 50]` is
an operation that does not preserve `length ≤ MAX_CAPACITY`, because it has no result at
all: the shifting loop counts `j` upwards from the length and writes past the last slot
of the array.  The failure branches behave as claimed: for all arrays of length at most
`MAX_CAPACITY` an operation that returns 0 leaves the arrays as they were, and every call
that returns leaves `length ≤ MAX_CAPACITY`. -/
theorem InsertStaticIntArray_no_length_bound :
    static_40_50.length ≤ MAX_CAPACITY
    ∧ 0 < static_40_50.length
    ∧ InsertStaticIntArray static_40_50 0 7 = none
    ∧ InsertStaticIntArray static_40_50 5 7 = some (0, static_40_50)
    ∧ DeleteStaticIntArray static_40_50 5 = some (0, static_40_50)
    ∧ ∀ (a b : StaticIntArray) (i : Nat) (v : Int),
        a.length ≤ MAX_CAPACITY → b.length ≤ MAX_CAPACITY →
        (∀ a', InsertStaticIntArray a i v = some (0, a') → a' = a)
        ∧ (∀ a', DeleteStaticIntArray a i = some (0, a') → a' = a)
        ∧ (∀ a' b', FlattenStaticIntArray a b = some (0, a', b') → a' = a ∧ b' = b)
        ∧ (∀ r a', InsertStaticIntArray a i v = some (r, a') → a'.length ≤ MAX_CAPACITY)
        ∧ (∀ r a', DeleteStaticIntArray a i = some (r, a') → a'.length ≤ MAX_CAPACITY)
        ∧ (∀ r a' b', FlattenStaticIntArray a b = some (r, a', b') →
            a'.length ≤ MAX_CAPACITY ∧ b'.length ≤ MAX_CAPACITY) := by
  refine ⟨by decide, by decide,
    InsertStaticIntArray_middle static_40_50 0 7 (by decide) (by decide),
    InsertStaticIntArray_fail static_40_50 5 7 (Or.inl (by decide)),
    (StaticIntArray_failure_atomic static_40_50 static_40_50 5 7 (by decide)
      (by decide)).2.2.1 (by decide), ?_⟩
  intro a b i v ha hb
  have h := StaticIntArray_failure_atomic a b i v ha hb
  exact ⟨h.2.1, h.2.2.2.1, h.2.2.2.2.2.1, h.2.2.2.2.2.2.1, h.2.2.2.2.2.2.2.1,
    h.2.2.2.2.2.2.2.2.1⟩

/-- Claim C30 fails on the code: for the size `2^63 + 1` of a dynamic `INT` array, with
every allocation succeeding, `array_create` returns an array whose count is `2^63 + 1`
and whose capacity is `(2 * size) mod 2^64 = 2`, below the count, with a block of 8
bytes; the other parts of the claim hold there (one dimension, shape and count equal to
the size), and an unknown type gives `NULL`. -/
theorem array_create_capacity_below_count :
    (∃ a, array_create malloc_succeeds size_past_half ElemType.INT true = some a
        ∧ a.num_dimensions = 1 ∧ a.shape = [size_past_half]
        ∧ a.count = size_past_half
        ∧ a.capacity = size_t_wrap (2 * size_past_half)
        ∧ a.capacity = 2
        ∧ ¬ a.count ≤ a.capacity
        ∧ a.parray_bytes = 8)
      ∧ size_past_half < 18446744073709551616
      ∧ array_sizeof_type ElemType.invalid = 0
      ∧ array_create malloc_succeeds size_past_half ElemType.invalid true = none := by
  refine ⟨⟨_, array_create_past_half, rfl, rfl, rfl, ?_, rfl, ?_, rfl⟩, ?_, rfl,
    array_create_none_of_sizeof _ _ _ _ rfl⟩
  · show 2 = size_t_wrap (2 * size_past_half)
    unfold size_t_wrap size_past_half; norm_num
  · show ¬ size_past_half ≤ 2
    norm_num [size_past_half]
  · norm_num [size_past_half]

end DSA
